import Mathlib

/-!
# librdf: the Tokyo Cabinet hash back-end (rdf_hash_tokyodb.c) and the query bridge

A shallow embedding of the hash back-end of `src/src/rdf_hash_tokyodb.c` and of
the term converter of `src/librdf/rdf_query_rasqal.c`, and proofs about them.

## The engine

The back-end drives an embedded B+ tree (Tokyo Cabinet, `tcbdb.h`), which is an
external library.  Its primitives are modelled here after their API
documentation:

* a database is the ordered sequence of its records; keys are ordered by the
  default comparator `tccmplexical` (bytewise, a proper leading part of a key
  sorts before the key), and the records of one key keep insertion order
  (`tcbdbputdup`: "the new record is placed after the existing one");
* a database object is connected with an open mode, and `tcbdbputdup` stores a
  record only through an object connected as a writer: on any other object it
  reports false and stores nothing;
* a cursor is the index of its current record, or nothing when it has no
  current record (`tcbdbcurkey` then returns NULL);
* `tcbdbcurjump` places the cursor on the first record whose key is not below
  the given key and reports false when there is none;
* `tcbdbout3` removes all records of a key and reports false when the key has
  no record; `tcbdbget4` returns NULL when the key has no record;
* `tcbdbcurout` removes the current record and "the cursor is moved to the
  next record if possible";
* every region returned by `tcbdbcurkey` / `tcbdbcurval` carries one extra
  zero byte after its last byte.

Reads and writes of an open database are taken to be free of I/O failures;
the delete operations and the cursor are modelled on a database connected as a
writer, while `put` and `clone` carry the open mode of the object they write
to.  The sizes of keys and values are taken to fit the C type `int`, so that
the `int` casts of sizes are the identity; the record count returned by
`values_count` is narrowed to `int` as the source does.  Logging has no effect
on the values
modelled, and neither has the release of the cursor's key and value regions;
the file name buffer of a context is tracked through `LIBRDF_FREE`, because
`close` releases it.  What `open` and `close` get from their surroundings
(allocation, `tcbdbopen`, `tcbdbclose`) is a parameter.

A result of `none` stands for undefined behaviour of the C code (a NULL
dereference, a read past the end of a region) or for an exhausted loop budget.
Every loop round moves the engine cursor forward, and the loops get a budget
of one more round than the database has records; the theorems below state
their results as `some _`, so the budget is enough wherever they apply.
-/

namespace Librdf

/-- Bytes of a key or of a value; each element is a byte value. -/
abbrev Bytes := List Nat

/-- One key/value association of the store. -/
abbrev Record := Bytes × Bytes

/-- The B+ tree database object: its records in cursor order. -/
abbrev TCBDB := List Record

/-- The engine cursor: the index of the current record, if there is one. -/
abbrev BDBCUR := Option Nat

/-- The datum of the hash interface: a data pointer (possibly NULL) to `size` bytes. -/
structure librdf_hash_datum where
  data : Option Bytes
deriving DecidableEq, Repr

/-- The bytes a datum points to (none for a NULL data pointer). -/
def librdf_hash_datum.bytes (d : librdf_hash_datum) : Bytes :=
  match d.data with
  | none => []
  | some b => b

/-- The size field of a datum. -/
def librdf_hash_datum.size (d : librdf_hash_datum) : Nat := d.bytes.length

/-! ## Engine primitives -/

/-- The comparator `tccmplexical` as a test: key `a` is not above key `b`. -/
def key_le : Bytes → Bytes → Bool
  | [], _ => true
  | _ :: _, [] => false
  | x :: xs, y :: ys => if x < y then true else if y < x then false else key_le xs ys

/-- Insertion point of `tcbdbputdup`: after every record whose key is not above `k`. -/
def bdb_insert (k v : Bytes) : TCBDB → TCBDB
  | [] => [(k, v)]
  | r :: rs => if key_le r.1 k then r :: bdb_insert k v rs else (k, v) :: r :: rs

/-- Engine open mode `BDBOREADER` of `tcbdb.h`. -/
def BDBOREADER : Nat := 1

/-- Engine open mode `BDBOWRITER` of `tcbdb.h`. -/
def BDBOWRITER : Nat := 2

/-- Engine open mode `BDBOCREAT` of `tcbdb.h`. -/
def BDBOCREAT : Nat := 4

/-- Engine `tcbdbputdup` on a database object that was opened with the mode
`omode`: store a record, keeping records with the same key; on an object that
is not connected as a writer it reports false and stores nothing. -/
def tcbdbputdup (omode : Nat) (db : TCBDB) (k v : Bytes) : Bool × TCBDB :=
  if omode &&& BDBOWRITER ≠ 0 then (true, bdb_insert k v db) else (false, db)

/-- Engine `tcbdbrnum`: the number of records. -/
def tcbdbrnum (db : TCBDB) : Nat := db.length

/-- Values of the records of key `k`, in store order. -/
def values_of (db : TCBDB) (k : Bytes) : List Bytes :=
  match db with
  | [] => []
  | r :: rs => if r.1 = k then r.2 :: values_of rs k else values_of rs k

/-- Engine `tcbdbget4`: the values of the records of a key, NULL when there is none. -/
def tcbdbget4 (db : TCBDB) (k : Bytes) : Option (List Bytes) :=
  match values_of db k with
  | [] => none
  | v :: vs => some (v :: vs)

/-- Records of `db` whose key is not `k`. -/
def remove_key (k : Bytes) : TCBDB → TCBDB
  | [] => []
  | r :: rs => if r.1 = k then remove_key k rs else r :: remove_key k rs

/-- Engine `tcbdbout3`: remove all records of a key; false when the key has no record. -/
def tcbdbout3 (db : TCBDB) (k : Bytes) : Bool × TCBDB :=
  match values_of db k with
  | [] => (false, db)
  | _ :: _ => (true, remove_key k db)

/-- Engine `tcbdbcurnew`: a cursor without a current record. -/
def tcbdbcurnew (_db : TCBDB) : BDBCUR := none

/-- Engine `tcbdbcurfirst`: move to the first record; false on an empty database. -/
def tcbdbcurfirst (db : TCBDB) (_cur : BDBCUR) : Bool × BDBCUR :=
  match db with
  | [] => (false, none)
  | _ :: _ => (true, some 0)

/-- Index of the first record whose key is not below `k`. -/
def lower_bound (k : Bytes) : TCBDB → Option Nat
  | [] => none
  | r :: rs => if key_le k r.1 then some 0 else (lower_bound k rs).map (· + 1)

/-- Engine `tcbdbcurjump`: move to the first record whose key is not below `k`. -/
def tcbdbcurjump (db : TCBDB) (_cur : BDBCUR) (k : Bytes) : Bool × BDBCUR :=
  match lower_bound k db with
  | some i => (true, some i)
  | none => (false, none)

/-- Engine `tcbdbcurnext`: move to the next record; false when there is none. -/
def tcbdbcurnext (db : TCBDB) (cur : BDBCUR) : Bool × BDBCUR :=
  match cur with
  | none => (false, none)
  | some i => if i + 1 < db.length then (true, some (i + 1)) else (false, none)

/-- Engine `tcbdbcurkey`: the key of the current record, NULL without one. -/
def tcbdbcurkey (db : TCBDB) (cur : BDBCUR) : Option Bytes :=
  match cur with
  | none => none
  | some i => (db.get? i).map (·.1)

/-- Engine `tcbdbcurval`: the value of the current record, NULL without one. -/
def tcbdbcurval (db : TCBDB) (cur : BDBCUR) : Option Bytes :=
  match cur with
  | none => none
  | some i => (db.get? i).map (·.2)

/-- Engine `tcbdbcurout`: remove the current record; the cursor then stands on
the record that followed it, if any. -/
def tcbdbcurout (db : TCBDB) (cur : BDBCUR) : Bool × TCBDB × BDBCUR :=
  match cur with
  | none => (false, db, none)
  | some i =>
    if i < db.length then
      (true, db.eraseIdx i, if i + 1 < db.length then some i else none)
    else (false, db, none)

/-- The region handed out by the engine for `b`: the bytes and one zero byte. -/
def tc_region (b : Bytes) : Bytes := b ++ [0]

/-- C `memcmp` over the first `n` bytes of two regions, byte by byte up to the
first difference; `none` when it would read past the end of a region. -/
def memcmp : Bytes → Bytes → Nat → Option Int
  | _, _, 0 => some 0
  | x :: xs, y :: ys, n + 1 => if x = y then memcmp xs ys n else some ((x : Int) - (y : Int))
  | [], _, _ + 1 => none
  | _ :: _, [], _ + 1 => none

/-! ## The hash operations -/

/-- C conversion of the `uint64_t` record count to the `int` that is returned:
the count modulo 2^32, read as a two's complement number of 32 bits. -/
def int_of_uint64 (n : Nat) : Int :=
  if n % 2 ^ 32 < 2 ^ 31 then ((n % 2 ^ 32 : Nat) : Int)
  else ((n % 2 ^ 32 : Nat) : Int) - 2 ^ 32

/-- Source `librdf_hash_tokyodb_values_count`: `tcbdbrnum` returned as `int`. -/
def librdf_hash_tokyodb_values_count (db : TCBDB) : Int := int_of_uint64 (tcbdbrnum db)

/-- Source `librdf_hash_tokyodb_put` on a database object opened with the mode
`omode`: returns the code and the database. -/
def librdf_hash_tokyodb_put (omode : Nat) (db : TCBDB) (key value : librdf_hash_datum) :
    Int × TCBDB :=
  match tcbdbputdup omode db key.bytes value.bytes with
  | (false, db1) => (-1, db1)
  | (true, db1) => (0, db1)

/-- The `for` loop of `librdf_hash_tokyodb_exists` over the value list. -/
def exists_loop (temp_value : Bytes) : List Bytes → Int
  | [] => 0
  | list_value :: rest =>
    if (temp_value.length == list_value.length)
        && (memcmp temp_value list_value list_value.length == some 0) then 1
    else exists_loop temp_value rest

/-- Source `librdf_hash_tokyodb_exists`; `value = none` is a NULL value datum. -/
def librdf_hash_tokyodb_exists (db : TCBDB) (key : librdf_hash_datum)
    (value : Option librdf_hash_datum) : Int :=
  match tcbdbget4 db key.bytes with
  | none => 0
  | some list =>
    match value with
    | none => 1
    | some v => exists_loop v.bytes list

/-- Source `librdf_hash_tokyodb_delete_key`. -/
def librdf_hash_tokyodb_delete_key (db : TCBDB) (key : librdf_hash_datum) : Int × TCBDB :=
  let _ret := librdf_hash_tokyodb_exists db key none
  match tcbdbout3 db key.bytes with
  | (false, db1) => (-1, db1)
  | (true, db1) => (0, db1)

/-! ## The cursor search shared by lookup and delete -/

/-- Variables of `librdf_hash_tokyodb_cursor_find_and_perform_action` that live
across loop rounds, with the database and the four out parameters: an out
parameter is `none` for a NULL pointer and `some x` for a pointer to a slot
that holds `x`. -/
structure FindState where
  ret : Int
  has_data : Bool
  db : TCBDB
  cur : BDBCUR
  out_last_key : Option (Option Bytes)
  out_last_value : Option (Option Bytes)
deriving DecidableEq, Repr

/-- One round of the `while` loop of the search, entered with the key `db_key`
read at the cursor. -/
def find_body (key : Bytes) (value : Option Bytes) (read_only : Bool)
    (st : FindState) (db_key : Bytes) : FindState :=
  let key_match : Bool :=
    (key.length == db_key.length) && (memcmp key db_key key.length == some 0)
  let db_value : Option Bytes := if key_match then tcbdbcurval st.db st.cur else none
  let ret : Int :=
    if key_match then
      match db_value with
      | some dv =>
        match value with
        | some v =>
          if read_only then
            if (v.length != dv.length) || (memcmp v dv dv.length != some 0) then 0 else st.ret
          else if (v.length == dv.length) && (memcmp v dv dv.length == some 0) then 0
          else st.ret
        | none => 0
      | none => -1
    else st.ret
  if read_only then
    let moved := tcbdbcurnext st.db st.cur
    if ret = 0 then
      { ret := ret, has_data := false, db := st.db, cur := moved.2,
        out_last_key := st.out_last_key.map (fun _ => some db_key),
        out_last_value := st.out_last_value.map (fun _ => db_value) }
    else
      { ret := ret, has_data := moved.1, db := st.db, cur := moved.2,
        out_last_key := st.out_last_key, out_last_value := st.out_last_value }
  else
    if ret = 0 then
      match tcbdbcurout st.db st.cur with
      | (true, db1, cur1) =>
        { ret := 0, has_data := false, db := db1, cur := cur1,
          out_last_key := st.out_last_key, out_last_value := st.out_last_value }
      | (false, db1, cur1) =>
        { ret := -1, has_data := false, db := db1, cur := cur1,
          out_last_key := st.out_last_key, out_last_value := st.out_last_value }
    else
      { ret := ret, has_data := false, db := st.db, cur := st.cur,
        out_last_key := st.out_last_key, out_last_value := st.out_last_value }

/-- The `while(has_data && (db_key = tcbdbcurkey(...)) != NULL)` loop of the search. -/
def find_loop (key : Bytes) (value : Option Bytes) (read_only : Bool) :
    Nat → FindState → Option FindState
  | fuel, st =>
    if st.has_data = false then some st
    else
      match tcbdbcurkey st.db st.cur with
      | none => some st
      | some db_key =>
        match fuel with
        | 0 => none
        | fuel1 + 1 => find_loop key value read_only fuel1 (find_body key value read_only st db_key)

/-- Source `librdf_hash_tokyodb_cursor_find_and_perform_action`. -/
def librdf_hash_tokyodb_cursor_find_and_perform_action (db : TCBDB) (cur : BDBCUR)
    (key : Bytes) (value : Option Bytes) (read_only : Bool)
    (out_last_key out_last_value : Option (Option Bytes)) : Option FindState :=
  if read_only && (out_last_key.isNone || out_last_value.isNone) then
    some { ret := -1, has_data := true, db := db, cur := cur,
           out_last_key := out_last_key, out_last_value := out_last_value }
  else
    find_loop key value read_only (tcbdbrnum db + 1)
      { ret := 1, has_data := true, db := db, cur := cur,
        out_last_key := out_last_key, out_last_value := out_last_value }

/-- Source `librdf_hash_tokyodb_delete_key_value`: the code and the database. -/
def librdf_hash_tokyodb_delete_key_value (db : TCBDB) (key value : librdf_hash_datum) :
    Option (Int × TCBDB) :=
  let _rets := librdf_hash_tokyodb_exists db key (some value)
  let cur := tcbdbcurnew db
  match tcbdbcurjump db cur key.bytes with
  | (true, cur1) =>
    match librdf_hash_tokyodb_cursor_find_and_perform_action db cur1 key.bytes value.data
        false none none with
    | none => none
    | some st => some (st.ret, st.db)
  | (false, _) => some (-1, db)

/-! ## The cursor -/

/-- Source `librdf_hash_tokyodb_cursor_context` (the sizes go with the bytes;
the database of `hash_context` is passed beside the cursor). -/
structure librdf_hash_tokyodb_cursor_context where
  cursor_set_to_first : Bool
  last_key : Option Bytes
  last_value : Option Bytes
  cur : BDBCUR
deriving DecidableEq, Repr

/-- Flag `LIBRDF_HASH_CURSOR_SET` of the hash interface. -/
def LIBRDF_HASH_CURSOR_SET : Nat := 0

/-- Flag `LIBRDF_HASH_CURSOR_NEXT_VALUE` of the hash interface. -/
def LIBRDF_HASH_CURSOR_NEXT_VALUE : Nat := 1

/-- Flag `LIBRDF_HASH_CURSOR_FIRST` of the hash interface. -/
def LIBRDF_HASH_CURSOR_FIRST : Nat := 2

/-- Flag `LIBRDF_HASH_CURSOR_NEXT` of the hash interface. -/
def LIBRDF_HASH_CURSOR_NEXT : Nat := 3

/-- A cursor context after `librdf_hash_tokyodb_cursor_init` on zeroed memory. -/
def librdf_hash_tokyodb_cursor_init (db : TCBDB) : librdf_hash_tokyodb_cursor_context :=
  { cursor_set_to_first := false, last_key := none, last_value := none, cur := tcbdbcurnew db }

/-- What a call of `librdf_hash_tokyodb_cursor_get` leaves behind: the code, the
cursor context and the caller's two datums. -/
structure CursorGet where
  ret : Int
  cursor : librdf_hash_tokyodb_cursor_context
  key : Option librdf_hash_datum
  value : Option librdf_hash_datum
deriving DecidableEq, Repr

/-- The `switch(flags)` of `librdf_hash_tokyodb_cursor_get`: false when the
switch returns -1. -/
def cursor_get_switch (cursor : librdf_hash_tokyodb_cursor_context) (db : TCBDB)
    (key : librdf_hash_datum) (value : Option librdf_hash_datum) (flags : Nat) :
    Bool × librdf_hash_tokyodb_cursor_context :=
  if flags = LIBRDF_HASH_CURSOR_SET then
    if key.data = none then (false, cursor)
    else if cursor.last_key ≠ none then (false, cursor)
    else if cursor.last_value ≠ none then (false, cursor)
    else if value ≠ none ∧ (value.bind (·.data)) ≠ none then (false, cursor)
    else
      match tcbdbcurjump db cursor.cur key.bytes with
      | (false, c) => (false, { cursor with cur := c })
      | (true, c) => (true, { cursor with cur := c })
  else if flags = LIBRDF_HASH_CURSOR_FIRST then
    match tcbdbcurfirst db cursor.cur with
    | (false, c) => (false, { cursor with cur := c })
    | (true, c) => (true, { cursor with cur := c, cursor_set_to_first := true })
  else if flags = LIBRDF_HASH_CURSOR_NEXT_VALUE then (true, cursor)
  else if flags = LIBRDF_HASH_CURSOR_NEXT then
    if cursor.cursor_set_to_first = false then
      match tcbdbcurjump db cursor.cur key.bytes with
      | (false, c) => (false, { cursor with cur := c })
      | (true, c) => (true, { cursor with cur := c })
    else (true, cursor)
  else (false, cursor)

/-- The closing `while` loop of `librdf_hash_tokyodb_cursor_get` (flags FIRST
and NEXT); `ret` is -1 and `exit` is false whenever a round starts. -/
def cursor_get_loop (db : TCBDB) :
    Nat → librdf_hash_tokyodb_cursor_context → librdf_hash_datum →
      Option librdf_hash_datum → Option CursorGet
  | fuel, cursor, key, value =>
    match tcbdbcurkey db cursor.cur with
    | none => some { ret := -1, cursor := cursor, key := some key, value := value }
    | some db_key =>
      match fuel with
      | 0 => none
      | fuel1 + 1 =>
        let next := (tcbdbcurnext db cursor.cur).2
        match value with
        | some _ =>
          match tcbdbcurval db cursor.cur with
          | some db_value =>
            some { ret := 0,
                   cursor := { cursor with last_key := some db_key,
                                           last_value := some db_value, cur := next },
                   key := some { data := some db_key },
                   value := some { data := some db_value } }
          | none =>
            some { ret := -1, cursor := { cursor with cur := next },
                   key := some key, value := value }
        | none =>
          match cursor.last_key with
          | none =>
            some { ret := 0, cursor := { cursor with last_key := some db_key, cur := next },
                   key := some { data := some db_key }, value := none }
          | some last_key =>
            match memcmp (tc_region last_key) (tc_region db_key) db_key.length with
            | none => none
            | some c =>
              if c ≠ 0 then
                some { ret := 0,
                       cursor := { cursor with last_key := some db_key, cur := next },
                       key := some { data := some db_key }, value := none }
              else cursor_get_loop db fuel1 { cursor with cur := next } key value

/-- Source `librdf_hash_tokyodb_cursor_get`; `key = none` and `value = none`
are NULL datum pointers. -/
def librdf_hash_tokyodb_cursor_get (cursor : librdf_hash_tokyodb_cursor_context)
    (db : TCBDB) (key value : Option librdf_hash_datum) (flags : Nat) : Option CursorGet :=
  match key with
  | none => some { ret := -1, cursor := cursor, key := none, value := value }
  | some k =>
    match cursor_get_switch cursor db k value flags with
    | (false, cursor1) => some { ret := -1, cursor := cursor1, key := key, value := value }
    | (true, cursor1) =>
      if flags = LIBRDF_HASH_CURSOR_SET ∨ flags = LIBRDF_HASH_CURSOR_NEXT_VALUE then
        match value with
        | none => none
        | some v =>
          let key_to_compare : Bytes :=
            match k.data with
            | some d => d
            | none => cursor1.last_key.getD []
          match librdf_hash_tokyodb_cursor_find_and_perform_action db cursor1.cur
              key_to_compare v.data true (some cursor1.last_key) (some cursor1.last_value) with
          | none => none
          | some st =>
            let cursor2 : librdf_hash_tokyodb_cursor_context :=
              { cursor1 with cur := st.cur,
                             last_key := st.out_last_key.getD cursor1.last_key,
                             last_value := st.out_last_value.getD cursor1.last_value }
            if st.ret = 0 then
              some { ret := st.ret, cursor := cursor2, key := key,
                     value := some { data := cursor2.last_value } }
            else some { ret := st.ret, cursor := cursor2, key := key, value := value }
      else cursor_get_loop db (tcbdbrnum db + 1) cursor1 k value

/-! ## Callers of the interface -/

/-- A call sequence of the hash interface. -/
inductive HashOp where
  | put (key value : Bytes)
  | delete_key (key : Bytes)
  | delete_key_value (key value : Bytes)
deriving DecidableEq, Repr

/-- The database after one call on a database connected as a writer (a call
that does not return leaves it as it was). -/
def HashOp.apply (db : TCBDB) : HashOp → TCBDB
  | .put k v =>
    (librdf_hash_tokyodb_put BDBOWRITER db { data := some k } { data := some v }).2
  | .delete_key k => (librdf_hash_tokyodb_delete_key db { data := some k }).2
  | .delete_key_value k v =>
    match librdf_hash_tokyodb_delete_key_value db { data := some k } { data := some v } with
    | some r => r.2
    | none => db

/-- The database after a sequence of calls, first call first. -/
def run_ops (db : TCBDB) (ops : List HashOp) : TCBDB := ops.foldl HashOp.apply db

/-- The database after a sequence of `put` calls on key/value pairs, on a
database connected as a writer. -/
def put_all (db : TCBDB) (kvs : List Record) : TCBDB :=
  kvs.foldl (fun d kv =>
    (librdf_hash_tokyodb_put BDBOWRITER d { data := some kv.1 } { data := some kv.2 }).2) db

/-- A sequence of `put` calls on key/value pairs on a database object opened
with the mode `omode`: the codes returned, first call first, and the database
after the last call. -/
def put_calls (omode : Nat) (db : TCBDB) : List Record → List Int × TCBDB
  | [] => ([], db)
  | kv :: rest =>
    match librdf_hash_tokyodb_put omode db { data := some kv.1 } { data := some kv.2 } with
    | (ret, db1) =>
      match put_calls omode db1 rest with
      | (rets, db2) => (ret :: rets, db2)

/-- Repeated `LIBRDF_HASH_CURSOR_NEXT_VALUE` calls for key `K`, each passing the
value datum left by the call before; collects the values returned until a call
returns nonzero, and that code. -/
def next_values (db : TCBDB) (K : Bytes) :
    Nat → librdf_hash_tokyodb_cursor_context → Option librdf_hash_datum →
      Option (List Bytes × Int)
  | 0, _, _ => none
  | n + 1, cursor, value =>
    match librdf_hash_tokyodb_cursor_get cursor db (some { data := some K }) value
        LIBRDF_HASH_CURSOR_NEXT_VALUE with
    | none => none
    | some r =>
      if r.ret = 0 then
        match next_values db K n r.cursor r.value with
        | none => none
        | some (vs, code) =>
          some ((match r.value with | some d => d.bytes | none => []) :: vs, code)
      else some ([], r.ret)

/-- A fresh cursor driven by SET(K, nil) and then by repeated next-value calls:
the values returned and the code that ended the scan. -/
def scan_values (db : TCBDB) (K : Bytes) : Option (List Bytes × Int) :=
  match librdf_hash_tokyodb_cursor_get (librdf_hash_tokyodb_cursor_init db) db
      (some { data := some K }) (some { data := none }) LIBRDF_HASH_CURSOR_SET with
  | none => none
  | some r =>
    if r.ret = 0 then
      match next_values db K (tcbdbrnum db + 1) r.cursor r.value with
      | none => none
      | some (vs, code) =>
        some ((match r.value with | some d => d.bytes | none => []) :: vs, code)
    else some ([], r.ret)

/-- Repeated `LIBRDF_HASH_CURSOR_NEXT` calls with a NULL value datum, each
passing the key datum left by the call before; collects the keys returned
until a call returns nonzero, and that code. -/
def next_keys (db : TCBDB) :
    Nat → librdf_hash_tokyodb_cursor_context → Option librdf_hash_datum →
      Option (List Bytes × Int)
  | 0, _, _ => none
  | n + 1, cursor, key =>
    match librdf_hash_tokyodb_cursor_get cursor db key none LIBRDF_HASH_CURSOR_NEXT with
    | none => none
    | some r =>
      if r.ret = 0 then
        match next_keys db n r.cursor r.key with
        | none => none
        | some (ks, code) =>
          some ((match r.key with | some d => d.bytes | none => []) :: ks, code)
      else some ([], r.ret)

/-- A fresh cursor driven by FIRST and then by repeated NEXT, all with a NULL
value datum: the keys returned and the code that ended the scan. -/
def scan_keys (db : TCBDB) : Option (List Bytes × Int) :=
  match librdf_hash_tokyodb_cursor_get (librdf_hash_tokyodb_cursor_init db) db
      (some { data := none }) none LIBRDF_HASH_CURSOR_FIRST with
  | none => none
  | some r =>
    if r.ret = 0 then
      match next_keys db (tcbdbrnum db + 1) r.cursor r.key with
      | none => none
      | some (ks, code) =>
        some ((match r.key with | some d => d.bytes | none => []) :: ks, code)
    else some ([], r.ret)

/-- Repeated `LIBRDF_HASH_CURSOR_NEXT` calls that supply a value datum, each
passing the datums left by the call before; collects the records returned
until a call returns nonzero, and that code. -/
def next_records (db : TCBDB) :
    Nat → librdf_hash_tokyodb_cursor_context → Option librdf_hash_datum →
      Option librdf_hash_datum → Option (List Record × Int)
  | 0, _, _, _ => none
  | n + 1, cursor, key, value =>
    match librdf_hash_tokyodb_cursor_get cursor db key value LIBRDF_HASH_CURSOR_NEXT with
    | none => none
    | some r =>
      if r.ret = 0 then
        match next_records db n r.cursor r.key r.value with
        | none => none
        | some (rs, code) =>
          some (((match r.key with | some d => d.bytes | none => []),
                 (match r.value with | some d => d.bytes | none => [])) :: rs, code)
      else some ([], r.ret)

/-- A fresh cursor driven by FIRST and then by repeated NEXT, all with a value
datum: the records returned and the code that ended the scan. -/
def scan_records (db : TCBDB) : Option (List Record × Int) :=
  match librdf_hash_tokyodb_cursor_get (librdf_hash_tokyodb_cursor_init db) db
      (some { data := none }) (some { data := none }) LIBRDF_HASH_CURSOR_FIRST with
  | none => none
  | some r =>
    if r.ret = 0 then
      match next_records db (tcbdbrnum db + 1) r.cursor r.key r.value with
      | none => none
      | some (rs, code) =>
        some (((match r.key with | some d => d.bytes | none => []),
               (match r.value with | some d => d.bytes | none => [])) :: rs, code)
    else some ([], r.ret)

/-- The engine keeps its records in ascending key order. -/
def db_sorted (db : TCBDB) : Prop := db.Pairwise (fun a b => key_le a.1 b.1 = true)

/-! ## Open, close and clone -/

/-- A pointer to a heap buffer holding a C string: NULL, a live buffer, or a
buffer that was already released with `LIBRDF_FREE`. -/
inductive StringBuffer where
  | null
  | live (s : String)
  | freed
deriving DecidableEq, Repr

/-- The `TCBDB *` field of a context: NULL, a live database object with its
records and the mode it was opened with, or a pointer to an object already
destroyed by `tcbdbdel`. -/
inductive DbHandle where
  | null
  | live (db : TCBDB) (omode : Nat)
  | deleted
deriving DecidableEq, Repr

/-- Source `librdf_hash_tokyodb_context` (without the back pointer to the hash). -/
structure librdf_hash_tokyodb_context where
  mode : Int
  is_writable : Int
  is_new : Int
  db : DbHandle
  file_name : StringBuffer
deriving DecidableEq, Repr

/-- A context in zeroed memory, as the hash layer allocates it. -/
def librdf_hash_tokyodb_context.zeroed : librdf_hash_tokyodb_context :=
  { mode := 0, is_writable := 0, is_new := 0, db := DbHandle.null,
    file_name := StringBuffer.null }

/-- What the surroundings of `open` and `close` answer: whether `malloc` and
`tcbdbnew` deliver an object, what `tcbdbopen` finds for a file name and open
mode (`none` when it fails), and whether `tcbdbclose` succeeds. -/
structure Engine where
  malloc_ok : Bool
  tcbdbnew_ok : Bool
  tcbdbopen : String → Nat → Option TCBDB
  tcbdbclose_ok : Bool

/-- Calls made to the engine, in order, with their arguments. -/
inductive EngineCall where
  | tcbdbnew
  | tcbdbopen (file : String) (omode : Nat)
  | tcbdbclose
  | tcbdbdel
deriving DecidableEq, Repr

/-- Source `librdf_hash_tokyodb_open`: the code, the context and the engine
calls made; `identifier = none` is a NULL identifier. -/
def librdf_hash_tokyodb_open (env : Engine) (context : librdf_hash_tokyodb_context)
    (identifier : Option String) (mode is_writable is_new : Int) :
    Int × librdf_hash_tokyodb_context × List EngineCall :=
  match identifier with
  | none => (1, context, [])
  | some ident =>
    if env.malloc_ok = false then (-1, context, [])
    else
      let file : String := ident ++ ".db"
      let context1 : librdf_hash_tokyodb_context :=
        { context with mode := mode, is_writable := is_writable, is_new := is_new }
      let omode0 : Nat := if is_writable ≠ 0 then BDBOWRITER else BDBOREADER
      let omode : Nat := if is_new ≠ 0 then omode0 ||| BDBOCREAT else omode0
      if env.tcbdbnew_ok = false then
        (-1, { context1 with db := DbHandle.null }, [EngineCall.tcbdbnew])
      else
        match env.tcbdbopen file omode with
        | none =>
          (-1, { context1 with db := DbHandle.deleted },
            [EngineCall.tcbdbnew, EngineCall.tcbdbopen file omode, EngineCall.tcbdbdel])
        | some d =>
          (0, { context1 with db := DbHandle.live d omode,
                              file_name := StringBuffer.live file },
            [EngineCall.tcbdbnew, EngineCall.tcbdbopen file omode])

/-- C `free` as used by `LIBRDF_FREE` on a string buffer: nothing happens for
NULL, a live buffer is released, releasing a buffer twice is undefined. -/
def LIBRDF_FREE (p : StringBuffer) : Option StringBuffer :=
  match p with
  | StringBuffer.null => some StringBuffer.null
  | StringBuffer.live _ => some StringBuffer.freed
  | StringBuffer.freed => none

/-- Source `librdf_hash_tokyodb_close`: the code, the context and the engine
calls made. -/
def librdf_hash_tokyodb_close (env : Engine) (context : librdf_hash_tokyodb_context) :
    Option (Int × librdf_hash_tokyodb_context × List EngineCall) :=
  let closed : Option (Int × librdf_hash_tokyodb_context × List EngineCall) :=
    match context.db with
    | DbHandle.null => some (0, context, [])
    | DbHandle.live _ _ =>
      some (if env.tcbdbclose_ok then 0 else -1, { context with db := DbHandle.null },
            [EngineCall.tcbdbclose, EngineCall.tcbdbdel])
    | DbHandle.deleted => none
  match closed with
  | none => none
  | some (ret, context1, calls) =>
    match LIBRDF_FREE context1.file_name with
    | none => none
    | some p => some (ret, { context1 with file_name := p }, calls)

/-- Modelled from the spec: `librdf_hash_get_all` of the hash layer
(rdf_hash.c) with empty key and value datums, which the spec describes as the
iteration of all (k,v) pairs through a fresh cursor: FIRST, then NEXT with the
value datum supplied, until a call fails. -/
def librdf_hash_get_all (db : TCBDB) : Option (List Record) :=
  match scan_records db with
  | none => none
  | some (rs, _) => some rs

/-- The `while` loop of `librdf_hash_tokyodb_clone` over the pairs delivered
by the iterator, writing to a target opened with the mode `omode`: status and
target database. -/
def clone_loop (omode : Nat) (target : TCBDB) : List Record → Int × TCBDB
  | [] => (0, target)
  | kv :: rest =>
    match librdf_hash_tokyodb_put omode target { data := some kv.1 }
        { data := some kv.2 } with
    | (ret, target1) => if ret ≠ 0 then (1, target1) else clone_loop omode target1 rest

/-- Source `librdf_hash_tokyodb_clone`: the status, the new context and the
old context. -/
def librdf_hash_tokyodb_clone (env : Engine) (context : librdf_hash_tokyodb_context)
    (new_identifier : Option String) (old_context : librdf_hash_tokyodb_context) :
    Option (Int × librdf_hash_tokyodb_context × librdf_hash_tokyodb_context) :=
  match librdf_hash_tokyodb_open env context new_identifier old_context.mode
      old_context.is_writable old_context.is_new with
  | (ret, context1, _) =>
    if ret ≠ 0 then some (-1, context1, old_context)
    else
      match old_context.db, context1.db with
      | DbHandle.live old_db _, DbHandle.live target omode =>
        match librdf_hash_get_all old_db with
        | none => none
        | some pairs =>
          match clone_loop omode target pairs with
          | (status, target1) =>
            some (status, { context1 with db := DbHandle.live target1 omode }, old_context)
      | _, _ => none

/-- A sample engine: every allocation succeeds and every file opened is a new,
empty database. -/
def sample_engine : Engine :=
  { malloc_ok := true, tcbdbnew_ok := true, tcbdbopen := fun _ _ => some [],
    tcbdbclose_ok := true }

/-- A sample open context with a duplicate key and a duplicate pair. -/
def sample_source : librdf_hash_tokyodb_context :=
  { mode := 420, is_writable := 1, is_new := 1,
    db := DbHandle.live [([97], [1]), ([107], [97]), ([107], [97]), ([107], [98])] 6,
    file_name := StringBuffer.live "hash.db" }

/-- A sample open context of a store opened for reading only, with one record. -/
def sample_reader : librdf_hash_tokyodb_context :=
  { mode := 420, is_writable := 0, is_new := 0,
    db := DbHandle.live [([107], [97])] 1,
    file_name := StringBuffer.live "hash.db" }

/-! ## The term converter of the query bridge (rdf_query_rasqal.c)

C strings are modelled by their characters before the terminator, so that
`strcpy` into a buffer of `strlen + 1` bytes and `librdf_new_uri_from_uri`
yield a value equal to the one copied. -/

/-- A URI object of the graph library, identified by its URI string. -/
abbrev librdf_uri := String

/-- Modelled from the spec: the term of the graph library (rdf_node.c), one of
resource URI, literal (lexical form, optional language tag, optional datatype
URI) and blank-node identifier. -/
inductive librdf_node where
  | resource (uri : librdf_uri)
  | literal (value : String) (language : Option String) (datatype : Option librdf_uri)
  | blank (identifier : String)
deriving DecidableEq, Repr

/-- Kinds of engine literal (`rasqal_literal_type`): the kinds the bridge names,
and `other` for every further kind of the engine (unknown, qualified name,
pattern, variable and so on) by its number. -/
inductive rasqal_literal_type where
  | RASQAL_LITERAL_URI
  | RASQAL_LITERAL_STRING
  | RASQAL_LITERAL_INTEGER
  | RASQAL_LITERAL_FLOATING
  | RASQAL_LITERAL_BOOLEAN
  | RASQAL_LITERAL_BLANK
  | other (code : Nat)
deriving DecidableEq, Repr

/-- The fields of the engine literal (`rasqal_literal`) that the bridge reads:
kind, string, the URI of the value union, language and datatype; a field that
a kind does not use holds the empty string. -/
structure rasqal_literal where
  type : rasqal_literal_type
  string : String
  value_uri : librdf_uri
  language : Option String
  datatype : Option librdf_uri
deriving DecidableEq, Repr

/-- Modelled from the spec: `librdf_new_node_from_uri`, a resource term from a URI. -/
def librdf_new_node_from_uri (uri : librdf_uri) : Option librdf_node :=
  some (librdf_node.resource uri)

/-- Modelled from the spec: `librdf_new_node_from_typed_literal`, a literal term
with lexical form, optional language and optional datatype URI. -/
def librdf_new_node_from_typed_literal (value : String) (xml_language : Option String)
    (datatype_uri : Option librdf_uri) : Option librdf_node :=
  some (librdf_node.literal value xml_language datatype_uri)

/-- Modelled from the spec: `librdf_new_node_from_blank_identifier`, a blank-node
term from an identifier. -/
def librdf_new_node_from_blank_identifier (identifier : String) : Option librdf_node :=
  some (librdf_node.blank identifier)

/-- Modelled from the spec: `rasqal_new_uri_literal`, an engine URI literal. -/
def rasqal_new_uri_literal (uri : librdf_uri) : rasqal_literal :=
  { type := rasqal_literal_type.RASQAL_LITERAL_URI, string := "", value_uri := uri,
    language := none, datatype := none }

/-- Modelled from the spec: `rasqal_new_string_literal`, an engine string
literal owning lexical form, language and datatype URI. -/
def rasqal_new_string_literal (string : String) (language : Option String)
    (datatype : Option librdf_uri) : rasqal_literal :=
  { type := rasqal_literal_type.RASQAL_LITERAL_STRING, string := string, value_uri := "",
    language := language, datatype := datatype }

/-- Modelled from the spec: `rasqal_new_simple_literal`, an engine literal of a
given kind owning a string. -/
def rasqal_new_simple_literal (type : rasqal_literal_type) (string : String) :
    rasqal_literal :=
  { type := type, string := string, value_uri := "", language := none, datatype := none }

/-- How a call of the converter ends: it returns a node pointer (possibly NULL)
or the process is stopped by `abort()`. -/
inductive NodeResult where
  | returned (node : Option librdf_node)
  | aborted
deriving DecidableEq, Repr

/-- Source `rasqal_literal_to_redland_node`; `l = none` is a NULL literal. -/
def rasqal_literal_to_redland_node (l : Option rasqal_literal) : NodeResult :=
  match l with
  | none => NodeResult.returned none
  | some l =>
    if l.type = rasqal_literal_type.RASQAL_LITERAL_URI then
      NodeResult.returned (librdf_new_node_from_uri l.value_uri)
    else if l.type = rasqal_literal_type.RASQAL_LITERAL_STRING
        ∨ l.type = rasqal_literal_type.RASQAL_LITERAL_INTEGER
        ∨ l.type = rasqal_literal_type.RASQAL_LITERAL_FLOATING
        ∨ l.type = rasqal_literal_type.RASQAL_LITERAL_BOOLEAN then
      NodeResult.returned (librdf_new_node_from_typed_literal l.string l.language l.datatype)
    else if l.type = rasqal_literal_type.RASQAL_LITERAL_BLANK then
      NodeResult.returned (librdf_new_node_from_blank_identifier l.string)
    else NodeResult.aborted

/-- Source `redland_node_to_rasqal_literal`. -/
def redland_node_to_rasqal_literal (node : librdf_node) : rasqal_literal :=
  match node with
  | librdf_node.resource uri => rasqal_new_uri_literal uri
  | librdf_node.literal string language datatype =>
    rasqal_new_string_literal string language datatype
  | librdf_node.blank blank =>
    rasqal_new_simple_literal rasqal_literal_type.RASQAL_LITERAL_BLANK blank

/-! ## The triple source of the query bridge (rdf_query_rasqal.c) -/

/-- Source use of `librdf_statement`: three node pointers, each possibly NULL. -/
structure librdf_statement where
  subject : Option librdf_node
  predicate : Option librdf_node
  object : Option librdf_node
deriving DecidableEq, Repr

/-- Modelled from the spec: the graph model (rdf_model.c) as far as the bridge
observes it, the statements it contains. -/
abbrev librdf_model := List librdf_statement

/-- Modelled from the spec: `librdf_new_statement_from_nodes`, a statement of
three terms (a NULL term is a wildcard of a query statement). -/
def librdf_new_statement_from_nodes (subject predicate object : Option librdf_node) :
    Option librdf_statement :=
  some { subject := subject, predicate := predicate, object := object }

/-- Modelled from the spec: `librdf_model_contains_statement`, whether the model
contains the statement under structural equality, as a boolean. -/
def librdf_model_contains_statement (model : librdf_model) (statement : librdf_statement) :
    Int :=
  if statement ∈ model then 1 else 0

/-- A term of a query statement fits a term of a statement: NULL fits all. -/
def node_fits (pattern node : Option librdf_node) : Bool :=
  match pattern with
  | none => true
  | some _ => decide (pattern = node)

/-- Modelled from the spec: `librdf_model_find_statements`, the stream of the
statements of the model that fit a partially ground query statement. -/
def librdf_model_find_statements (model : librdf_model) (query : librdf_statement) :
    List librdf_statement :=
  model.filter (fun st => node_fits query.subject st.subject
    && node_fits query.predicate st.predicate && node_fits query.object st.object)

/-- Modelled from the spec: `librdf_node_equals`, structural equality of terms. -/
def librdf_node_equals (first second : librdf_node) : Bool := decide (first = second)

/-- A pointer to an engine variable (`rasqal_variable *`), by its address. -/
abbrev rasqal_variable := Nat

/-- The `value` field of every engine variable: the literal bound, or NULL. -/
abbrev VariableValues := rasqal_variable → Option rasqal_literal

/-- A slot of an engine triple: a literal of the variable kind with its
variable, or a literal of any other kind. -/
inductive rasqal_term where
  | variable (v : rasqal_variable)
  | literal (l : rasqal_literal)
deriving DecidableEq, Repr

/-- Number of the variable kind among the kinds of engine literal. -/
def RASQAL_LITERAL_VARIABLE : Nat := 9

/-- The engine literal behind a slot, as `rasqal_literal_to_redland_node` reads it. -/
def rasqal_term.as_literal : rasqal_term → rasqal_literal
  | rasqal_term.variable _ =>
    { type := rasqal_literal_type.other RASQAL_LITERAL_VARIABLE, string := "", value_uri := "",
      language := none, datatype := none }
  | rasqal_term.literal l => l

/-- Modelled from the spec: `rasqal_literal_as_variable`, the variable of a slot
that is a variable, NULL for any other slot. -/
def rasqal_literal_as_variable : rasqal_term → Option rasqal_variable
  | rasqal_term.variable v => some v
  | rasqal_term.literal _ => none

/-- Modelled from the spec: `rasqal_literal_as_node`, the engine literal as an
RDF term literal; for the URI, string and blank literals that the bridge makes
from terms it is a literal of the same content. -/
def rasqal_literal_as_node (l : rasqal_literal) : rasqal_literal := l

/-- Modelled from the spec: `rasqal_variable_set_value`, which stores a literal
as the value of the variable pointed to. -/
def rasqal_variable_set_value (values : VariableValues) (v : rasqal_variable)
    (l : rasqal_literal) : VariableValues :=
  fun w => if w = v then some l else values w

/-- Source `rasqal_triple`: three slots and an optional origin slot. -/
structure rasqal_triple where
  subject : rasqal_term
  predicate : rasqal_term
  object : rasqal_term
  origin : Option rasqal_term
deriving DecidableEq, Repr

/-- The array `bindings[4]` of variable pointers, each possibly NULL, in the
order subject, predicate, object, origin. -/
structure rasqal_bindings where
  subject : Option rasqal_variable
  predicate : Option rasqal_variable
  object : Option rasqal_variable
  origin : Option rasqal_variable
deriving DecidableEq, Repr

/-- Bit `RASQAL_TRIPLE_SUBJECT` of `rasqal_triple_parts`. -/
def RASQAL_TRIPLE_SUBJECT : Nat := 1

/-- Bit `RASQAL_TRIPLE_PREDICATE` of `rasqal_triple_parts`. -/
def RASQAL_TRIPLE_PREDICATE : Nat := 2

/-- Bit `RASQAL_TRIPLE_OBJECT` of `rasqal_triple_parts`. -/
def RASQAL_TRIPLE_OBJECT : Nat := 4

/-- Bit `RASQAL_TRIPLE_ORIGIN` of `rasqal_triple_parts`. -/
def RASQAL_TRIPLE_ORIGIN : Nat := 8

/-- How a call that may reach `abort()` ends. -/
inductive Outcome (α : Type) where
  | returned (a : α)
  | aborted

/-- Source `rasqal_redland_triple_present` (a NULL statement, which the
constructor as modelled never gives, is answered with 0). -/
def rasqal_redland_triple_present (model : librdf_model) (t : rasqal_triple) : Outcome Int :=
  match rasqal_literal_to_redland_node (some t.subject.as_literal) with
  | NodeResult.aborted => Outcome.aborted
  | NodeResult.returned node0 =>
    match rasqal_literal_to_redland_node (some t.predicate.as_literal) with
    | NodeResult.aborted => Outcome.aborted
    | NodeResult.returned node1 =>
      match rasqal_literal_to_redland_node (some t.object.as_literal) with
      | NodeResult.aborted => Outcome.aborted
      | NodeResult.returned node2 =>
        match librdf_new_statement_from_nodes node0 node1 node2 with
        | none => Outcome.returned 0
        | some s => Outcome.returned (librdf_model_contains_statement model s)

/-- The world object of the graph library, by its address. -/
abbrev librdf_world := Nat

/-- Source `librdf_query_rasqal_context`, the field the triple source reads. -/
structure librdf_query_rasqal_context where
  model : Option librdf_model
deriving DecidableEq, Repr

/-- The query object of the graph library with its world and its context. -/
structure librdf_query where
  world : librdf_world
  context : librdf_query_rasqal_context
deriving DecidableEq, Repr

/-- The engine query as the triple source sees it: its sequence of data
sources (NULL or a sequence) and its user data, the owning query. -/
structure rasqal_query where
  source_sequence : Option (List String)
  user_data : librdf_query
deriving DecidableEq, Repr

/-- Source `rasqal_redland_triples_source_user_data`. -/
structure rasqal_redland_triples_source_user_data where
  world : Option librdf_world
  query : Option librdf_query
  model : Option librdf_model
deriving DecidableEq, Repr

/-- The functions of the bridge that can be installed as hooks. -/
inductive BridgeHook where
  | rasqal_redland_new_triples_match
  | rasqal_redland_triple_present
  | rasqal_redland_free_triples_source
deriving DecidableEq, Repr

/-- The hook fields of the engine's `rasqal_triples_source`. -/
structure rasqal_triples_source where
  new_triples_match : Option BridgeHook
  triple_present : Option BridgeHook
  free_triples_source : Option BridgeHook
deriving DecidableEq, Repr

/-- Size of a data-source sequence (`raptor_sequence_size`). -/
def raptor_sequence_size (seq : List String) : Nat := seq.length

/-- Source `rasqal_redland_new_triples_source`: the code, the user data and the
triple source after the call. -/
def rasqal_redland_new_triples_source (rdf_query : rasqal_query)
    (factory_user_data : librdf_world)
    (user_data : rasqal_redland_triples_source_user_data) (rts : rasqal_triples_source) :
    Int × rasqal_redland_triples_source_user_data × rasqal_triples_source :=
  let refuse : Bool :=
    match rdf_query.source_sequence with
    | none => false
    | some seq => raptor_sequence_size seq != 0
  if refuse then (1, user_data, rts)
  else
    let query := rdf_query.user_data
    (0,
     { world := some factory_user_data, query := some query, model := query.context.model },
     { new_triples_match := some BridgeHook.rasqal_redland_new_triples_match,
       triple_present := some BridgeHook.rasqal_redland_triple_present,
       free_triples_source := some BridgeHook.rasqal_redland_free_triples_source })

/-- Source `rasqal_redland_triples_match_context`. -/
structure rasqal_redland_triples_match_context where
  nodes0 : Option librdf_node
  nodes1 : Option librdf_node
  nodes2 : Option librdf_node
  origin : Option librdf_node
  qstatement : Option librdf_statement
  stream : Option (List librdf_statement)
deriving DecidableEq, Repr

/-- The block of `rasqal_redland_new_triples_match` run for each of subject,
predicate and object: the node for the slot. -/
def match_slot_node (values : VariableValues) (slot : rasqal_term) : NodeResult :=
  match rasqal_literal_as_variable slot with
  | some var =>
    match values var with
    | some value => rasqal_literal_to_redland_node (some value)
    | none => NodeResult.returned none
  | none => rasqal_literal_to_redland_node (some slot.as_literal)

/-- The block of `rasqal_redland_new_triples_match` for the origin slot: the
origin node (unchanged without a value) and the entry `bindings[3]`. -/
def match_origin (values : VariableValues) (origin : Option rasqal_term)
    (old_node : Option librdf_node) (old_binding : Option rasqal_variable) :
    Outcome (Option librdf_node × Option rasqal_variable) :=
  match origin with
  | none => Outcome.returned (old_node, old_binding)
  | some slot =>
    match rasqal_literal_as_variable slot with
    | some var =>
      match values var with
      | some value =>
        match rasqal_literal_to_redland_node (some value) with
        | NodeResult.aborted => Outcome.aborted
        | NodeResult.returned node => Outcome.returned (node, some var)
      | none => Outcome.returned (old_node, some var)
    | none =>
      match rasqal_literal_to_redland_node (some slot.as_literal) with
      | NodeResult.aborted => Outcome.aborted
      | NodeResult.returned node => Outcome.returned (node, none)

/-- Source `rasqal_redland_new_triples_match`: the match context (NULL when the
query statement cannot be made) and the bindings of the triple meta data. -/
def rasqal_redland_new_triples_match (model : librdf_model) (values : VariableValues)
    (m : rasqal_bindings) (t : rasqal_triple) :
    Outcome (Option rasqal_redland_triples_match_context × rasqal_bindings) :=
  match match_slot_node values t.subject with
  | NodeResult.aborted => Outcome.aborted
  | NodeResult.returned node0 =>
    let m0 : rasqal_bindings := { m with subject := rasqal_literal_as_variable t.subject }
    match match_slot_node values t.predicate with
    | NodeResult.aborted => Outcome.aborted
    | NodeResult.returned node1 =>
      let m1 : rasqal_bindings := { m0 with predicate := rasqal_literal_as_variable t.predicate }
      match match_slot_node values t.object with
      | NodeResult.aborted => Outcome.aborted
      | NodeResult.returned node2 =>
        let m2 : rasqal_bindings := { m1 with object := rasqal_literal_as_variable t.object }
        match match_origin values t.origin none m2.origin with
        | Outcome.aborted => Outcome.aborted
        | Outcome.returned (origin, binding3) =>
          let m3 : rasqal_bindings := { m2 with origin := binding3 }
          match librdf_new_statement_from_nodes node0 node1 node2 with
          | none => Outcome.returned (none, m3)
          | some qstatement =>
            Outcome.returned
              (some { nodes0 := node0, nodes1 := node1, nodes2 := node2, origin := origin,
                      qstatement := some qstatement,
                      stream := some (librdf_model_find_statements model qstatement) },
               m3)

/-- What `rasqal_redland_bind_match` leaves behind: the parts bound and the
values of the variables. -/
structure BindResult where
  parts : Nat
  values : VariableValues

/-- How a block of `rasqal_redland_bind_match` ends: with a `return`, or by
going on with the result so far. -/
inductive BindFlow where
  | returned (r : BindResult)
  | goes_on (result : Nat) (values : VariableValues)

/-- The subject block of `rasqal_redland_bind_match`. -/
def bind_subject (values : VariableValues) (statement : librdf_statement)
    (bindings : rasqal_bindings) (parts : Nat) : Option BindFlow :=
  match bindings.subject with
  | some v =>
    if parts &&& RASQAL_TRIPLE_SUBJECT ≠ 0 then
      match statement.subject with
      | none => none
      | some node =>
        some (BindFlow.goes_on RASQAL_TRIPLE_SUBJECT
          (rasqal_variable_set_value values v
            (rasqal_literal_as_node (redland_node_to_rasqal_literal node))))
    else some (BindFlow.goes_on 0 values)
  | none => some (BindFlow.goes_on 0 values)

/-- The predicate block of `rasqal_redland_bind_match`. -/
def bind_predicate (result : Nat) (values : VariableValues) (statement : librdf_statement)
    (bindings : rasqal_bindings) (parts : Nat) : Option BindFlow :=
  match bindings.predicate with
  | some v =>
    if parts &&& RASQAL_TRIPLE_PREDICATE ≠ 0 then
      if bindings.subject = bindings.predicate then
        match statement.subject, statement.predicate with
        | some s, some p =>
          if librdf_node_equals s p = false then
            some (BindFlow.returned { parts := 0, values := values })
          else some (BindFlow.goes_on result values)
        | _, _ => none
      else
        match statement.predicate with
        | none => none
        | some node =>
          some (BindFlow.goes_on (result ||| RASQAL_TRIPLE_PREDICATE)
            (rasqal_variable_set_value values v
              (rasqal_literal_as_node (redland_node_to_rasqal_literal node))))
    else some (BindFlow.goes_on result values)
  | none => some (BindFlow.goes_on result values)

/-- The object block of `rasqal_redland_bind_match`. -/
def bind_object (result : Nat) (values : VariableValues) (statement : librdf_statement)
    (bindings : rasqal_bindings) (parts : Nat) : Option BindFlow :=
  match bindings.object with
  | some v =>
    if parts &&& RASQAL_TRIPLE_OBJECT ≠ 0 then
      let check1 : Option (Option Bool) :=
        if bindings.subject = bindings.object then
          match statement.subject, statement.object with
          | some s, some o => if librdf_node_equals s o = false then some none else some (some false)
          | _, _ => none
        else some (some true)
      match check1 with
      | none => none
      | some none => some (BindFlow.returned { parts := 0, values := values })
      | some (some bind1) =>
        let check2 : Option (Option Bool) :=
          if bindings.predicate = bindings.object ∧ ¬ (bindings.subject = bindings.predicate) then
            match statement.predicate, statement.object with
            | some p, some o =>
              if librdf_node_equals p o = false then some none else some (some false)
            | _, _ => none
          else some (some bind1)
        match check2 with
        | none => none
        | some none => some (BindFlow.returned { parts := 0, values := values })
        | some (some bind) =>
          if bind then
            match statement.object with
            | none => none
            | some node =>
              some (BindFlow.goes_on (result ||| RASQAL_TRIPLE_OBJECT)
                (rasqal_variable_set_value values v
                  (rasqal_literal_as_node (redland_node_to_rasqal_literal node))))
          else some (BindFlow.goes_on result values)
    else some (BindFlow.goes_on result values)
  | none => some (BindFlow.goes_on result values)

/-- Source `rasqal_redland_bind_match`; the current statement is the head of
the stream of the match context. -/
def rasqal_redland_bind_match (rtmc : rasqal_redland_triples_match_context)
    (values : VariableValues) (bindings : rasqal_bindings) (parts : Nat) :
    Option BindResult :=
  match rtmc.stream.bind List.head? with
  | none => some { parts := 0, values := values }
  | some statement =>
    match bind_subject values statement bindings parts with
    | none => none
    | some (BindFlow.returned r) => some r
    | some (BindFlow.goes_on result1 values1) =>
      match bind_predicate result1 values1 statement bindings parts with
      | none => none
      | some (BindFlow.returned r) => some r
      | some (BindFlow.goes_on result2 values2) =>
        match bind_object result2 values2 statement bindings parts with
        | none => none
        | some (BindFlow.returned r) => some r
        | some (BindFlow.goes_on result3 values3) =>
          some { parts := result3, values := values3 }

/-- A valuation for the examples: variable 1 holds a URI literal, no other
variable holds a value. -/
def sample_values : VariableValues :=
  fun w => if w = 1 then some (rasqal_new_uri_literal "http://example.org/s") else none

/-- A match context for the examples: its stream holds the one statement given. -/
def sample_match_context (st : librdf_statement) : rasqal_redland_triples_match_context :=
  { nodes0 := none, nodes1 := none, nodes2 := none, origin := none,
    qstatement := some { subject := none, predicate := none, object := none },
    stream := some [st] }

/-- A valuation for the examples in which no variable holds a value. -/
def no_values : VariableValues := fun _ => none

/-- A statement for the examples, of three different terms. -/
def sample_statement : librdf_statement :=
  { subject := some (librdf_node.resource "http://example.org/s"),
    predicate := some (librdf_node.resource "http://example.org/p"),
    object := some (librdf_node.literal "o" none none) }

/-! ## The result stream of the query bridge (rdf_query_rasqal.c) -/

/-- Kinds of identifier in an engine triple (`raptor_identifier_type`): the
kinds the bridge names, and `other` for every further kind by its number. -/
inductive raptor_identifier_type where
  | RAPTOR_IDENTIFIER_TYPE_RESOURCE
  | RAPTOR_IDENTIFIER_TYPE_ANONYMOUS
  | RAPTOR_IDENTIFIER_TYPE_PREDICATE
  | RAPTOR_IDENTIFIER_TYPE_ORDINAL
  | RAPTOR_IDENTIFIER_TYPE_LITERAL
  | RAPTOR_IDENTIFIER_TYPE_XML_LITERAL
  | other (code : Nat)
deriving DecidableEq, Repr

/-- The engine triple (`raptor_statement`) as the bridge reads it: `subject`,
`predicate` and `object` hold the identifier or the URI string the pointer
leads to, `predicate_ordinal` the `int` it leads to for an ordinal. -/
structure raptor_statement where
  subject : String
  subject_type : raptor_identifier_type
  predicate : String
  predicate_ordinal : Int
  predicate_type : raptor_identifier_type
  object : String
  object_type : raptor_identifier_type
  object_literal_datatype : Option librdf_uri
  object_literal_language : Option String
deriving DecidableEq, Repr

/-- Source `librdf_query_rasqal_stream_context`: current statement and end flag. -/
structure librdf_query_rasqal_stream_context where
  statement : Option librdf_statement
  finished : Int
deriving DecidableEq, Repr

/-- Modelled from the spec: `librdf_new_node_from_uri_string`, a resource term
from a URI string. -/
def librdf_new_node_from_uri_string (uri_string : String) : Option librdf_node :=
  some (librdf_node.resource uri_string)

/-- URI of the datatype of XML literals. -/
def rdf_XMLLiteral_uri : librdf_uri := "http://www.w3.org/1999/02/22-rdf-syntax-ns#XMLLiteral"

/-- Modelled from the spec: `librdf_new_node_from_literal`, a literal term with
a language and the XML-literal flag, the flag being carried as the datatype of
XML literals. -/
def librdf_new_node_from_literal (string : String) (xml_language : Option String)
    (is_wf_xml : Int) : Option librdf_node :=
  some (librdf_node.literal string xml_language
    (if is_wf_xml ≠ 0 then some rdf_XMLLiteral_uri else none))

/-- Size in bytes of the static `ordinal_buffer`. -/
def ordinal_buffer_size : Nat := 100

/-- The text written by `sprintf` with the format of the ordinal predicate:
the namespace, an underscore and the `%d` form of the ordinal. -/
def ordinal_uri_string (ordinal : Int) : String :=
  "http://www.w3.org/1999/02/22-rdf-syntax-ns#_" ++ Int.repr ordinal

/-- C `sprintf` into `ordinal_buffer`: the text, or nothing defined when text
and terminator do not fit the buffer. -/
def sprintf_ordinal_buffer (ordinal : Int) : Option String :=
  if (ordinal_uri_string ordinal).length + 1 ≤ ordinal_buffer_size then
    some (ordinal_uri_string ordinal)
  else none

/-- The subject block of the update routine: the node made, or nothing for a
kind that is not mapped. -/
def update_subject_node (rstatement : raptor_statement) : Option (Option librdf_node) :=
  if rstatement.subject_type = raptor_identifier_type.RAPTOR_IDENTIFIER_TYPE_ANONYMOUS then
    some (librdf_new_node_from_blank_identifier rstatement.subject)
  else if rstatement.subject_type
      = raptor_identifier_type.RAPTOR_IDENTIFIER_TYPE_RESOURCE then
    some (librdf_new_node_from_uri_string rstatement.subject)
  else none

/-- The predicate block of the update routine: nothing defined when `sprintf`
overruns the buffer, else the node made, or nothing for a kind that is not
mapped. -/
def update_predicate_node (rstatement : raptor_statement) :
    Option (Option (Option librdf_node)) :=
  if rstatement.predicate_type
      = raptor_identifier_type.RAPTOR_IDENTIFIER_TYPE_ORDINAL then
    match sprintf_ordinal_buffer rstatement.predicate_ordinal with
    | none => none
    | some ordinal_buffer => some (some (librdf_new_node_from_uri_string ordinal_buffer))
  else if rstatement.predicate_type
        = raptor_identifier_type.RAPTOR_IDENTIFIER_TYPE_PREDICATE
      ∨ rstatement.predicate_type
        = raptor_identifier_type.RAPTOR_IDENTIFIER_TYPE_RESOURCE then
    some (some (librdf_new_node_from_uri_string rstatement.predicate))
  else some none

/-- The object block of the update routine: the node made, or nothing for a
kind that is not mapped. -/
def update_object_node (rstatement : raptor_statement) : Option (Option librdf_node) :=
  if rstatement.object_type = raptor_identifier_type.RAPTOR_IDENTIFIER_TYPE_LITERAL
      ∨ rstatement.object_type
        = raptor_identifier_type.RAPTOR_IDENTIFIER_TYPE_XML_LITERAL then
    if rstatement.object_type
        = raptor_identifier_type.RAPTOR_IDENTIFIER_TYPE_XML_LITERAL then
      some (librdf_new_node_from_literal rstatement.object
        rstatement.object_literal_language 1)
    else
      some (librdf_new_node_from_typed_literal rstatement.object
        rstatement.object_literal_language rstatement.object_literal_datatype)
  else if rstatement.object_type
      = raptor_identifier_type.RAPTOR_IDENTIFIER_TYPE_ANONYMOUS then
    some (librdf_new_node_from_blank_identifier rstatement.object)
  else if rstatement.object_type
      = raptor_identifier_type.RAPTOR_IDENTIFIER_TYPE_RESOURCE then
    some (librdf_new_node_from_uri_string rstatement.object)
  else none

/-- Source `librdf_query_rasqal_query_results_update_statement`: the value
returned and the stream context; the value is `none` where control reaches the
end of the function, which has no `return` there. `statement_alloc_ok` tells
whether `librdf_new_statement` delivers a statement. -/
def librdf_query_rasqal_query_results_update_statement (statement_alloc_ok : Bool)
    (rstatement : raptor_statement) (scontext : librdf_query_rasqal_stream_context) :
    Option (Option Int × librdf_query_rasqal_stream_context) :=
  if statement_alloc_ok = false then some (some 1, { scontext with statement := none })
  else
    match update_subject_node rstatement with
    | none => some (some 1, { scontext with statement := none })
    | some subject =>
      match update_predicate_node rstatement with
      | none => none
      | some none => some (some 1, { scontext with statement := none })
      | some (some predicate) =>
        match update_object_node rstatement with
        | none => some (some 1, { scontext with statement := none })
        | some object =>
          some (none,
            { scontext with
              statement := some { subject := subject, predicate := predicate,
                                  object := object } })

/-- An engine triple for the examples: a resource subject, the ordinal 3 as
predicate and a plain literal as object. -/
def sample_raptor_statement : raptor_statement :=
  { subject := "http://example.org/s", subject_type :=
      raptor_identifier_type.RAPTOR_IDENTIFIER_TYPE_RESOURCE,
    predicate := "", predicate_ordinal := 3,
    predicate_type := raptor_identifier_type.RAPTOR_IDENTIFIER_TYPE_ORDINAL,
    object := "o", object_type := raptor_identifier_type.RAPTOR_IDENTIFIER_TYPE_LITERAL,
    object_literal_datatype := none, object_literal_language := none }

/-! ## Reference functions used in the proofs -/

/-- No alias check of `rasqal_redland_bind_match` fails on the statement of the
terms `s`, `p`, `o`: each check that is run finds its two terms equal. -/
def alias_checks_pass (b : rasqal_bindings) (parts : Nat) (s p o : librdf_node) : Prop :=
  (b.predicate ≠ none → parts &&& RASQAL_TRIPLE_PREDICATE ≠ 0 →
    b.subject = b.predicate → s = p)
  ∧ (b.object ≠ none → parts &&& RASQAL_TRIPLE_OBJECT ≠ 0 → b.subject = b.object → s = o)
  ∧ (b.object ≠ none → parts &&& RASQAL_TRIPLE_OBJECT ≠ 0 → b.predicate = b.object →
    b.subject ≠ b.predicate → p = o)

/-- What a call of `rasqal_redland_bind_match` on the statement of the terms
`s`, `p`, `o` leaves: a mask inside the requested parts without the origin
bit, values changed only for the variables of the three slots, and, when no
alias check fails, every requested slot that is not aliased bound. -/
def bind_frame (values : VariableValues) (b : rasqal_bindings) (parts : Nat)
    (s p o : librdf_node) (r : BindResult) : Prop :=
  r.parts &&& parts = r.parts
  ∧ r.parts &&& RASQAL_TRIPLE_ORIGIN = 0
  ∧ (∀ w, b.subject ≠ some w → b.predicate ≠ some w → b.object ≠ some w →
      r.values w = values w)
  ∧ (r.parts ≠ 0 → alias_checks_pass b parts s p o)
  ∧ (alias_checks_pass b parts s p o →
      (∀ v, b.subject = some v → parts &&& RASQAL_TRIPLE_SUBJECT ≠ 0 →
        r.values v = some (rasqal_literal_as_node (redland_node_to_rasqal_literal s))
          ∧ r.parts &&& RASQAL_TRIPLE_SUBJECT ≠ 0)
      ∧ (∀ v, b.predicate = some v → parts &&& RASQAL_TRIPLE_PREDICATE ≠ 0 →
        b.subject ≠ b.predicate →
        r.values v = some (rasqal_literal_as_node (redland_node_to_rasqal_literal p))
          ∧ r.parts &&& RASQAL_TRIPLE_PREDICATE ≠ 0)
      ∧ (∀ v, b.object = some v → parts &&& RASQAL_TRIPLE_OBJECT ≠ 0 →
        b.subject ≠ b.object → b.predicate ≠ b.object →
        r.values v = some (rasqal_literal_as_node (redland_node_to_rasqal_literal o))
          ∧ r.parts &&& RASQAL_TRIPLE_OBJECT ≠ 0))

/-- Records from the cursor position to the end of the database. -/
def rest_of (db : TCBDB) (cur : BDBCUR) : List Record :=
  match cur with
  | none => []
  | some i => db.drop i

/-- First record of `l` with key `K` whose value is not the filter `value`,
and the records after it. -/
def ro_find (K : Bytes) (value : Option Bytes) : List Record → Option (Record × List Record)
  | [] => none
  | r :: rs => if r.1 = K ∧ value ≠ some r.2 then some (r, rs) else ro_find K value rs

/-- Values of key `K` in `l`, each one kept when it differs from the value kept
before it; `a` is the value kept last. -/
def run_heads (K : Bytes) : Bytes → List Record → List Bytes
  | _, [] => []
  | a, r :: rs => if r.1 = K ∧ r.2 ≠ a then r.2 :: run_heads K r.2 rs else run_heads K a rs

/-! ## Basic facts about the engine model -/

theorem memcmp_eq_zero_iff (a : Bytes) : ∀ b : Bytes, a.length = b.length →
    (memcmp a b b.length = some 0 ↔ a = b) := by
  induction a with
  | nil =>
    intro b h
    cases b with
    | nil => simp [memcmp]
    | cons y ys => simp at h
  | cons x xs ih =>
    intro b h
    cases b with
    | nil => simp at h
    | cons y ys =>
      simp only [List.length_cons, Nat.add_right_cancel_iff] at h
      by_cases hxy : x = y
      · subst hxy
        simp [memcmp, ih ys h]
      · have hne : ((x : Int) - (y : Int)) ≠ 0 := by omega
        simp [memcmp, hxy, hne]

theorem bytes_eq_test (a b : Bytes) :
    ((a.length == b.length) && (memcmp a b b.length == some 0)) = decide (a = b) := by
  by_cases hl : a.length = b.length
  · have h := memcmp_eq_zero_iff a b hl
    by_cases hab : a = b
    · have hm := h.mpr hab
      rw [hm, hl]
      simp [hab]
    · have : memcmp a b b.length ≠ some 0 := fun hm => hab (h.mp hm)
      simp [hab, this]
  · have hab : a ≠ b := fun h => hl (by rw [h])
    simp [hl, hab]

theorem bytes_eq_test_left (a b : Bytes) :
    ((a.length == b.length) && (memcmp a b a.length == some 0)) = decide (a = b) := by
  by_cases hl : a.length = b.length
  · have h := bytes_eq_test a b
    simp only [hl] at h
    simp only [hl]
    exact h
  · have hab : a ≠ b := fun h => hl (by rw [h])
    simp [hl, hab]

theorem bytes_ne_test (a b : Bytes) :
    ((a.length != b.length) || (memcmp a b b.length != some 0)) = decide (a ≠ b) := by
  have h := bytes_eq_test a b
  by_cases hab : a = b
  · subst hab
    simp at h
    simp [h]
  · simp only [hab, decide_False, Bool.and_eq_false_imp, beq_iff_eq] at h
    by_cases hl : a.length = b.length
    · have := h hl
      simp [hab, hl, bne, this]
    · simp [hab, hl, bne]

theorem key_le_refl (a : Bytes) : key_le a a = true := by
  induction a with
  | nil => rfl
  | cons x xs ih => simp [key_le, ih]

theorem mem_values_of (db : TCBDB) (k v : Bytes) : v ∈ values_of db k ↔ (k, v) ∈ db := by
  induction db with
  | nil => simp [values_of]
  | cons r rs ih =>
    obtain ⟨rk, rv⟩ := r
    by_cases h : rk = k
    · subst h
      simp [values_of, ih]
    · have h2 : ¬ k = rk := fun e => h e.symm
      simp [values_of, h, h2, ih]

theorem remove_key_eq_filter (k : Bytes) (db : TCBDB) :
    remove_key k db = db.filter (fun r => decide (r.1 ≠ k)) := by
  induction db with
  | nil => rfl
  | cons r rs ih =>
    by_cases h : r.1 = k
    · simp [remove_key, h, ih]
    · simp [remove_key, h, ih]

theorem values_of_remove_key (k : Bytes) (db : TCBDB) : values_of (remove_key k db) k = [] := by
  induction db with
  | nil => rfl
  | cons r rs ih =>
    by_cases h : r.1 = k
    · simp [remove_key, h, ih]
    · simp [remove_key, values_of, h, ih]

theorem remove_key_of_absent (k : Bytes) (db : TCBDB) (h : values_of db k = []) :
    remove_key k db = db := by
  induction db with
  | nil => rfl
  | cons r rs ih =>
    by_cases hk : r.1 = k
    · simp [values_of, hk] at h
    · simp only [values_of, hk, if_false] at h
      simp [remove_key, hk, ih h]

theorem bdb_insert_perm (k v : Bytes) (db : TCBDB) : (bdb_insert k v db).Perm ((k, v) :: db) := by
  induction db with
  | nil => simp [bdb_insert]
  | cons r rs ih =>
    by_cases h : key_le r.1 k = true
    · simp only [bdb_insert, h, if_true]
      exact (List.Perm.cons r ih).trans (List.Perm.swap _ _ _)
    · simp [bdb_insert, h]

/-- On a database connected as a writer `put` stores the record and returns 0. -/
theorem put_writer (omode : Nat) (db : TCBDB) (key value : librdf_hash_datum)
    (h : omode &&& BDBOWRITER ≠ 0) :
    librdf_hash_tokyodb_put omode db key value
      = (0, bdb_insert key.bytes value.bytes db) := by
  simp [librdf_hash_tokyodb_put, tcbdbputdup, h]

/-- On a database not connected as a writer `put` returns -1 and stores nothing. -/
theorem put_reader (omode : Nat) (db : TCBDB) (key value : librdf_hash_datum)
    (h : omode &&& BDBOWRITER = 0) :
    librdf_hash_tokyodb_put omode db key value = (-1, db) := by
  simp [librdf_hash_tokyodb_put, tcbdbputdup, h]

/-- The mode WRITER is a writer mode. -/
theorem writer_mode_writer : BDBOWRITER &&& BDBOWRITER ≠ 0 := by decide

theorem put_all_perm (kvs : List Record) : ∀ db : TCBDB, (put_all db kvs).Perm (db ++ kvs) := by
  induction kvs with
  | nil => intro db; simp [put_all]
  | cons kv rest ih =>
    intro db
    have h1 := ih (bdb_insert kv.1 kv.2 db)
    have h2 : (bdb_insert kv.1 kv.2 db ++ rest).Perm (db ++ kv :: rest) := by
      have := (bdb_insert_perm kv.1 kv.2 db).append_right rest
      refine this.trans ?_
      have hm : (kv :: (db ++ rest)).Perm (db ++ kv :: rest) := List.perm_middle.symm
      simpa using hm
    have h3 : put_all db (kv :: rest) = put_all (bdb_insert kv.1 kv.2 db) rest := by
      simp [put_all, put_writer _ _ _ _ writer_mode_writer, librdf_hash_datum.bytes]
    rw [h3]
    exact h1.trans h2

theorem exists_loop_eq (v : Bytes) (l : List Bytes) :
    exists_loop v l = if v ∈ l then 1 else 0 := by
  induction l with
  | nil => simp [exists_loop]
  | cons x xs ih =>
    rw [exists_loop, bytes_eq_test]
    by_cases h : v = x
    · simp [h]
    · simp [h, ih]

theorem exists_key_eq (db : TCBDB) (K : Bytes) :
    librdf_hash_tokyodb_exists db { data := some K } none
      = if values_of db K = [] then 0 else 1 := by
  unfold librdf_hash_tokyodb_exists tcbdbget4
  simp only [librdf_hash_datum.bytes]
  cases values_of db K <;> simp

/-! ## Facts about the jump and the delete path -/

theorem lower_bound_some (K : Bytes) : ∀ (db : TCBDB) (i : Nat), lower_bound K db = some i →
    ∃ r, db.get? i = some r ∧ key_le K r.1 = true := by
  intro db
  induction db with
  | nil => intro i h; simp [lower_bound] at h
  | cons r rs ih =>
    intro i h
    by_cases hk : key_le K r.1 = true
    · simp only [lower_bound, hk, if_true, Option.some.injEq] at h
      subst h
      exact ⟨r, by simp, hk⟩
    · simp only [lower_bound, hk, Bool.false_eq_true, if_false, Option.map_eq_some'] at h
      obtain ⟨j, hj, hi⟩ := h
      subst hi
      obtain ⟨r2, h1, h2⟩ := ih j hj
      exact ⟨r2, by simpa using h1, h2⟩

theorem lower_bound_none (K : Bytes) : ∀ db : TCBDB, lower_bound K db = none →
    ∀ r ∈ db, key_le K r.1 = false := by
  intro db
  induction db with
  | nil => intro _ r hr; simp at hr
  | cons r rs ih =>
    intro h r2 hr2
    by_cases hk : key_le K r.1 = true
    · simp [lower_bound, hk] at h
    · simp only [lower_bound, hk, Bool.false_eq_true, if_false, Option.map_eq_none'] at h
      rcases List.mem_cons.mp hr2 with e | e
      · subst e
        simpa using hk
      · exact ih h r2 e

theorem lower_bound_isSome (K : Bytes) (db : TCBDB) :
    (lower_bound K db).isSome = db.any (fun r => key_le K r.1) := by
  induction db with
  | nil => rfl
  | cons r rs ih =>
    by_cases hk : key_le K r.1 = true
    · simp [lower_bound, hk]
    · simp only [Bool.not_eq_true] at hk
      simp [lower_bound, hk, ← ih]

theorem get?_split {α : Type} : ∀ (l : List α) (i : Nat) (r : α), l.get? i = some r →
    l = l.take i ++ r :: l.drop (i + 1) ∧ l.eraseIdx i = l.take i ++ l.drop (i + 1) := by
  intro l
  induction l with
  | nil => intro i r h; simp at h
  | cons x xs ih =>
    intro i r h
    cases i with
    | zero =>
      simp only [List.get?_cons_zero, Option.some.injEq] at h
      subst h
      simp
    | succ j =>
      simp only [List.get?_cons_succ] at h
      obtain ⟨h1, h2⟩ := ih j r h
      constructor
      · simp only [List.take_succ_cons, List.drop_succ_cons, List.cons_append, List.cons.injEq,
          true_and]
        exact h1
      · simp only [List.eraseIdx_cons_succ, List.take_succ_cons, List.drop_succ_cons,
          List.cons_append, List.cons.injEq, true_and]
        exact h2

theorem find_body_delete (K V : Bytes) (st : FindState) (i : Nat) (rk rv : Bytes)
    (hc : st.cur = some i) (hr : st.db.get? i = some (rk, rv)) (hret : st.ret ≠ 0) :
    find_body K (some V) false st rk
      = if (rk, rv) = (K, V) then
          { ret := 0, has_data := false, db := st.db.eraseIdx i,
            cur := if i + 1 < st.db.length then some i else none,
            out_last_key := st.out_last_key, out_last_value := st.out_last_value }
        else
          { ret := st.ret, has_data := false, db := st.db, cur := st.cur,
            out_last_key := st.out_last_key, out_last_value := st.out_last_value } := by
  have hlt : i < st.db.length := by
    by_contra hge
    have := List.get?_eq_none.mpr (Nat.le_of_not_lt hge)
    rw [this] at hr
    simp at hr
  simp only [find_body, bytes_eq_test_left, bytes_eq_test, tcbdbcurval, tcbdbcurout, hc, hr,
    Option.map_some']
  by_cases hk : K = rk
  · by_cases hv : V = rv
    · subst hk hv
      simp [hlt]
    · have hv2 : ¬ rv = V := fun e => hv e.symm
      subst hk
      simp [hv, hv2, hret]
  · have hk2 : ¬ rk = K := fun e => hk e.symm
    simp [hk, hk2, hret]

theorem delete_key_value_at (db : TCBDB) (K V : Bytes) (i : Nat) (r : Record)
    (hi : lower_bound K db = some i) (hr : db.get? i = some r) :
    librdf_hash_tokyodb_delete_key_value db { data := some K } { data := some V }
      = some (if r = (K, V) then (0, db.eraseIdx i) else (1, db)) := by
  obtain ⟨rk, rv⟩ := r
  unfold librdf_hash_tokyodb_delete_key_value tcbdbcurjump
  simp only [librdf_hash_datum.bytes, hi]
  unfold librdf_hash_tokyodb_cursor_find_and_perform_action
  simp only [Bool.false_and, Bool.false_eq_true, if_false]
  rw [find_loop]
  simp only [Bool.true_eq_false, if_false, tcbdbcurkey, hr, Option.map_some', tcbdbrnum]
  rw [find_body_delete K V _ i rk rv rfl hr (by simp)]
  by_cases h : (rk, rv) = (K, V)
  · rw [if_pos h, if_pos h, find_loop]
    simp
  · rw [if_neg h, if_neg h, find_loop]
    simp

theorem delete_key_value_no_jump (db : TCBDB) (K V : Bytes) (hi : lower_bound K db = none) :
    librdf_hash_tokyodb_delete_key_value db { data := some K } { data := some V }
      = some (-1, db) := by
  unfold librdf_hash_tokyodb_delete_key_value tcbdbcurjump
  simp [librdf_hash_datum.bytes, hi]

/-! ## Facts about the read-only search -/

theorem find_body_ro (K : Bytes) (value : Option Bytes) (st : FindState) (i : Nat)
    (rk rv : Bytes) (hc : st.cur = some i) (hr : st.db.get? i = some (rk, rv))
    (hret : st.ret ≠ 0) :
    find_body K value true st rk
      = if rk = K ∧ value ≠ some rv then
          { ret := 0, has_data := false, db := st.db, cur := (tcbdbcurnext st.db st.cur).2,
            out_last_key := st.out_last_key.map (fun _ => some rk),
            out_last_value := st.out_last_value.map (fun _ => some rv) }
        else
          { ret := st.ret, has_data := (tcbdbcurnext st.db st.cur).1, db := st.db,
            cur := (tcbdbcurnext st.db st.cur).2,
            out_last_key := st.out_last_key, out_last_value := st.out_last_value } := by
  simp only [find_body, bytes_eq_test_left, bytes_ne_test, tcbdbcurval, hc, hr,
    Option.map_some']
  by_cases hk : K = rk
  · subst hk
    cases value with
    | none => simp
    | some v =>
      by_cases hv : v = rv
      · subst hv
        simp [hret]
      · simp [hv]
  · have hk2 : ¬ rk = K := fun e => hk e.symm
    simp [hk, hk2, hret]

theorem drop_cons_get {α : Type} : ∀ (l : List α) (i : Nat) (r : α) (rs : List α),
    l.drop i = r :: rs → l.get? i = some r ∧ l.drop (i + 1) = rs ∧ i < l.length := by
  intro l
  induction l with
  | nil => intro i r rs h; simp at h
  | cons x xs ih =>
    intro i r rs h
    cases i with
    | zero =>
      simp only [List.drop_zero, List.cons.injEq] at h
      obtain ⟨h1, h2⟩ := h
      subst h1 h2
      simp
    | succ j =>
      simp only [List.drop_succ_cons] at h
      obtain ⟨h1, h2, h3⟩ := ih j r rs h
      refine ⟨?_, ?_, ?_⟩
      · simpa using h1
      · simpa using h2
      · simpa using h3

theorem find_loop_ro (db : TCBDB) (K : Bytes) (value : Option Bytes) (ok ov : Option Bytes) :
    ∀ (l : List Record) (i fuel : Nat), db.drop i = l → l.length ≤ fuel →
    ∃ st, find_loop K value true fuel
        { ret := 1, has_data := true, db := db, cur := some i,
          out_last_key := some ok, out_last_value := some ov } = some st
      ∧ st.db = db
      ∧ (match ro_find K value l with
         | none => st.ret = 1 ∧ st.out_last_key = some ok ∧ st.out_last_value = some ov
         | some (r, rs) =>
           st.ret = 0 ∧ st.out_last_key = some (some r.1) ∧ st.out_last_value = some (some r.2)
             ∧ rest_of db st.cur = rs) := by
  intro l
  induction l with
  | nil =>
    intro i fuel hl _
    have hge : db.length ≤ i := by
      have := congrArg List.length hl
      simp only [List.length_drop, List.length_nil] at this
      omega
    refine ⟨{ ret := 1, has_data := true, db := db, cur := some i,
              out_last_key := some ok, out_last_value := some ov }, ?_, rfl, ?_⟩
    · rw [find_loop]
      simp only [tcbdbcurkey, List.get?_eq_none.mpr hge, Option.map_none', Bool.true_eq_false,
        if_false]
    · simp [ro_find]
  | cons r rs ih =>
    intro i fuel hl hf
    obtain ⟨rk, rv⟩ := r
    obtain ⟨hget, hdrop, hlt⟩ := drop_cons_get db i (rk, rv) rs hl
    cases fuel with
    | zero => simp at hf
    | succ f =>
      have hf2 : rs.length ≤ f := by simpa using hf
      rw [find_loop]
      simp only [Bool.true_eq_false, if_false, tcbdbcurkey, hget, Option.map_some']
      rw [find_body_ro K value _ i rk rv rfl hget (by simp)]
      by_cases hm : rk = K ∧ value ≠ some rv
      · rw [if_pos hm]
        refine ⟨{ ret := 0, has_data := false, db := db, cur := (tcbdbcurnext db (some i)).2,
                  out_last_key := some (some rk), out_last_value := some (some rv) },
                ?_, rfl, ?_⟩
        · rw [find_loop]
          simp
        · simp only [ro_find, hm, ne_eq, not_false_eq_true, and_self, if_true, Option.map_some',
            true_and]
          by_cases hn : i + 1 < db.length
          · simp [tcbdbcurnext, hn, rest_of, hdrop]
          · have : rs = [] := by
              rw [← hdrop]
              exact List.drop_eq_nil_of_le (Nat.le_of_not_lt hn)
            simp [tcbdbcurnext, hn, rest_of, this]
      · rw [if_neg hm]
        by_cases hn : i + 1 < db.length
        · obtain ⟨st, h1, h2, h3⟩ := ih (i + 1) f hdrop hf2
          refine ⟨st, ?_, h2, ?_⟩
          · simpa [tcbdbcurnext, hn] using h1
          · simpa [ro_find, hm] using h3
        · have hrs : rs = [] := by
            rw [← hdrop]
            exact List.drop_eq_nil_of_le (Nat.le_of_not_lt hn)
          refine ⟨{ ret := 1, has_data := false, db := db, cur := none,
                    out_last_key := some ok, out_last_value := some ov }, ?_, rfl, ?_⟩
          · rw [find_loop]
            simp [tcbdbcurnext, hn]
          · simp [ro_find, hm, hrs]

theorem find_ro_cur (db : TCBDB) (K : Bytes) (value : Option Bytes) (ok ov : Option Bytes)
    (cur : BDBCUR) :
    ∃ st, librdf_hash_tokyodb_cursor_find_and_perform_action db cur K value true
        (some ok) (some ov) = some st
      ∧ (match ro_find K value (rest_of db cur) with
         | none => st.ret = 1 ∧ st.out_last_key = some ok ∧ st.out_last_value = some ov
         | some (r, rs) =>
           st.ret = 0 ∧ st.out_last_key = some (some r.1) ∧ st.out_last_value = some (some r.2)
             ∧ rest_of db st.cur = rs) := by
  unfold librdf_hash_tokyodb_cursor_find_and_perform_action
  simp only [Option.isNone_some, Bool.or_self, Bool.and_false, Bool.false_eq_true, if_false]
  cases cur with
  | none =>
    refine ⟨{ ret := 1, has_data := true, db := db, cur := none,
              out_last_key := some ok, out_last_value := some ov }, ?_, ?_⟩
    · rw [find_loop]
      simp [tcbdbcurkey]
    · simp [rest_of, ro_find]
  | some i =>
    obtain ⟨st, h1, _, h3⟩ := find_loop_ro db K value ok ov (db.drop i) i (tcbdbrnum db + 1) rfl
      (by simp only [List.length_drop, tcbdbrnum]; omega)
    exact ⟨st, h1, h3⟩

theorem cursor_get_next_value (db : TCBDB) (K : Bytes) (a : Option Bytes)
    (cursor : librdf_hash_tokyodb_cursor_context) :
    ∃ r, librdf_hash_tokyodb_cursor_get cursor db (some { data := some K })
        (some { data := a }) LIBRDF_HASH_CURSOR_NEXT_VALUE = some r
      ∧ (match ro_find K a (rest_of db cursor.cur) with
         | none => r.ret = 1
         | some (x, rs) =>
           r.ret = 0 ∧ r.value = some { data := some x.2 } ∧ rest_of db r.cursor.cur = rs) := by
  obtain ⟨st, h1, h2⟩ := find_ro_cur db K a cursor.last_key cursor.last_value cursor.cur
  unfold librdf_hash_tokyodb_cursor_get
  simp only [cursor_get_switch, LIBRDF_HASH_CURSOR_NEXT_VALUE, LIBRDF_HASH_CURSOR_SET,
    LIBRDF_HASH_CURSOR_FIRST, OfNat.one_ne_ofNat, if_false, if_true, one_ne_zero, or_true, h1]
  cases hro : ro_find K a (rest_of db cursor.cur) with
  | none =>
    rw [hro] at h2
    obtain ⟨e1, _, _⟩ := h2
    have hne : ¬ st.ret = 0 := by rw [e1]; decide
    simp only [hne, if_false]
    exact ⟨_, rfl, e1⟩
  | some p =>
    obtain ⟨x, rs⟩ := p
    rw [hro] at h2
    obtain ⟨e1, _, e3, e4⟩ := h2
    simp only [e1, if_true]
    refine ⟨_, rfl, rfl, ?_, e4⟩
    simp [e3]

theorem cursor_get_set_fresh (db : TCBDB) (K : Bytes) (i : Nat)
    (hi : lower_bound K db = some i) :
    ∃ r, librdf_hash_tokyodb_cursor_get (librdf_hash_tokyodb_cursor_init db) db
        (some { data := some K }) (some { data := none }) LIBRDF_HASH_CURSOR_SET = some r
      ∧ (match ro_find K none (db.drop i) with
         | none => r.ret = 1
         | some (x, rs) =>
           r.ret = 0 ∧ r.value = some { data := some x.2 } ∧ rest_of db r.cursor.cur = rs) := by
  obtain ⟨st, h1, h2⟩ := find_ro_cur db K none none none (some i)
  unfold librdf_hash_tokyodb_cursor_get
  have hsw : cursor_get_switch (librdf_hash_tokyodb_cursor_init db) db { data := some K }
      (some { data := none }) LIBRDF_HASH_CURSOR_SET
      = (true, { cursor_set_to_first := false, last_key := none, last_value := none,
                 cur := some i }) := by
    simp [cursor_get_switch, librdf_hash_tokyodb_cursor_init, tcbdbcurjump,
      librdf_hash_datum.bytes, hi]
  simp only []
  rw [hsw]
  simp only [true_or, if_true, h1]
  simp only [rest_of] at h2
  cases hro : ro_find K none (db.drop i) with
  | none =>
    rw [hro] at h2
    obtain ⟨e1, _, _⟩ := h2
    have hne : ¬ st.ret = 0 := by rw [e1]; decide
    simp only [hne, if_false]
    exact ⟨_, rfl, e1⟩
  | some p =>
    obtain ⟨x, rs⟩ := p
    rw [hro] at h2
    obtain ⟨e1, _, e3, e4⟩ := h2
    simp only [e1, if_true]
    refine ⟨_, rfl, rfl, ?_, e4⟩
    simp [e3]

theorem ro_find_some_length (K : Bytes) (value : Option Bytes) :
    ∀ (l : List Record) (x : Record) (rs : List Record),
      ro_find K value l = some (x, rs) → rs.length < l.length := by
  intro l
  induction l with
  | nil => intro x rs h; simp [ro_find] at h
  | cons r t ih =>
    intro x rs h
    by_cases hm : r.1 = K ∧ value ≠ some r.2
    · simp only [ro_find, hm, ne_eq, not_false_eq_true, and_self, if_true, Option.some.injEq,
        Prod.mk.injEq] at h
      rw [← h.2]
      simp
    · simp only [ro_find, hm, if_false] at h
      have := ih x rs h
      simp only [List.length_cons]
      omega

theorem ro_find_none_run_heads (K a : Bytes) :
    ∀ l : List Record, ro_find K (some a) l = none → run_heads K a l = [] := by
  intro l
  induction l with
  | nil => intro _; rfl
  | cons r t ih =>
    intro h
    by_cases hm : r.1 = K ∧ ¬ a = r.2
    · simp [ro_find, hm] at h
    · have hm2 : ¬ (r.1 = K ∧ r.2 ≠ a) := fun ⟨h1, h2⟩ => hm ⟨h1, fun e => h2 e.symm⟩
      simp only [ro_find, ne_eq, Option.some.injEq, hm, if_false] at h
      simp only [run_heads, hm2, if_false]
      exact ih h

theorem ro_find_some_run_heads (K a : Bytes) :
    ∀ (l : List Record) (x : Record) (rs : List Record),
      ro_find K (some a) l = some (x, rs) → run_heads K a l = x.2 :: run_heads K x.2 rs := by
  intro l
  induction l with
  | nil => intro x rs h; simp [ro_find] at h
  | cons r t ih =>
    intro x rs h
    by_cases hm : r.1 = K ∧ ¬ a = r.2
    · have hm2 : r.1 = K ∧ r.2 ≠ a := ⟨hm.1, fun e => hm.2 e.symm⟩
      simp only [ro_find, ne_eq, Option.some.injEq, hm, not_false_eq_true, and_self, if_true,
        Prod.mk.injEq] at h
      obtain ⟨h1, h2⟩ := h
      subst h1 h2
      simp only [run_heads, hm2, ne_eq, not_false_eq_true, and_self, if_true]
    · have hm2 : ¬ (r.1 = K ∧ r.2 ≠ a) := fun ⟨h1, h2⟩ => hm ⟨h1, fun e => h2 e.symm⟩
      simp only [ro_find, ne_eq, Option.some.injEq, hm, if_false] at h
      simp only [run_heads, hm2, if_false]
      exact ih x rs h

theorem ro_find_key_values (K : Bytes) :
    ∀ l : List Record,
      (match ro_find K none l with
       | none => values_of l K = []
       | some (x, rs) => values_of l K = x.2 :: values_of rs K) := by
  intro l
  induction l with
  | nil => simp [ro_find, values_of]
  | cons r t ih =>
    by_cases hk : r.1 = K
    · simp [ro_find, values_of, hk]
    · simpa [ro_find, values_of, hk] using ih

theorem destutter_run_heads (K : Bytes) :
    ∀ (l : List Record) (a : Bytes),
      List.destutter' (· ≠ ·) a (values_of l K) = a :: run_heads K a l := by
  intro l
  induction l with
  | nil => intro a; simp [values_of, run_heads]
  | cons r t ih =>
    intro a
    by_cases hk : r.1 = K
    · by_cases hv : a = r.2
      · have hv2 : ¬ r.2 ≠ a := fun h => h hv.symm
        simp only [values_of, hk, if_true, run_heads, hv2, and_false, if_false]
        rw [List.destutter'_cons_neg _ (by simpa using hv)]
        exact ih a
      · have hv2 : r.2 ≠ a := fun h => hv h.symm
        simp only [values_of, hk, if_true, run_heads, hv2, ne_eq, not_false_eq_true, and_self]
        rw [List.destutter'_cons_pos _ (by simpa using hv)]
        rw [ih r.2]
    · simp only [values_of, hk, if_false, run_heads, false_and]
      exact ih a

theorem mem_destutter_ne (l : List Bytes) :
    ∀ (a x : Bytes), x ∈ a :: l → x ∈ List.destutter' (· ≠ ·) a l := by
  induction l with
  | nil => intro a x hx; simpa using hx
  | cons b t ih =>
    intro a x hx
    by_cases hab : a = b
    · subst hab
      rw [List.destutter'_cons_neg _ (by simp)]
      apply ih
      simp only [List.mem_cons] at hx ⊢
      tauto
    · rw [List.destutter'_cons_pos _ (by simpa using hab)]
      rcases List.mem_cons.mp hx with e | e
      · simp [e]
      · exact List.mem_cons_of_mem _ (ih b x e)

theorem mem_destutter_values (db : TCBDB) (K v : Bytes) :
    v ∈ List.destutter (· ≠ ·) (values_of db K) ↔ (K, v) ∈ db := by
  rw [← mem_values_of]
  constructor
  · intro h
    exact (List.destutter_sublist _ _).subset h
  · intro h
    cases hv : values_of db K with
    | nil => rw [hv] at h; simp at h
    | cons a t =>
      rw [hv] at h
      rw [List.destutter_cons']
      exact mem_destutter_ne t a v h

theorem values_of_drop_lower_bound (K : Bytes) :
    ∀ (db : TCBDB) (i : Nat), lower_bound K db = some i →
      values_of (db.drop i) K = values_of db K := by
  intro db
  induction db with
  | nil => intro i h; simp [lower_bound] at h
  | cons r rs ih =>
    intro i h
    by_cases hk : key_le K r.1 = true
    · simp only [lower_bound, hk, if_true, Option.some.injEq] at h
      subst h
      rfl
    · simp only [lower_bound, hk, Bool.false_eq_true, if_false, Option.map_eq_some'] at h
      obtain ⟨j, hj, hi⟩ := h
      subst hi
      have hne : ¬ r.1 = K := by
        intro e
        apply hk
        rw [e]
        exact key_le_refl K
      simp only [List.drop_succ_cons, values_of, hne, if_false]
      exact ih j hj

theorem lower_bound_of_mem (K v : Bytes) (db : TCBDB) (h : (K, v) ∈ db) :
    ∃ i, lower_bound K db = some i := by
  cases hl : lower_bound K db with
  | some i => exact ⟨i, rfl⟩
  | none =>
    have := lower_bound_none K db hl (K, v) h
    simp [key_le_refl] at this

theorem next_values_run_heads (db : TCBDB) (K : Bytes) :
    ∀ (fuel : Nat) (cursor : librdf_hash_tokyodb_cursor_context) (a : Bytes),
      (rest_of db cursor.cur).length < fuel →
      next_values db K fuel cursor (some { data := some a })
        = some (run_heads K a (rest_of db cursor.cur), 1) := by
  intro fuel
  induction fuel with
  | zero => intro cursor a h; simp at h
  | succ n ih =>
    intro cursor a hlen
    obtain ⟨r, hr, hspec⟩ := cursor_get_next_value db K (some a) cursor
    rw [next_values, hr]
    cases hro : ro_find K (some a) (rest_of db cursor.cur) with
    | none =>
      rw [hro] at hspec
      have e1 : r.ret = 1 := hspec
      rw [ro_find_none_run_heads K a _ hro]
      simp [e1]
    | some p =>
      obtain ⟨x, rs⟩ := p
      rw [hro] at hspec
      obtain ⟨e1, e2, e3⟩ := hspec
      have hlt := ro_find_some_length K (some a) _ x rs hro
      have hih := ih r.cursor x.2 (by rw [e3]; omega)
      simp only [e1, if_true, e2, hih, librdf_hash_datum.bytes, e3]
      rw [ro_find_some_run_heads K a _ x rs hro]

theorem scan_values_eq (db : TCBDB) (K : Bytes) (h : ∃ v, (K, v) ∈ db) :
    scan_values db K = some (List.destutter (· ≠ ·) (values_of db K), 1) := by
  obtain ⟨v, hv⟩ := h
  obtain ⟨i, hi⟩ := lower_bound_of_mem K v db hv
  obtain ⟨r, hr, hspec⟩ := cursor_get_set_fresh db K i hi
  have hvals := ro_find_key_values K (db.drop i)
  rw [values_of_drop_lower_bound K db i hi] at hvals
  unfold scan_values
  rw [hr]
  cases hro : ro_find K none (db.drop i) with
  | none =>
    rw [hro] at hvals
    have hm := (mem_values_of db K v).mpr hv
    simp only at hvals
    rw [hvals] at hm
    simp at hm
  | some p =>
    obtain ⟨x, rs⟩ := p
    rw [hro] at hvals hspec
    obtain ⟨e1, e2, e3⟩ := hspec
    have hlt := ro_find_some_length K none _ x rs hro
    have hlen : (rest_of db r.cursor.cur).length < tcbdbrnum db + 1 := by
      rw [e3]
      simp only [List.length_drop, tcbdbrnum] at hlt ⊢
      omega
    have hnv := next_values_run_heads db K (tcbdbrnum db + 1) r.cursor x.2 hlen
    simp only at hvals
    simp only [e1, if_true, e2, hnv, librdf_hash_datum.bytes, e3, hvals, List.destutter]
    rw [destutter_run_heads]

/-! ## Claims about put, exists and delete_key -/

/-- The `int` made of a record count below 2^31 is the count. -/
theorem int_of_uint64_small (n : Nat) (h : n < 2 ^ 31) : int_of_uint64 n = (n : Int) := by
  have h1 : n % 2 ^ 32 = n := Nat.mod_eq_of_lt (by omega)
  unfold int_of_uint64
  rw [h1, if_pos h]

/-- A sequence of `put` calls on a database connected as a writer: every call
returns 0 and the database is the one after all the puts. -/
theorem put_calls_writer (omode : Nat) (h : omode &&& BDBOWRITER ≠ 0) (kvs : List Record) :
    ∀ db : TCBDB, put_calls omode db kvs = (List.replicate kvs.length 0, put_all db kvs) := by
  induction kvs with
  | nil => intro db; simp [put_calls, put_all]
  | cons kv rest ih =>
    intro db
    simp only [put_calls, put_writer _ _ _ _ h, ih, List.length_cons, List.replicate_succ]
    simp [put_all, put_writer _ _ _ _ writer_mode_writer]

/-- A sequence of `put` calls on a database not connected as a writer: every
call returns -1 and the database stays as it was. -/
theorem put_calls_reader (omode : Nat) (h : omode &&& BDBOWRITER = 0) (kvs : List Record) :
    ∀ db : TCBDB, put_calls omode db kvs = (List.replicate kvs.length (-1), db) := by
  induction kvs with
  | nil => intro db; simp [put_calls]
  | cons kv rest ih =>
    intro db
    simp only [put_calls, put_reader _ _ _ _ h, ih, List.length_cons, List.replicate_succ]

/-- C2: starting from the empty store, after a sequence of n `put` calls that
all return 0, with n below 2^31, the value count is n and the store holds the
pairs put, each as often as it was put (no de-duplication). A `put` returns 0
exactly when the database is connected as a writer, and then adds one record;
otherwise it returns -1 and leaves the store as it was. Without the bound on
n the value count is n narrowed to `int`. -/
theorem C2_put_values_count (omode : Nat) (kvs : List Record)
    (hok : ∀ ret ∈ (put_calls omode [] kvs).1, ret = 0)
    (hfit : kvs.length < 2 ^ 31) :
    librdf_hash_tokyodb_values_count (put_calls omode [] kvs).2 = (kvs.length : Int)
    ∧ (put_calls omode [] kvs).2.Perm kvs
    ∧ (put_calls omode [] kvs).1.length = kvs.length
    ∧ (∀ (db : TCBDB) (k v : librdf_hash_datum),
        ((librdf_hash_tokyodb_put omode db k v).1 = 0 ↔ omode &&& BDBOWRITER ≠ 0)
        ∧ ((librdf_hash_tokyodb_put omode db k v).1 = 0 →
            (librdf_hash_tokyodb_put omode db k v).2.Perm ((k.bytes, v.bytes) :: db))
        ∧ ((librdf_hash_tokyodb_put omode db k v).1 ≠ 0 →
            librdf_hash_tokyodb_put omode db k v = (-1, db)))
    ∧ (∀ (db : TCBDB), librdf_hash_tokyodb_values_count db = int_of_uint64 db.length) := by
  have hput : ∀ (db : TCBDB) (k v : librdf_hash_datum),
      ((librdf_hash_tokyodb_put omode db k v).1 = 0 ↔ omode &&& BDBOWRITER ≠ 0)
      ∧ ((librdf_hash_tokyodb_put omode db k v).1 = 0 →
          (librdf_hash_tokyodb_put omode db k v).2.Perm ((k.bytes, v.bytes) :: db))
      ∧ ((librdf_hash_tokyodb_put omode db k v).1 ≠ 0 →
          librdf_hash_tokyodb_put omode db k v = (-1, db)) := by
    intro db k v
    by_cases hw : omode &&& BDBOWRITER = 0
    · rw [put_reader _ _ _ _ hw]
      simp [hw]
    · rw [put_writer _ _ _ _ hw]
      refine ⟨by simp [hw], fun _ => bdb_insert_perm _ _ _, fun h => absurd rfl h⟩
  by_cases hw : omode &&& BDBOWRITER = 0
  · have hnil : kvs = [] := by
      cases kvs with
      | nil => rfl
      | cons kv rest =>
        have h := hok (-1) (by rw [put_calls_reader omode hw]; simp [List.replicate_succ])
        simp at h
    subst hnil
    refine ⟨?_, ?_, ?_, hput, fun _ => rfl⟩
    · simp [put_calls, librdf_hash_tokyodb_values_count, tcbdbrnum, int_of_uint64]
    · simp [put_calls]
    · simp [put_calls]
  · rw [put_calls_writer omode hw]
    have hp : (put_all [] kvs).Perm kvs := by simpa using put_all_perm kvs []
    refine ⟨?_, hp, by simp, hput, fun _ => rfl⟩
    simp only [librdf_hash_tokyodb_values_count, tcbdbrnum, hp.length_eq]
    exact int_of_uint64_small _ hfit

/-- Witness of C2: the same pair put twice through a writer. -/
theorem C2_put_values_count_witness :
    (∀ ret ∈ (put_calls 6 [] [([107], [97]), ([107], [97])]).1, ret = 0)
    ∧ ([([107], [97]), ([107], [97])] : List Record).length < 2 ^ 31
    ∧ put_calls 6 [] [([107], [97]), ([107], [97])]
      = ([0, 0], [([107], [97]), ([107], [97])])
    ∧ put_calls 1 [] [([107], [97]), ([107], [97])] = ([-1, -1], [])
    ∧ librdf_hash_tokyodb_values_count (put_calls 6 [] [([107], [97]), ([107], [97])]).2
      = (([([107], [97]), ([107], [97])] : List Record).length : Int) :=
  ⟨by decide, by decide, by decide, by decide,
   (C2_put_values_count 6 [([107], [97]), ([107], [97])] (by decide) (by decide)).1⟩

/-- C3: `delete_key(K)` leaves exactly the records whose key differs from `K`,
in their order, and a following `exists(K)` without a value returns 0. -/
theorem C3_delete_key_removes_all (db : TCBDB) (K : Bytes) :
    (librdf_hash_tokyodb_delete_key db { data := some K }).2
        = db.filter (fun r => decide (r.1 ≠ K))
    ∧ librdf_hash_tokyodb_exists (librdf_hash_tokyodb_delete_key db { data := some K }).2
        { data := some K } none = 0 := by
  have h : (librdf_hash_tokyodb_delete_key db { data := some K }).2 = remove_key K db := by
    unfold librdf_hash_tokyodb_delete_key tcbdbout3
    simp only [librdf_hash_datum.bytes]
    cases hv : values_of db K with
    | nil => simp [remove_key_of_absent K db hv]
    | cons v vs => simp
  rw [h]
  refine ⟨remove_key_eq_filter K db, ?_⟩
  rw [exists_key_eq, values_of_remove_key]
  simp

/-- C4 as stated fails: on the empty store `delete_key` of a key returns -1, not 0. -/
theorem C4_delete_key_absent_counterexample :
    (librdf_hash_tokyodb_delete_key [] { data := some [107] }).1 = -1
    ∧ (librdf_hash_tokyodb_delete_key [] { data := some [107] }).1 ≠ 0 := by
  decide

/-- C4 amended: for a key without a record `delete_key` returns -1 (the engine's
"no record" is reported like any other failure) and leaves the store unchanged. -/
theorem C4_delete_key_absent (db : TCBDB) (K : Bytes) (h : ∀ v, (K, v) ∉ db) :
    librdf_hash_tokyodb_delete_key db { data := some K } = (-1, db) := by
  have hv : values_of db K = [] := by
    apply List.eq_nil_iff_forall_not_mem.mpr
    intro v hm
    exact h v ((mem_values_of db K v).mp hm)
  unfold librdf_hash_tokyodb_delete_key tcbdbout3
  simp [librdf_hash_datum.bytes, hv]

/-- Witness of C4 amended: a store with one record and another key. -/
theorem C4_delete_key_absent_witness :
    (∀ v, (([107], v) : Record) ∉ ([([97], [1])] : TCBDB))
    ∧ librdf_hash_tokyodb_delete_key [([97], [1])] { data := some [107] }
        = (-1, [([97], [1])]) :=
  ⟨by simp, C4_delete_key_absent [([97], [1])] [107] (by simp)⟩

/-- C5: after any sequence of put, delete_key and delete_key_value calls on the
empty store, `exists(K)` without a value is positive exactly when a record with
key `K` is in the store. -/
theorem C5_exists_key_iff (ops : List HashOp) (K : Bytes) :
    0 < librdf_hash_tokyodb_exists (run_ops [] ops) { data := some K } none
      ↔ ∃ v, (K, v) ∈ run_ops [] ops := by
  rw [exists_key_eq]
  cases hv : values_of (run_ops [] ops) K with
  | nil =>
    simp only [if_true, lt_self_iff_false, false_iff, not_exists]
    intro v hm
    have := (mem_values_of _ K v).mpr hm
    rw [hv] at this
    simp at this
  | cons v vs =>
    simp only [reduceCtorEq, if_false, zero_lt_one, true_iff]
    exact ⟨v, (mem_values_of _ K v).mp (by rw [hv]; simp)⟩

/-- C6: `exists(K, V)` returns 1 when the store holds a record with key `K` and
value `V` (same length, same bytes) and 0 otherwise. -/
theorem C6_exists_key_value (db : TCBDB) (K V : Bytes) :
    librdf_hash_tokyodb_exists db { data := some K } (some { data := some V })
      = if (K, V) ∈ db then 1 else 0 := by
  unfold librdf_hash_tokyodb_exists tcbdbget4
  simp only [librdf_hash_datum.bytes]
  cases hv : values_of db K with
  | nil =>
    have : (K, V) ∉ db := by
      intro hm
      have := (mem_values_of db K V).mpr hm
      rw [hv] at this
      simp at this
    simp [this]
  | cons v vs =>
    simp only
    rw [exists_loop_eq, ← hv]
    simp only [mem_values_of]

/-! ## Claims about delete_key_value -/

/-- C1 at a failing input: after put(k,a), put(k,b) the record (k,b) is in the
store, yet `delete_key_value(k,b)` returns 1 and removes nothing: the search
stops at the first record of the key. -/
theorem C1_delete_key_value_not_first :
    (([107], [98]) : Record) ∈ put_all [] [([107], [97]), ([107], [98])]
    ∧ librdf_hash_tokyodb_delete_key_value (put_all [] [([107], [97]), ([107], [98])])
        { data := some [107] } { data := some [98] }
      = some (1, [([107], [97]), ([107], [98])]) := by
  decide

/-- C7 as stated fails: on the empty store `delete_key_value` returns -1, the
code it also uses for an engine error. -/
theorem C7_delete_key_value_absent_counterexample :
    librdf_hash_tokyodb_delete_key_value [] { data := some [107] } { data := some [97] }
      = some (-1, []) := by
  decide

/-- C7 amended: when the store has no record (K,V), `delete_key_value(K,V)`
leaves the store unchanged and returns 1 if some stored key is not below `K`
(the jump succeeds), and -1 otherwise. -/
theorem C7_delete_key_value_absent (db : TCBDB) (K V : Bytes) (h : (K, V) ∉ db) :
    librdf_hash_tokyodb_delete_key_value db { data := some K } { data := some V }
      = some (if db.any (fun r => key_le K r.1) then 1 else -1, db) := by
  have hany := lower_bound_isSome K db
  cases hl : lower_bound K db with
  | none =>
    rw [hl] at hany
    rw [delete_key_value_no_jump db K V hl, ← hany]
    simp
  | some i =>
    rw [hl] at hany
    obtain ⟨r, hr, _⟩ := lower_bound_some K db i hl
    have hne : ¬ r = (K, V) := by
      intro e
      apply h
      rw [← e]
      exact List.get?_mem hr
    rw [delete_key_value_at db K V i r hl hr, ← hany]
    simp [hne]

/-- Witness of C7 amended: a store whose only key is above the key deleted. -/
theorem C7_delete_key_value_absent_witness :
    (([97], [1]) : Record) ∉ ([([98], [2])] : TCBDB)
    ∧ librdf_hash_tokyodb_delete_key_value [([98], [2])] { data := some [97] }
        { data := some [1] }
      = some (if ([([98], [2])] : TCBDB).any (fun r => key_le [97] r.1) then 1 else -1,
              [([98], [2])]) :=
  ⟨by decide, C7_delete_key_value_absent [([98], [2])] [97] [1] (by decide)⟩

/-- C8: `delete_key_value(K,V)` with value bytes returns, and either leaves the
store as it was or removes exactly one record, which is (K,V); when it returns
nonzero the store is unchanged. -/
theorem C8_delete_key_value_frame (db : TCBDB) (K V : Bytes) :
    ∃ (ret : Int) (db1 : TCBDB),
      librdf_hash_tokyodb_delete_key_value db { data := some K } { data := some V }
        = some (ret, db1)
      ∧ (db1 = db ∨ ∃ l1 l2, db = l1 ++ (K, V) :: l2 ∧ db1 = l1 ++ l2)
      ∧ (ret ≠ 0 → db1 = db) := by
  cases hl : lower_bound K db with
  | none =>
    exact ⟨-1, db, delete_key_value_no_jump db K V hl, Or.inl rfl, fun _ => rfl⟩
  | some i =>
    obtain ⟨r, hr, _⟩ := lower_bound_some K db i hl
    have hat := delete_key_value_at db K V i r hl hr
    by_cases he : r = (K, V)
    · rw [if_pos he] at hat
      obtain ⟨h1, h2⟩ := get?_split db i r hr
      refine ⟨0, db.eraseIdx i, hat, Or.inr ⟨db.take i, db.drop (i + 1), ?_, h2⟩, ?_⟩
      · rw [← he]
        exact h1
      · intro h0
        exact absurd rfl h0
    · rw [if_neg he] at hat
      exact ⟨1, db, hat, Or.inl rfl, fun _ => rfl⟩

/-! ## Claims about the cursor scans -/

/-- C9 at a failing input: with the keys "a" and "a" followed by a zero byte in
the store, FIRST returns "a" and the next NEXT fails with -1, so the second key
is never returned: the key comparison of the scan has no length test. -/
theorem C9_scan_keys_skips_zero_extended_key :
    put_all [] [([97], [120]), ([97, 0], [121])] = [([97], [120]), ([97, 0], [121])]
    ∧ scan_keys (put_all [] [([97], [120]), ([97, 0], [121])]) = some ([[97]], -1) := by
  decide

/-- C10 as stated fails: with the values a, b, a stored under one key, the scan
returns a twice. -/
theorem C10_scan_values_counterexample :
    scan_values (put_all [] [([107], [97]), ([107], [98]), ([107], [97])]) [107]
      = some ([[97], [98], [97]], 1)
    ∧ ¬ ([[97], [98], [97]] : List Bytes).Nodup := by
  have hp : put_all [] [([107], [97]), ([107], [98]), ([107], [97])]
      = [([107], [97]), ([107], [98]), ([107], [97])] := by decide
  rw [hp, scan_values_eq _ _ ⟨[97], by decide⟩]
  decide

/-- C10 amended: for a key with at least one record, SET(K, nil) followed by
next-value calls returns the values stored under `K` in store order with each
run of adjacent equal values collapsed to one, and the scan ends with code 1;
every value stored under `K` is among the values returned, and no value is
returned twice in a row. -/
theorem C10_scan_values_runs (db : TCBDB) (K : Bytes) (h : ∃ v, (K, v) ∈ db) :
    scan_values db K = some (List.destutter (· ≠ ·) (values_of db K), 1)
    ∧ (∀ v, v ∈ List.destutter (· ≠ ·) (values_of db K) ↔ (K, v) ∈ db)
    ∧ (List.destutter (· ≠ ·) (values_of db K)).Chain' (· ≠ ·) :=
  ⟨scan_values_eq db K h, fun v => mem_destutter_values db K v,
   List.destutter_is_chain' _ _⟩

/-- Witness of C10 amended: the values a, a, b under one key give a, b. -/
theorem C10_scan_values_runs_witness :
    (∃ v, (([107], v) : Record) ∈ ([([107], [97]), ([107], [97]), ([107], [98])] : TCBDB))
    ∧ (scan_values [([107], [97]), ([107], [97]), ([107], [98])] [107]
        = some (List.destutter (· ≠ ·)
            (values_of [([107], [97]), ([107], [97]), ([107], [98])] [107]), 1)
      ∧ (∀ v, v ∈ List.destutter (· ≠ ·)
            (values_of [([107], [97]), ([107], [97]), ([107], [98])] [107])
          ↔ (([107], v) : Record) ∈ ([([107], [97]), ([107], [97]), ([107], [98])] : TCBDB))
      ∧ (List.destutter (· ≠ ·)
            (values_of [([107], [97]), ([107], [97]), ([107], [98])] [107])).Chain' (· ≠ ·)) :=
  ⟨⟨[97], by decide⟩,
   C10_scan_values_runs [([107], [97]), ([107], [97]), ([107], [98])] [107] ⟨[97], by decide⟩⟩

/-! ## Facts about SET, FIRST and NEXT -/

theorem ro_find_some_key (K : Bytes) (value : Option Bytes) :
    ∀ (l : List Record) (x : Record) (rs : List Record),
      ro_find K value l = some (x, rs) → x.1 = K := by
  intro l
  induction l with
  | nil => intro x rs h; simp [ro_find] at h
  | cons r t ih =>
    intro x rs h
    by_cases hm : r.1 = K ∧ value ≠ some r.2
    · simp only [ro_find, hm, ne_eq, not_false_eq_true, and_self, if_true, Option.some.injEq,
        Prod.mk.injEq] at h
      rw [← h.1]
      exact hm.1
    · simp only [ro_find, hm, if_false] at h
      exact ih x rs h

theorem cursor_get_set_fresh_full (db : TCBDB) (K : Bytes) (i : Nat)
    (hi : lower_bound K db = some i) :
    ∃ r, librdf_hash_tokyodb_cursor_get (librdf_hash_tokyodb_cursor_init db) db
        (some { data := some K }) (some { data := none }) LIBRDF_HASH_CURSOR_SET = some r
      ∧ (match ro_find K none (db.drop i) with
         | none =>
           r.ret = 1 ∧ r.value = some { data := none } ∧ r.cursor.last_key = none
             ∧ r.cursor.last_value = none
         | some (x, _) =>
           r.ret = 0 ∧ r.value = some { data := some x.2 } ∧ r.cursor.last_key = some x.1
             ∧ r.cursor.last_value = some x.2) := by
  obtain ⟨st, h1, h2⟩ := find_ro_cur db K none none none (some i)
  unfold librdf_hash_tokyodb_cursor_get
  have hsw : cursor_get_switch (librdf_hash_tokyodb_cursor_init db) db { data := some K }
      (some { data := none }) LIBRDF_HASH_CURSOR_SET
      = (true, { cursor_set_to_first := false, last_key := none, last_value := none,
                 cur := some i }) := by
    simp [cursor_get_switch, librdf_hash_tokyodb_cursor_init, tcbdbcurjump,
      librdf_hash_datum.bytes, hi]
  simp only []
  rw [hsw]
  simp only [true_or, if_true, h1]
  simp only [rest_of] at h2
  cases hro : ro_find K none (db.drop i) with
  | none =>
    rw [hro] at h2
    obtain ⟨e1, e2, e3⟩ := h2
    have hne : ¬ st.ret = 0 := by rw [e1]; decide
    simp only [hne, if_false]
    refine ⟨_, rfl, e1, rfl, ?_, ?_⟩
    · simp [e2]
    · simp [e3]
  | some p =>
    obtain ⟨x, rs⟩ := p
    rw [hro] at h2
    obtain ⟨e1, e2, e3, _⟩ := h2
    simp only [e1, if_true]
    refine ⟨_, rfl, rfl, ?_, ?_, ?_⟩
    · simp [e3]
    · simp [e2]
    · simp [e3]

theorem cursor_get_set_fresh_no_jump (db : TCBDB) (K : Bytes)
    (hi : lower_bound K db = none) :
    librdf_hash_tokyodb_cursor_get (librdf_hash_tokyodb_cursor_init db) db
        (some { data := some K }) (some { data := none }) LIBRDF_HASH_CURSOR_SET
      = some { ret := -1, cursor := librdf_hash_tokyodb_cursor_init db,
               key := some { data := some K }, value := some { data := none } } := by
  unfold librdf_hash_tokyodb_cursor_get
  have hsw : cursor_get_switch (librdf_hash_tokyodb_cursor_init db) db { data := some K }
      (some { data := none }) LIBRDF_HASH_CURSOR_SET
      = (false, librdf_hash_tokyodb_cursor_init db) := by
    simp [cursor_get_switch, librdf_hash_tokyodb_cursor_init, tcbdbcurjump,
      librdf_hash_datum.bytes, hi, tcbdbcurnew]
  simp only []
  rw [hsw]

theorem first_record_split (K v0 : Bytes) (vs : List Bytes) :
    ∀ db : TCBDB, values_of db K = v0 :: vs →
      ∃ l1 l2, db = l1 ++ (K, v0) :: l2 ∧ ∀ x ∈ l1, x.1 ≠ K := by
  intro db
  induction db with
  | nil => intro h; simp [values_of] at h
  | cons r t ih =>
    intro h
    by_cases hk : r.1 = K
    · simp only [values_of, hk, if_true, List.cons.injEq] at h
      refine ⟨[], t, ?_, by simp⟩
      obtain ⟨rk, rv⟩ := r
      simp only at hk h
      simp [hk, h.1]
    · simp only [values_of, hk, if_false] at h
      obtain ⟨l1, l2, e, hl⟩ := ih h
      refine ⟨r :: l1, l2, by simp [e], ?_⟩
      intro x hx
      rcases List.mem_cons.mp hx with e2 | e2
      · rw [e2]; exact hk
      · exact hl x e2

theorem cursor_get_first_nonempty (c : librdf_hash_tokyodb_cursor_context)
    (k v : librdf_hash_datum) (r : Record) (rs : TCBDB) :
    librdf_hash_tokyodb_cursor_get c (r :: rs) (some k) (some v) LIBRDF_HASH_CURSOR_FIRST
      = some { ret := 0,
               cursor := { cursor_set_to_first := true, last_key := some r.1,
                           last_value := some r.2,
                           cur := (tcbdbcurnext (r :: rs) (some 0)).2 },
               key := some { data := some r.1 }, value := some { data := some r.2 } } := by
  unfold librdf_hash_tokyodb_cursor_get
  have hsw : cursor_get_switch c (r :: rs) k (some v) LIBRDF_HASH_CURSOR_FIRST
      = (true, { c with cur := some 0, cursor_set_to_first := true }) := by
    simp [cursor_get_switch, tcbdbcurfirst, LIBRDF_HASH_CURSOR_FIRST, LIBRDF_HASH_CURSOR_SET]
  simp only []
  rw [hsw]
  simp only [LIBRDF_HASH_CURSOR_FIRST, LIBRDF_HASH_CURSOR_SET, LIBRDF_HASH_CURSOR_NEXT_VALUE,
    OfNat.ofNat_ne_zero, OfNat.ofNat_ne_one, or_self, if_false, tcbdbrnum, List.length_cons]
  rw [cursor_get_loop]
  simp [tcbdbcurkey, tcbdbcurval]

theorem cursor_get_first_empty (c : librdf_hash_tokyodb_cursor_context)
    (k : librdf_hash_datum) (value : Option librdf_hash_datum) :
    librdf_hash_tokyodb_cursor_get c [] (some k) value LIBRDF_HASH_CURSOR_FIRST
      = some { ret := -1, cursor := { c with cur := none }, key := some k, value := value } := by
  unfold librdf_hash_tokyodb_cursor_get
  have hsw : cursor_get_switch c [] k value LIBRDF_HASH_CURSOR_FIRST
      = (false, { c with cur := none }) := by
    simp [cursor_get_switch, tcbdbcurfirst, LIBRDF_HASH_CURSOR_FIRST, LIBRDF_HASH_CURSOR_SET]
  simp only []
  rw [hsw]

/-! ## Key order is kept by every operation -/

theorem key_le_total (a : Bytes) : ∀ b : Bytes, key_le a b = true ∨ key_le b a = true := by
  induction a with
  | nil => intro b; left; simp [key_le]
  | cons x xs ih =>
    intro b
    cases b with
    | nil => right; simp [key_le]
    | cons y ys =>
      rcases Nat.lt_trichotomy x y with h | h | h
      · left; simp [key_le, h]
      · subst h
        simpa [key_le] using ih ys
      · right; simp [key_le, h]

theorem key_le_trans (a : Bytes) : ∀ b c : Bytes,
    key_le a b = true → key_le b c = true → key_le a c = true := by
  induction a with
  | nil => intro b c _ _; simp [key_le]
  | cons x xs ih =>
    intro b c hab hbc
    cases b with
    | nil => simp [key_le] at hab
    | cons y ys =>
      cases c with
      | nil => simp [key_le] at hbc
      | cons z zs =>
        simp only [key_le] at hab hbc ⊢
        by_cases hxy : x < y
        · by_cases hyz : y < z
          · have : x < z := by omega
            simp [this]
          · by_cases hzy : z < y
            · simp [hyz, hzy] at hbc
            · have : x < z := by omega
              simp [this]
        · by_cases hyx : y < x
          · simp [hxy, hyx] at hab
          · have hxy2 : x = y := by omega
            subst hxy2
            simp only [hxy, if_false] at hab
            by_cases hyz : x < z
            · simp [hyz]
            · by_cases hzy : z < x
              · simp [hyz, hzy] at hbc
              · simp only [hyz, hzy, if_false] at hbc ⊢
                exact ih ys zs hab hbc

theorem bdb_insert_sorted (k v : Bytes) :
    ∀ db : TCBDB, db_sorted db → db_sorted (bdb_insert k v db) := by
  intro db
  induction db with
  | nil => intro _; simp [bdb_insert, db_sorted]
  | cons r rs ih =>
    intro hs
    have hs2 := List.pairwise_cons.mp hs
    by_cases h : key_le r.1 k = true
    · simp only [bdb_insert, h, if_true]
      apply List.pairwise_cons.mpr
      refine ⟨?_, ih hs2.2⟩
      intro x hx
      have hx2 : x ∈ (k, v) :: rs := (bdb_insert_perm k v rs).subset hx
      rcases List.mem_cons.mp hx2 with e | e
      · rw [e]; exact h
      · exact hs2.1 x e
    · simp only [bdb_insert, h, Bool.false_eq_true, if_false]
      have hkr : key_le k r.1 = true := by
        rcases key_le_total k r.1 with e | e
        · exact e
        · exact absurd e h
      apply List.pairwise_cons.mpr
      refine ⟨?_, hs⟩
      intro x hx
      rcases List.mem_cons.mp hx with e | e
      · rw [e]; exact hkr
      · exact key_le_trans k r.1 x.1 hkr (hs2.1 x e)

theorem apply_sorted (db : TCBDB) (op : HashOp) (hs : db_sorted db) :
    db_sorted (HashOp.apply db op) := by
  cases op with
  | put k v =>
    simpa [HashOp.apply, put_writer _ _ _ _ writer_mode_writer, librdf_hash_datum.bytes]
      using bdb_insert_sorted k v db hs
  | delete_key k =>
    have h : (librdf_hash_tokyodb_delete_key db { data := some k }).2 = remove_key k db := by
      unfold librdf_hash_tokyodb_delete_key tcbdbout3
      simp only [librdf_hash_datum.bytes]
      cases hv : values_of db k with
      | nil => simp [remove_key_of_absent k db hv]
      | cons v vs => simp
    simp only [HashOp.apply, h, remove_key_eq_filter]
    exact List.Pairwise.filter _ hs
  | delete_key_value k v =>
    simp only [HashOp.apply]
    cases hl : lower_bound k db with
    | none =>
      rw [delete_key_value_no_jump db k v hl]
      exact hs
    | some i =>
      obtain ⟨r, hr, _⟩ := lower_bound_some k db i hl
      rw [delete_key_value_at db k v i r hl hr]
      by_cases he : r = (k, v)
      · simp only [he, if_true]
        exact List.Pairwise.sublist (List.eraseIdx_sublist db i) hs
      · simp only [he, if_false]
        exact hs

theorem run_ops_sorted (ops : List HashOp) :
    ∀ db : TCBDB, db_sorted db → db_sorted (run_ops db ops) := by
  induction ops with
  | nil => intro db hs; exact hs
  | cons op rest ih =>
    intro db hs
    simp only [run_ops, List.foldl_cons]
    exact ih (HashOp.apply db op) (apply_sorted db op hs)

/-! ## Claims about SET, FIRST and NEXT -/

/-- C11 as stated fails: with (k,a) and (k,b) stored, SET(k, a) on a fresh
cursor returns -1 and hands back no record, although (k,b) follows the first
(k,a) match. -/
theorem C11_set_with_value_counterexample :
    librdf_hash_tokyodb_cursor_get
        (librdf_hash_tokyodb_cursor_init [([107], [97]), ([107], [98])])
        [([107], [97]), ([107], [98])]
        (some { data := some [107] }) (some { data := some [97] }) LIBRDF_HASH_CURSOR_SET
      = some { ret := -1,
               cursor := librdf_hash_tokyodb_cursor_init [([107], [97]), ([107], [98])],
               key := some { data := some [107] }, value := some { data := some [97] } } := by
  decide

/-- C11 amended: SET with a non-null value is rejected: for every store, every
cursor state, key `K` and value bytes `V` the call returns -1 and leaves the
cursor and both datums as they were. -/
theorem C11_set_with_value_rejected (db : TCBDB) (cursor : librdf_hash_tokyodb_cursor_context)
    (K V : Bytes) :
    librdf_hash_tokyodb_cursor_get cursor db (some { data := some K })
        (some { data := some V }) LIBRDF_HASH_CURSOR_SET
      = some { ret := -1, cursor := cursor, key := some { data := some K },
               value := some { data := some V } } := by
  unfold librdf_hash_tokyodb_cursor_get
  have hsw : cursor_get_switch cursor db { data := some K } (some { data := some V })
      LIBRDF_HASH_CURSOR_SET = (false, cursor) := by
    simp only [cursor_get_switch, if_true, reduceCtorEq, if_false]
    by_cases h1 : cursor.last_key = none
    · by_cases h2 : cursor.last_value = none
      · simp [h1, h2]
      · simp [h1, h2]
    · simp [h1]
  simp only []
  rw [hsw]

/-- C12 as stated fails: on the empty store SET(K, nil) returns -1, the error code. -/
theorem C12_set_absent_counterexample :
    librdf_hash_tokyodb_cursor_get (librdf_hash_tokyodb_cursor_init []) []
        (some { data := some [107] }) (some { data := none }) LIBRDF_HASH_CURSOR_SET
      = some { ret := -1, cursor := librdf_hash_tokyodb_cursor_init [],
               key := some { data := some [107] }, value := some { data := none } } := by
  decide

/-- C12 amended: for a key without a record, SET(K, nil) on a fresh cursor hands
back no value and keeps no bytes, and returns 1 when some stored key is not
below `K` and -1 otherwise. -/
theorem C12_set_absent (db : TCBDB) (K : Bytes) (h : ∀ v, (K, v) ∉ db) :
    ∃ r, librdf_hash_tokyodb_cursor_get (librdf_hash_tokyodb_cursor_init db) db
        (some { data := some K }) (some { data := none }) LIBRDF_HASH_CURSOR_SET = some r
      ∧ r.ret = (if db.any (fun x => key_le K x.1) then 1 else -1)
      ∧ r.value = some { data := none }
      ∧ r.cursor.last_key = none ∧ r.cursor.last_value = none := by
  have hv : values_of db K = [] := by
    apply List.eq_nil_iff_forall_not_mem.mpr
    intro v hm
    exact h v ((mem_values_of db K v).mp hm)
  have hany := lower_bound_isSome K db
  cases hl : lower_bound K db with
  | none =>
    rw [hl] at hany
    refine ⟨_, cursor_get_set_fresh_no_jump db K hl, ?_, rfl, rfl, rfl⟩
    rw [← hany]
    simp
  | some i =>
    rw [hl] at hany
    obtain ⟨r, hr, hspec⟩ := cursor_get_set_fresh_full db K i hl
    have hvals := ro_find_key_values K (db.drop i)
    rw [values_of_drop_lower_bound K db i hl, hv] at hvals
    cases hro : ro_find K none (db.drop i) with
    | some p =>
      rw [hro] at hvals
      simp at hvals
    | none =>
      rw [hro] at hspec
      obtain ⟨e1, e2, e3, e4⟩ := hspec
      refine ⟨r, hr, ?_, e2, e3, e4⟩
      rw [e1, ← hany]
      simp

/-- Witness of C12 amended: a store whose only key is above the key sought. -/
theorem C12_set_absent_witness :
    (∀ v, (([97], v) : Record) ∉ ([([98], [2])] : TCBDB))
    ∧ ∃ r, librdf_hash_tokyodb_cursor_get (librdf_hash_tokyodb_cursor_init [([98], [2])])
        [([98], [2])] (some { data := some [97] }) (some { data := none })
        LIBRDF_HASH_CURSOR_SET = some r
      ∧ r.ret = (if ([([98], [2])] : TCBDB).any (fun x => key_le [97] x.1) then 1 else -1)
      ∧ r.value = some { data := none }
      ∧ r.cursor.last_key = none ∧ r.cursor.last_value = none :=
  ⟨by simp, C12_set_absent [([98], [2])] [97] (by simp)⟩

/-- C13: for a key with at least one record, SET(K, nil) on a fresh cursor
returns 0 and hands back the value of the first record of the store whose key
is `K`; the cursor keeps that record's key and value as its last bytes. -/
theorem C13_set_first_record (db : TCBDB) (K : Bytes) (h : ∃ v, (K, v) ∈ db) :
    ∃ r v0 l1 l2,
      librdf_hash_tokyodb_cursor_get (librdf_hash_tokyodb_cursor_init db) db
        (some { data := some K }) (some { data := none }) LIBRDF_HASH_CURSOR_SET = some r
      ∧ db = l1 ++ (K, v0) :: l2 ∧ (∀ x ∈ l1, x.1 ≠ K)
      ∧ r.ret = 0 ∧ r.value = some { data := some v0 }
      ∧ r.cursor.last_key = some K ∧ r.cursor.last_value = some v0 := by
  obtain ⟨v, hv⟩ := h
  obtain ⟨i, hi⟩ := lower_bound_of_mem K v db hv
  obtain ⟨r, hr, hspec⟩ := cursor_get_set_fresh_full db K i hi
  have hvals := ro_find_key_values K (db.drop i)
  rw [values_of_drop_lower_bound K db i hi] at hvals
  cases hro : ro_find K none (db.drop i) with
  | none =>
    rw [hro] at hvals
    have hm := (mem_values_of db K v).mpr hv
    simp only at hvals
    rw [hvals] at hm
    simp at hm
  | some p =>
    obtain ⟨x, rs⟩ := p
    rw [hro] at hvals hspec
    simp only at hvals
    obtain ⟨e1, e2, e3, e4⟩ := hspec
    have hk := ro_find_some_key K none _ x rs hro
    obtain ⟨l1, l2, hsplit, hl1⟩ := first_record_split K x.2 _ db hvals
    refine ⟨r, x.2, l1, l2, hr, hsplit, hl1, e1, e2, ?_, e4⟩
    rw [e3, hk]

/-- Witness of C13: the key k with the values a and b, after a lower key. -/
theorem C13_set_first_record_witness :
    (∃ v, (([107], v) : Record) ∈ ([([97], [1]), ([107], [97]), ([107], [98])] : TCBDB))
    ∧ ∃ r v0 l1 l2,
      librdf_hash_tokyodb_cursor_get
        (librdf_hash_tokyodb_cursor_init [([97], [1]), ([107], [97]), ([107], [98])])
        [([97], [1]), ([107], [97]), ([107], [98])]
        (some { data := some [107] }) (some { data := none }) LIBRDF_HASH_CURSOR_SET = some r
      ∧ ([([97], [1]), ([107], [97]), ([107], [98])] : TCBDB) = l1 ++ ([107], v0) :: l2
      ∧ (∀ x ∈ l1, x.1 ≠ [107])
      ∧ r.ret = 0 ∧ r.value = some { data := some v0 }
      ∧ r.cursor.last_key = some [107] ∧ r.cursor.last_value = some v0 :=
  ⟨⟨[97], by decide⟩,
   C13_set_first_record [([97], [1]), ([107], [97]), ([107], [98])] [107] ⟨[97], by decide⟩⟩

/-- C14: on a non-empty store in key order, FIRST with a value datum returns 0,
hands back key and value of the first record, whose key is not above any
stored key, keeps them as last bytes and sets the positioned-at-first flag; on
the empty store FIRST returns -1 and leaves flag and kept bytes as they were,
unset for a fresh cursor. -/
theorem C14_first (c : librdf_hash_tokyodb_cursor_context) (k v : librdf_hash_datum)
    (r : Record) (rs : TCBDB) (hs : db_sorted (r :: rs)) :
    (∃ cur, librdf_hash_tokyodb_cursor_get c (r :: rs) (some k) (some v)
        LIBRDF_HASH_CURSOR_FIRST
      = some { ret := 0,
               cursor := { cursor_set_to_first := true, last_key := some r.1,
                           last_value := some r.2, cur := cur },
               key := some { data := some r.1 }, value := some { data := some r.2 } })
    ∧ (∀ x ∈ r :: rs, key_le r.1 x.1 = true)
    ∧ (∀ value, librdf_hash_tokyodb_cursor_get c [] (some k) value LIBRDF_HASH_CURSOR_FIRST
        = some { ret := -1, cursor := { c with cur := none }, key := some k, value := value })
    ∧ (∀ value, librdf_hash_tokyodb_cursor_get (librdf_hash_tokyodb_cursor_init []) []
          (some k) value LIBRDF_HASH_CURSOR_FIRST
        = some { ret := -1,
                 cursor := { cursor_set_to_first := false, last_key := none,
                             last_value := none, cur := none },
                 key := some k, value := value }) := by
  refine ⟨⟨_, cursor_get_first_nonempty c k v r rs⟩, ?_, ?_, ?_⟩
  · intro x hx
    rcases List.mem_cons.mp hx with e | e
    · rw [e]; exact key_le_refl _
    · exact (List.pairwise_cons.mp hs).1 x e
  · intro value
    exact cursor_get_first_empty c k value
  · intro value
    exact cursor_get_first_empty (librdf_hash_tokyodb_cursor_init []) k value

/-- Witness of C14: a fresh cursor over a store with the keys "a" and "b". -/
theorem C14_first_witness :
    db_sorted [([97], [1]), ([98], [2])]
    ∧ ((∃ cur, librdf_hash_tokyodb_cursor_get
          (librdf_hash_tokyodb_cursor_init [([97], [1]), ([98], [2])])
          (([97], [1]) :: [([98], [2])]) (some { data := none }) (some { data := none })
          LIBRDF_HASH_CURSOR_FIRST
        = some { ret := 0,
                 cursor := { cursor_set_to_first := true, last_key := some [97],
                             last_value := some [1], cur := cur },
                 key := some { data := some [97] }, value := some { data := some [1] } })
      ∧ (∀ x ∈ (([97], [1]) : Record) :: [([98], [2])], key_le [97] x.1 = true)
      ∧ (∀ value, librdf_hash_tokyodb_cursor_get
            (librdf_hash_tokyodb_cursor_init [([97], [1]), ([98], [2])]) []
            (some { data := none }) value LIBRDF_HASH_CURSOR_FIRST
          = some { ret := -1,
                   cursor := { librdf_hash_tokyodb_cursor_init [([97], [1]), ([98], [2])]
                               with cur := none },
                   key := some { data := none }, value := value })
      ∧ (∀ value, librdf_hash_tokyodb_cursor_get (librdf_hash_tokyodb_cursor_init []) []
            (some { data := none }) value LIBRDF_HASH_CURSOR_FIRST
          = some { ret := -1,
                   cursor := { cursor_set_to_first := false, last_key := none,
                               last_value := none, cur := none },
                   key := some { data := none }, value := value })) :=
  ⟨by simp [db_sorted, key_le],
   C14_first (librdf_hash_tokyodb_cursor_init [([97], [1]), ([98], [2])]) { data := none }
     { data := none } ([97], [1]) [([98], [2])] (by simp [db_sorted, key_le])⟩

/-- C15 at a failing input: the store holds only the key "b"; NEXT with key "a"
on a cursor never positioned with FIRST returns 0 and hands back the record of
"b", a key that was not asked for: after the jump the key at the cursor is not
compared with the key supplied. -/
theorem C15_next_returns_other_key :
    (∀ v, (([97], v) : Record) ∉ ([([98], [49])] : TCBDB))
    ∧ librdf_hash_tokyodb_cursor_get (librdf_hash_tokyodb_cursor_init [([98], [49])])
        [([98], [49])] (some { data := some [97] }) (some { data := none })
        LIBRDF_HASH_CURSOR_NEXT
      = some { ret := 0,
               cursor := { cursor_set_to_first := false, last_key := some [98],
                           last_value := some [49], cur := none },
               key := some { data := some [98] }, value := some { data := some [49] } } := by
  refine ⟨by simp, by decide⟩

/-! ## Facts about the full scan and clone -/

theorem cursor_get_next_record (db : TCBDB) (c : librdf_hash_tokyodb_cursor_context)
    (k v : librdf_hash_datum) (hflag : c.cursor_set_to_first = true) :
    (rest_of db c.cur = [] →
      librdf_hash_tokyodb_cursor_get c db (some k) (some v) LIBRDF_HASH_CURSOR_NEXT
        = some { ret := -1, cursor := c, key := some k, value := some v })
    ∧ (∀ r rs, rest_of db c.cur = r :: rs →
      ∃ cur, librdf_hash_tokyodb_cursor_get c db (some k) (some v) LIBRDF_HASH_CURSOR_NEXT
          = some { ret := 0,
                   cursor := { cursor_set_to_first := true, last_key := some r.1,
                               last_value := some r.2, cur := cur },
                   key := some { data := some r.1 }, value := some { data := some r.2 } }
        ∧ rest_of db cur = rs) := by
  have hsw : cursor_get_switch c db k (some v) LIBRDF_HASH_CURSOR_NEXT = (true, c) := by
    simp [cursor_get_switch, LIBRDF_HASH_CURSOR_NEXT, LIBRDF_HASH_CURSOR_SET,
      LIBRDF_HASH_CURSOR_FIRST, LIBRDF_HASH_CURSOR_NEXT_VALUE, hflag]
  have hget : librdf_hash_tokyodb_cursor_get c db (some k) (some v) LIBRDF_HASH_CURSOR_NEXT
      = cursor_get_loop db (tcbdbrnum db + 1) c k (some v) := by
    unfold librdf_hash_tokyodb_cursor_get
    simp only []
    rw [hsw]
    simp [LIBRDF_HASH_CURSOR_NEXT, LIBRDF_HASH_CURSOR_SET, LIBRDF_HASH_CURSOR_NEXT_VALUE]
  rw [hget]
  obtain ⟨flag, lk, lv, cur⟩ := c
  simp only at hflag
  subst hflag
  constructor
  · intro hrest
    rw [cursor_get_loop]
    cases cur with
    | none => simp [tcbdbcurkey]
    | some i =>
      simp only [rest_of] at hrest
      have hge : db.length ≤ i := by
        have := congrArg List.length hrest
        simp only [List.length_drop, List.length_nil] at this
        omega
      simp only [tcbdbcurkey, List.get?_eq_none.mpr hge, Option.map_none']
  · intro r rs hrest
    cases cur with
    | none => simp [rest_of] at hrest
    | some i =>
      simp only [rest_of] at hrest
      obtain ⟨hg, hdrop, hlt⟩ := drop_cons_get db i r rs hrest
      refine ⟨(tcbdbcurnext db (some i)).2, ?_, ?_⟩
      · rw [cursor_get_loop]
        simp only [tcbdbcurkey, tcbdbcurval, hg, Option.map_some']
      · by_cases hn : i + 1 < db.length
        · simp [tcbdbcurnext, hn, rest_of, hdrop]
        · have : rs = [] := by
            rw [← hdrop]
            exact List.drop_eq_nil_of_le (Nat.le_of_not_lt hn)
          simp [tcbdbcurnext, hn, rest_of, this]

theorem next_records_eq (db : TCBDB) :
    ∀ (fuel : Nat) (c : librdf_hash_tokyodb_cursor_context) (k v : librdf_hash_datum),
      c.cursor_set_to_first = true → (rest_of db c.cur).length < fuel →
      next_records db fuel c (some k) (some v) = some (rest_of db c.cur, -1) := by
  intro fuel
  induction fuel with
  | zero => intro c k v _ h; simp at h
  | succ n ih =>
    intro c k v hflag hlen
    obtain ⟨h1, h2⟩ := cursor_get_next_record db c k v hflag
    rw [next_records]
    cases hrest : rest_of db c.cur with
    | nil =>
      rw [h1 hrest]
      simp
    | cons r rs =>
      obtain ⟨cur, hget, hcur⟩ := h2 r rs hrest
      rw [hget]
      have hlen2 : (rest_of db cur).length < n := by
        rw [hcur]
        rw [hrest] at hlen
        simpa using hlen
      have hih := ih { cursor_set_to_first := true, last_key := some r.1,
                       last_value := some r.2, cur := cur }
        { data := some r.1 } { data := some r.2 } rfl hlen2
      simp only [if_true, hih, librdf_hash_datum.bytes, hcur]

theorem scan_records_eq (db : TCBDB) : scan_records db = some (db, -1) := by
  unfold scan_records
  cases db with
  | nil =>
    rw [cursor_get_first_empty]
    simp
  | cons r rs =>
    rw [cursor_get_first_nonempty]
    have hrest : rest_of (r :: rs) (tcbdbcurnext (r :: rs) (some 0)).2 = rs := by
      cases rs with
      | nil => simp [tcbdbcurnext, rest_of]
      | cons x xs => simp [tcbdbcurnext, rest_of]
    have hnr := next_records_eq (r :: rs) (tcbdbrnum (r :: rs) + 1)
      { cursor_set_to_first := true, last_key := some r.1, last_value := some r.2,
        cur := (tcbdbcurnext (r :: rs) (some 0)).2 }
      { data := some r.1 } { data := some r.2 } rfl
      (by rw [hrest]; simp [tcbdbrnum]; omega)
    simp only [if_true, hnr, hrest, librdf_hash_datum.bytes]

/-- The loop of clone on a target connected as a writer copies every pair. -/
theorem clone_loop_writer (omode : Nat) (h : omode &&& BDBOWRITER ≠ 0) (pairs : List Record) :
    ∀ target : TCBDB, clone_loop omode target pairs = (0, put_all target pairs) := by
  induction pairs with
  | nil => intro target; simp [clone_loop, put_all]
  | cons kv rest ih =>
    intro target
    simp only [clone_loop, put_writer _ _ _ _ h, ne_eq, not_true_eq_false, if_false, ih]
    simp [put_all, put_writer _ _ _ _ writer_mode_writer]

/-- The loop of clone on a target not connected as a writer stops at the first
pair with status 1 and copies nothing. -/
theorem clone_loop_reader (omode : Nat) (h : omode &&& BDBOWRITER = 0) (target : TCBDB)
    (pairs : List Record) :
    clone_loop omode target pairs = (if pairs = [] then 0 else 1, target) := by
  cases pairs with
  | nil => simp [clone_loop]
  | cons kv rest => simp [clone_loop, put_reader _ _ _ _ h]

/-- The open mode is a writer mode exactly when the writable flag is nonzero. -/
theorem omode_writer_iff (is_writable is_new : Int) :
    ((if is_writable ≠ 0 then BDBOWRITER else BDBOREADER)
        ||| (if is_new ≠ 0 then BDBOCREAT else 0)) &&& BDBOWRITER ≠ 0
      ↔ is_writable ≠ 0 := by
  by_cases hw : is_writable = 0 <;> by_cases hn : is_new = 0 <;>
    simp only [hw, hn, BDBOWRITER, BDBOREADER, BDBOCREAT, ne_eq, not_true_eq_false,
      not_false_eq_true, if_true, if_false] <;> decide

theorem open_result (env : Engine) (context : librdf_hash_tokyodb_context)
    (ident : String) (mode is_writable is_new : Int) :
    librdf_hash_tokyodb_open env context (some ident) mode is_writable is_new
      = if env.malloc_ok = false then (-1, context, [])
        else if env.tcbdbnew_ok = false then
          (-1, { mode := mode, is_writable := is_writable, is_new := is_new,
                 db := DbHandle.null, file_name := context.file_name },
            [EngineCall.tcbdbnew])
        else
          match env.tcbdbopen (ident ++ ".db")
              ((if is_writable ≠ 0 then BDBOWRITER else BDBOREADER)
                ||| (if is_new ≠ 0 then BDBOCREAT else 0)) with
          | none =>
            (-1, { mode := mode, is_writable := is_writable, is_new := is_new,
                   db := DbHandle.deleted, file_name := context.file_name },
              [EngineCall.tcbdbnew,
               EngineCall.tcbdbopen (ident ++ ".db")
                 ((if is_writable ≠ 0 then BDBOWRITER else BDBOREADER)
                   ||| (if is_new ≠ 0 then BDBOCREAT else 0)),
               EngineCall.tcbdbdel])
          | some d =>
            (0, { mode := mode, is_writable := is_writable, is_new := is_new,
                  db := DbHandle.live d
                    ((if is_writable ≠ 0 then BDBOWRITER else BDBOREADER)
                      ||| (if is_new ≠ 0 then BDBOCREAT else 0)),
                  file_name := StringBuffer.live (ident ++ ".db") },
              [EngineCall.tcbdbnew,
               EngineCall.tcbdbopen (ident ++ ".db")
                 ((if is_writable ≠ 0 then BDBOWRITER else BDBOREADER)
                   ||| (if is_new ≠ 0 then BDBOCREAT else 0))]) := by
  have hmode : (if is_new ≠ 0
        then (if is_writable ≠ 0 then BDBOWRITER else BDBOREADER) ||| BDBOCREAT
        else (if is_writable ≠ 0 then BDBOWRITER else BDBOREADER))
      = (if is_writable ≠ 0 then BDBOWRITER else BDBOREADER)
          ||| (if is_new ≠ 0 then BDBOCREAT else 0) := by
    by_cases hn : is_new = 0 <;> simp [hn]
  unfold librdf_hash_tokyodb_open
  simp only [hmode]

/-- Clone after a successful open of the target: the status of the copy loop,
the new context with the target after the loop, and the old context. -/
theorem clone_result (env : Engine) (context old_context : librdf_hash_tokyodb_context)
    (ident : String) (db target : TCBDB) (om : Nat)
    (hm : env.malloc_ok = true) (hn : env.tcbdbnew_ok = true)
    (ho : env.tcbdbopen (ident ++ ".db")
        ((if old_context.is_writable ≠ 0 then BDBOWRITER else BDBOREADER)
          ||| (if old_context.is_new ≠ 0 then BDBOCREAT else 0))
      = some target)
    (hold : old_context.db = DbHandle.live db om) :
    librdf_hash_tokyodb_clone env context (some ident) old_context
      = some ((clone_loop
                ((if old_context.is_writable ≠ 0 then BDBOWRITER else BDBOREADER)
          ||| (if old_context.is_new ≠ 0 then BDBOCREAT else 0))
                target db).1,
          { mode := old_context.mode, is_writable := old_context.is_writable,
            is_new := old_context.is_new,
            db := DbHandle.live
              (clone_loop
                ((if old_context.is_writable ≠ 0 then BDBOWRITER else BDBOREADER)
          ||| (if old_context.is_new ≠ 0 then BDBOCREAT else 0))
                target db).2
              ((if old_context.is_writable ≠ 0 then BDBOWRITER else BDBOREADER)
          ||| (if old_context.is_new ≠ 0 then BDBOCREAT else 0)),
            file_name := StringBuffer.live (ident ++ ".db") },
          old_context) := by
  unfold librdf_hash_tokyodb_clone
  rw [open_result]
  simp only [hm, hn, Bool.true_eq_false, if_false, ho, hold, ne_eq, not_true_eq_false,
    librdf_hash_get_all, scan_records_eq]

/-- Clone through a writable target: status 0 and every pair put. -/
theorem clone_eq (env : Engine) (context old_context : librdf_hash_tokyodb_context)
    (ident : String) (db target : TCBDB) (om : Nat)
    (hm : env.malloc_ok = true) (hn : env.tcbdbnew_ok = true)
    (ho : env.tcbdbopen (ident ++ ".db")
        ((if old_context.is_writable ≠ 0 then BDBOWRITER else BDBOREADER)
          ||| (if old_context.is_new ≠ 0 then BDBOCREAT else 0))
      = some target)
    (hold : old_context.db = DbHandle.live db om)
    (hw : old_context.is_writable ≠ 0) :
    librdf_hash_tokyodb_clone env context (some ident) old_context
      = some (0,
          { mode := old_context.mode, is_writable := old_context.is_writable,
            is_new := old_context.is_new,
            db := DbHandle.live (put_all target db)
              ((if old_context.is_writable ≠ 0 then BDBOWRITER else BDBOREADER)
          ||| (if old_context.is_new ≠ 0 then BDBOCREAT else 0)),
            file_name := StringBuffer.live (ident ++ ".db") },
          old_context) := by
  rw [clone_result env context old_context ident db target om hm hn ho hold,
    clone_loop_writer _ ((omode_writer_iff _ _).mpr hw)]

/-- Clone through a target that is not writable: status 0 with nothing copied
for an empty source, status 1 with nothing copied otherwise. -/
theorem clone_reader (env : Engine) (context old_context : librdf_hash_tokyodb_context)
    (ident : String) (db target : TCBDB) (om : Nat)
    (hm : env.malloc_ok = true) (hn : env.tcbdbnew_ok = true)
    (ho : env.tcbdbopen (ident ++ ".db")
        ((if old_context.is_writable ≠ 0 then BDBOWRITER else BDBOREADER)
          ||| (if old_context.is_new ≠ 0 then BDBOCREAT else 0))
      = some target)
    (hold : old_context.db = DbHandle.live db om)
    (hw : old_context.is_writable = 0) :
    librdf_hash_tokyodb_clone env context (some ident) old_context
      = some (if db = [] then 0 else 1,
          { mode := old_context.mode, is_writable := old_context.is_writable,
            is_new := old_context.is_new,
            db := DbHandle.live target
              ((if old_context.is_writable ≠ 0 then BDBOWRITER else BDBOREADER)
          ||| (if old_context.is_new ≠ 0 then BDBOCREAT else 0)),
            file_name := StringBuffer.live (ident ++ ".db") },
          old_context) := by
  have hr : ((if old_context.is_writable ≠ 0 then BDBOWRITER else BDBOREADER)
          ||| (if old_context.is_new ≠ 0 then BDBOCREAT else 0)) &&& BDBOWRITER = 0 := by
    have h := (omode_writer_iff old_context.is_writable old_context.is_new).not
    simp only [ne_eq, not_not] at h
    exact h.mpr hw
  rw [clone_result env context old_context ident db target om hm hn ho hold,
    clone_loop_reader _ hr]

theorem clone_fails (env : Engine) (context old_context : librdf_hash_tokyodb_context)
    (ident : String)
    (h : env.malloc_ok = false ∨ env.tcbdbnew_ok = false
      ∨ env.tcbdbopen (ident ++ ".db")
          ((if old_context.is_writable ≠ 0 then BDBOWRITER else BDBOREADER)
          ||| (if old_context.is_new ≠ 0 then BDBOCREAT else 0))
        = none) :
    (librdf_hash_tokyodb_clone env context (some ident) old_context).map (·.1)
      = some (-1) := by
  unfold librdf_hash_tokyodb_clone
  rw [open_result]
  cases hm : env.malloc_ok with
  | false => simp
  | true =>
    cases hn : env.tcbdbnew_ok with
    | false => simp
    | true =>
      rcases h with h | h | h
      · rw [hm] at h; simp at h
      · rw [hn] at h; simp at h
      · simp only [Bool.true_eq_false, if_false, h]
        simp

/-! ## Claims about clone, close and open -/

/-- C16: when every database the engine opens is empty, a clone that returns
0 leaves a clone whose records are a rearrangement of the records of the
source (same pairs, each as often), the value counts agree, and the source
context is as it was. After a successful open of the target the clone returns
0 when the source is writable (so the target is connected as a writer) or
empty, and 1, for a `put` that failed, when the source is not writable and
holds a record. -/
theorem C16_clone_multiset (env : Engine) (context old_context : librdf_hash_tokyodb_context)
    (ident : String) (db : TCBDB) (om : Nat)
    (hold : old_context.db = DbHandle.live db om)
    (hfresh : ∀ file omode d, env.tcbdbopen file omode = some d → d = []) :
    (∀ new_context old_after,
        librdf_hash_tokyodb_clone env context (some ident) old_context
          = some (0, new_context, old_after) →
        ∃ copy omode, new_context.db = DbHandle.live copy omode
          ∧ copy.Perm db
          ∧ librdf_hash_tokyodb_values_count copy = librdf_hash_tokyodb_values_count db
          ∧ old_after = old_context)
    ∧ (∀ target, env.malloc_ok = true → env.tcbdbnew_ok = true →
        env.tcbdbopen (ident ++ ".db")
            ((if old_context.is_writable ≠ 0 then BDBOWRITER else BDBOREADER)
          ||| (if old_context.is_new ≠ 0 then BDBOCREAT else 0))
          = some target →
        (old_context.is_writable ≠ 0 ∨ db = [] →
          (librdf_hash_tokyodb_clone env context (some ident) old_context).map (·.1)
            = some 0)
        ∧ (old_context.is_writable = 0 → db ≠ [] →
          (librdf_hash_tokyodb_clone env context (some ident) old_context).map (·.1)
            = some 1)) := by
  constructor
  · intro new_context old_after hret
    cases ho : env.tcbdbopen (ident ++ ".db")
        ((if old_context.is_writable ≠ 0 then BDBOWRITER else BDBOREADER)
          ||| (if old_context.is_new ≠ 0 then BDBOCREAT else 0)) with
    | none =>
      have hc := clone_fails env context old_context ident (Or.inr (Or.inr ho))
      rw [hret] at hc
      simp at hc
    | some target =>
      have ht : target = [] := hfresh _ _ target ho
      subst ht
      cases hm : env.malloc_ok with
      | false =>
        have hc := clone_fails env context old_context ident (Or.inl hm)
        rw [hret] at hc
        simp at hc
      | true =>
        cases hn : env.tcbdbnew_ok with
        | false =>
          have hc := clone_fails env context old_context ident (Or.inr (Or.inl hn))
          rw [hret] at hc
          simp at hc
        | true =>
          by_cases hw : old_context.is_writable = 0
          · rw [clone_reader env context old_context ident db [] om hm hn ho hold hw] at hret
            simp only [Option.some.injEq, Prod.mk.injEq] at hret
            obtain ⟨h0, h1, h2⟩ := hret
            have hdb : db = [] := by
              by_contra hne
              simp [hne] at h0
            subst hdb
            exact ⟨[], _, by rw [← h1], List.Perm.refl _, rfl, h2.symm⟩
          · rw [clone_eq env context old_context ident db [] om hm hn ho hold hw] at hret
            simp only [Option.some.injEq, Prod.mk.injEq, true_and] at hret
            obtain ⟨h1, h2⟩ := hret
            have hp : (put_all [] db).Perm db := by simpa using put_all_perm db []
            refine ⟨put_all [] db, _, by rw [← h1], hp, ?_, h2.symm⟩
            simp [librdf_hash_tokyodb_values_count, tcbdbrnum, hp.length_eq]
  · intro target hm hn ho
    constructor
    · intro h
      by_cases hw : old_context.is_writable = 0
      · have hdb : db = [] := by
          rcases h with h | h
          · exact absurd hw h
          · exact h
        rw [clone_reader env context old_context ident db target om hm hn ho hold hw]
        simp [hdb]
      · rw [clone_eq env context old_context ident db target om hm hn ho hold hw]
        simp
    · intro hw hne
      rw [clone_reader env context old_context ident db target om hm hn ho hold hw]
      simp [hne]

/-- Witness of C16: a source with a duplicate key and a duplicate pair cloned
into an empty database, and a source opened for reading only, whose clone
fails with 1 at the first `put`. -/
theorem C16_clone_multiset_witness :
    sample_source.db
      = DbHandle.live [([97], [1]), ([107], [97]), ([107], [97]), ([107], [98])] 6
    ∧ (∀ file omode d, sample_engine.tcbdbopen file omode = some d → d = [])
    ∧ librdf_hash_tokyodb_clone sample_engine librdf_hash_tokyodb_context.zeroed
        (some "copy") sample_source
      = some (0,
          { mode := 420, is_writable := 1, is_new := 1,
            db := DbHandle.live
              (put_all [] [([97], [1]), ([107], [97]), ([107], [97]), ([107], [98])]) 6,
            file_name := StringBuffer.live ("copy" ++ ".db") },
          sample_source)
    ∧ (∃ copy omode,
        ({ mode := 420, is_writable := 1, is_new := 1,
           db := DbHandle.live
             (put_all [] [([97], [1]), ([107], [97]), ([107], [97]), ([107], [98])]) 6,
           file_name := StringBuffer.live ("copy" ++ ".db") }
          : librdf_hash_tokyodb_context).db = DbHandle.live copy omode
        ∧ copy.Perm [([97], [1]), ([107], [97]), ([107], [97]), ([107], [98])]
        ∧ librdf_hash_tokyodb_values_count copy
          = librdf_hash_tokyodb_values_count
              [([97], [1]), ([107], [97]), ([107], [97]), ([107], [98])]
        ∧ sample_source = sample_source)
    ∧ (librdf_hash_tokyodb_clone sample_engine librdf_hash_tokyodb_context.zeroed
        (some "copy") sample_reader).map (·.1) = some 1 :=
  ⟨rfl,
   fun _ _ _ h => (Option.some.inj h).symm,
   clone_eq sample_engine librdf_hash_tokyodb_context.zeroed sample_source "copy"
     [([97], [1]), ([107], [97]), ([107], [97]), ([107], [98])] [] 6 rfl rfl rfl rfl
     (by decide),
   (C16_clone_multiset sample_engine librdf_hash_tokyodb_context.zeroed sample_source "copy"
     [([97], [1]), ([107], [97]), ([107], [97]), ([107], [98])] 6
     rfl (fun _ _ _ h => (Option.some.inj h).symm)).1
     { mode := 420, is_writable := 1, is_new := 1,
       db := DbHandle.live
         (put_all [] [([97], [1]), ([107], [97]), ([107], [97]), ([107], [98])]) 6,
       file_name := StringBuffer.live ("copy" ++ ".db") }
     sample_source
     (clone_eq sample_engine librdf_hash_tokyodb_context.zeroed sample_source "copy"
       [([97], [1]), ([107], [97]), ([107], [97]), ([107], [98])] [] 6 rfl rfl rfl rfl
       (by decide)),
   ((C16_clone_multiset sample_engine librdf_hash_tokyodb_context.zeroed sample_reader "copy"
     [([107], [97])] 1 rfl (fun _ _ _ h => (Option.some.inj h).symm)).2
     [] rfl rfl rfl).2 rfl (by decide)⟩

/-- C17 at a failing input: a context opened with success is closed; the first
close returns 0 after the engine close and release and leaves the file name
pointing to the released buffer; the second close releases that buffer again,
which is undefined, so it has no defined return value. -/
theorem C17_second_close_frees_twice :
    (librdf_hash_tokyodb_open sample_engine librdf_hash_tokyodb_context.zeroed
        (some "hash") 420 1 1).1 = 0
    ∧ librdf_hash_tokyodb_close sample_engine
        (librdf_hash_tokyodb_open sample_engine librdf_hash_tokyodb_context.zeroed
          (some "hash") 420 1 1).2.1
      = some (0,
          { mode := 420, is_writable := 1, is_new := 1, db := DbHandle.null,
            file_name := StringBuffer.freed },
          [EngineCall.tcbdbclose, EngineCall.tcbdbdel])
    ∧ librdf_hash_tokyodb_close sample_engine
        { mode := 420, is_writable := 1, is_new := 1, db := DbHandle.null,
          file_name := StringBuffer.freed }
      = none := by
  decide

/-- C18: `open` asks the engine to open exactly the file `identifier ++ ".db"`
with the mode WRITER when writable is nonzero and READER otherwise, OR-ed with
CREATE exactly when new is nonzero, and with no other mode; when it returns 0
it has made that call and the context records the file name and the given
mode, writable and new flags. Whenever the allocations succeed it does make
that call, right after `tcbdbnew`; it returns 0 exactly when the allocations
and that call succeed, and then the context holds the database that the
engine opened. Two calls are evaluated: writable and new give mode 6, neither
gives mode 1. -/
theorem C18_open_file_and_mode (env : Engine) (context : librdf_hash_tokyodb_context)
    (ident : String) (mode is_writable is_new : Int) :
    (∀ file omode,
      EngineCall.tcbdbopen file omode
          ∈ (librdf_hash_tokyodb_open env context (some ident) mode is_writable is_new).2.2 →
        file = ident ++ ".db"
        ∧ omode = (if is_writable ≠ 0 then BDBOWRITER else BDBOREADER)
                    ||| (if is_new ≠ 0 then BDBOCREAT else 0))
    ∧ ((librdf_hash_tokyodb_open env context (some ident) mode is_writable is_new).1 = 0 →
        EngineCall.tcbdbopen (ident ++ ".db")
            ((if is_writable ≠ 0 then BDBOWRITER else BDBOREADER)
              ||| (if is_new ≠ 0 then BDBOCREAT else 0))
          ∈ (librdf_hash_tokyodb_open env context (some ident) mode is_writable is_new).2.2
        ∧ (librdf_hash_tokyodb_open env context (some ident) mode is_writable is_new).2.1.file_name
            = StringBuffer.live (ident ++ ".db")
        ∧ (librdf_hash_tokyodb_open env context (some ident) mode is_writable is_new).2.1.mode
            = mode
        ∧ (librdf_hash_tokyodb_open env context (some ident) mode is_writable
            is_new).2.1.is_writable = is_writable
        ∧ (librdf_hash_tokyodb_open env context (some ident) mode is_writable
            is_new).2.1.is_new = is_new)
    ∧ ((if is_writable ≠ 0 then BDBOWRITER else BDBOREADER)
          ||| (if is_new ≠ 0 then BDBOCREAT else 0)
        = (if is_writable ≠ 0 then 2 else 1) + (if is_new ≠ 0 then 4 else 0))
    ∧ (env.malloc_ok = true → env.tcbdbnew_ok = true →
        ∃ rest, (librdf_hash_tokyodb_open env context (some ident) mode is_writable
            is_new).2.2
          = EngineCall.tcbdbnew
            :: EngineCall.tcbdbopen (ident ++ ".db")
              ((if is_writable ≠ 0 then BDBOWRITER else BDBOREADER)
              ||| (if is_new ≠ 0 then BDBOCREAT else 0))
            :: rest)
    ∧ ((librdf_hash_tokyodb_open env context (some ident) mode is_writable is_new).1 = 0
        ↔ (env.malloc_ok = true ∧ env.tcbdbnew_ok = true
          ∧ ∃ d, env.tcbdbopen (ident ++ ".db")
              ((if is_writable ≠ 0 then BDBOWRITER else BDBOREADER)
              ||| (if is_new ≠ 0 then BDBOCREAT else 0))
            = some d))
    ∧ (∀ d, env.malloc_ok = true → env.tcbdbnew_ok = true →
        env.tcbdbopen (ident ++ ".db")
            ((if is_writable ≠ 0 then BDBOWRITER else BDBOREADER)
              ||| (if is_new ≠ 0 then BDBOCREAT else 0))
          = some d →
        librdf_hash_tokyodb_open env context (some ident) mode is_writable is_new
          = (0,
             { mode := mode, is_writable := is_writable, is_new := is_new,
               db := DbHandle.live d
                 ((if is_writable ≠ 0 then BDBOWRITER else BDBOREADER)
              ||| (if is_new ≠ 0 then BDBOCREAT else 0)),
               file_name := StringBuffer.live (ident ++ ".db") },
             [EngineCall.tcbdbnew,
              EngineCall.tcbdbopen (ident ++ ".db")
                ((if is_writable ≠ 0 then BDBOWRITER else BDBOREADER)
              ||| (if is_new ≠ 0 then BDBOCREAT else 0))]))
    ∧ librdf_hash_tokyodb_open sample_engine librdf_hash_tokyodb_context.zeroed
        (some "hash") 420 1 1
      = (0,
         { mode := 420, is_writable := 1, is_new := 1, db := DbHandle.live [] 6,
           file_name := StringBuffer.live "hash.db" },
         [EngineCall.tcbdbnew, EngineCall.tcbdbopen "hash.db" 6])
    ∧ librdf_hash_tokyodb_open sample_engine librdf_hash_tokyodb_context.zeroed
        (some "hash") 420 0 0
      = (0,
         { mode := 420, is_writable := 0, is_new := 0, db := DbHandle.live [] 1,
           file_name := StringBuffer.live "hash.db" },
         [EngineCall.tcbdbnew, EngineCall.tcbdbopen "hash.db" 1]) := by
  refine ⟨?_, ?_, ?_, ?_, ?_, ?_, by decide, by decide⟩
  · intro file omode
    rw [open_result]
    generalize (if is_writable ≠ 0 then BDBOWRITER else BDBOREADER)
      ||| (if is_new ≠ 0 then BDBOCREAT else 0) = om
    cases env.malloc_ok <;> cases env.tcbdbnew_ok <;>
      cases env.tcbdbopen (ident ++ ".db") om <;> simp
  · rw [open_result]
    generalize (if is_writable ≠ 0 then BDBOWRITER else BDBOREADER)
      ||| (if is_new ≠ 0 then BDBOCREAT else 0) = om
    cases env.malloc_ok <;> cases env.tcbdbnew_ok <;>
      cases env.tcbdbopen (ident ++ ".db") om <;> simp
  · by_cases hw : is_writable = 0 <;> by_cases hn : is_new = 0 <;>
      simp [hw, hn, BDBOWRITER, BDBOREADER, BDBOCREAT]
  · intro hm hn
    rw [open_result]
    generalize (if is_writable ≠ 0 then BDBOWRITER else BDBOREADER)
      ||| (if is_new ≠ 0 then BDBOCREAT else 0) = om
    cases env.tcbdbopen (ident ++ ".db") om <;> simp [hm, hn]
  · rw [open_result]
    generalize (if is_writable ≠ 0 then BDBOWRITER else BDBOREADER)
      ||| (if is_new ≠ 0 then BDBOCREAT else 0) = om
    cases env.malloc_ok <;> cases env.tcbdbnew_ok <;>
      cases env.tcbdbopen (ident ++ ".db") om <;> simp
  · intro d hm hn ho
    rw [open_result]
    simp only [hm, hn, Bool.true_eq_false, if_false, ho]

/-! ## Claims about the term converter -/

/-- C19: a term converted to an engine literal and back is the term itself:
resource, literal (lexical form, language and datatype) and blank node alike. -/
theorem C19_term_round_trip (node : librdf_node) :
    rasqal_literal_to_redland_node (some (redland_node_to_rasqal_literal node))
      = NodeResult.returned (some node) := by
  cases node <;> rfl

/-- C20: `rasqal_literal_to_redland_node` gives a resource term for a URI
literal, a literal term with the literal's string, language and datatype for
a string, integer, floating or boolean literal, a blank term for a blank
literal, aborts for every other kind, and returns NULL exactly for the NULL
literal. -/
theorem C20_literal_to_node (l : rasqal_literal) :
    (l.type = rasqal_literal_type.RASQAL_LITERAL_URI →
      rasqal_literal_to_redland_node (some l)
        = NodeResult.returned (some (librdf_node.resource l.value_uri)))
    ∧ (l.type = rasqal_literal_type.RASQAL_LITERAL_STRING
        ∨ l.type = rasqal_literal_type.RASQAL_LITERAL_INTEGER
        ∨ l.type = rasqal_literal_type.RASQAL_LITERAL_FLOATING
        ∨ l.type = rasqal_literal_type.RASQAL_LITERAL_BOOLEAN →
      rasqal_literal_to_redland_node (some l)
        = NodeResult.returned (some (librdf_node.literal l.string l.language l.datatype)))
    ∧ (l.type = rasqal_literal_type.RASQAL_LITERAL_BLANK →
      rasqal_literal_to_redland_node (some l)
        = NodeResult.returned (some (librdf_node.blank l.string)))
    ∧ (∀ code, l.type = rasqal_literal_type.other code →
      rasqal_literal_to_redland_node (some l) = NodeResult.aborted)
    ∧ rasqal_literal_to_redland_node none = NodeResult.returned none
    ∧ rasqal_literal_to_redland_node (some l) ≠ NodeResult.returned none := by
  obtain ⟨type, string, uri, language, datatype⟩ := l
  cases type <;>
    simp [rasqal_literal_to_redland_node, librdf_new_node_from_uri,
      librdf_new_node_from_typed_literal, librdf_new_node_from_blank_identifier]

/-! ## Claims about the triple source -/

/-- C21: for a triple whose three slots convert to terms, `triple_present`
returns, and its result is nonzero exactly when the model contains the
statement of the three converted terms. -/
theorem C21_triple_present (model : librdf_model) (t : rasqal_triple)
    (s p o : librdf_node)
    (hs : rasqal_literal_to_redland_node (some t.subject.as_literal)
      = NodeResult.returned (some s))
    (hp : rasqal_literal_to_redland_node (some t.predicate.as_literal)
      = NodeResult.returned (some p))
    (ho : rasqal_literal_to_redland_node (some t.object.as_literal)
      = NodeResult.returned (some o)) :
    ∃ rc, rasqal_redland_triple_present model t = Outcome.returned rc
      ∧ (rc ≠ 0 ↔ ({ subject := some s, predicate := some p, object := some o }
            : librdf_statement) ∈ model) := by
  unfold rasqal_redland_triple_present
  simp only [hs, hp, ho, librdf_new_statement_from_nodes, librdf_model_contains_statement]
  refine ⟨_, rfl, ?_⟩
  by_cases hm : ({ subject := some s, predicate := some p, object := some o }
      : librdf_statement) ∈ model
  · simp [hm]
  · simp [hm]

/-- Witness of C21: a model with one statement and the ground triple of it. -/
theorem C21_triple_present_witness :
    rasqal_literal_to_redland_node (some (rasqal_term.literal
        (rasqal_new_uri_literal "http://example.org/s")).as_literal)
      = NodeResult.returned (some (librdf_node.resource "http://example.org/s"))
    ∧ rasqal_literal_to_redland_node (some (rasqal_term.literal
        (rasqal_new_uri_literal "http://example.org/p")).as_literal)
      = NodeResult.returned (some (librdf_node.resource "http://example.org/p"))
    ∧ rasqal_literal_to_redland_node (some (rasqal_term.literal
        (rasqal_new_string_literal "o" none none)).as_literal)
      = NodeResult.returned (some (librdf_node.literal "o" none none))
    ∧ ∃ rc, rasqal_redland_triple_present
        [{ subject := some (librdf_node.resource "http://example.org/s"),
           predicate := some (librdf_node.resource "http://example.org/p"),
           object := some (librdf_node.literal "o" none none) }]
        { subject := rasqal_term.literal (rasqal_new_uri_literal "http://example.org/s"),
          predicate := rasqal_term.literal (rasqal_new_uri_literal "http://example.org/p"),
          object := rasqal_term.literal (rasqal_new_string_literal "o" none none),
          origin := none } = Outcome.returned rc
      ∧ (rc ≠ 0 ↔ ({ subject := some (librdf_node.resource "http://example.org/s"),
                     predicate := some (librdf_node.resource "http://example.org/p"),
                     object := some (librdf_node.literal "o" none none) }
            : librdf_statement)
          ∈ ([{ subject := some (librdf_node.resource "http://example.org/s"),
                predicate := some (librdf_node.resource "http://example.org/p"),
                object := some (librdf_node.literal "o" none none) }] : librdf_model)) :=
  ⟨rfl, rfl, rfl,
   C21_triple_present
     [{ subject := some (librdf_node.resource "http://example.org/s"),
        predicate := some (librdf_node.resource "http://example.org/p"),
        object := some (librdf_node.literal "o" none none) }]
     { subject := rasqal_term.literal (rasqal_new_uri_literal "http://example.org/s"),
       predicate := rasqal_term.literal (rasqal_new_uri_literal "http://example.org/p"),
       object := rasqal_term.literal (rasqal_new_string_literal "o" none none),
       origin := none }
     (librdf_node.resource "http://example.org/s")
     (librdf_node.resource "http://example.org/p")
     (librdf_node.literal "o" none none) rfl rfl rfl⟩

/-- C22: `new_triples_source` returns nonzero exactly when the query has a
sequence of data sources that is not empty; then user data and hooks are as
they were; otherwise it returns 0 with world, query and model stored and the
three hooks installed. -/
theorem C22_new_triples_source (rdf_query : rasqal_query) (world : librdf_world)
    (user_data : rasqal_redland_triples_source_user_data) (rts : rasqal_triples_source) :
    ((rasqal_redland_new_triples_source rdf_query world user_data rts).1 ≠ 0
        ↔ ∃ seq, rdf_query.source_sequence = some seq ∧ seq ≠ [])
    ∧ ((rasqal_redland_new_triples_source rdf_query world user_data rts).1 ≠ 0 →
        rasqal_redland_new_triples_source rdf_query world user_data rts
          = (1, user_data, rts))
    ∧ ((rasqal_redland_new_triples_source rdf_query world user_data rts).1 = 0 →
        rasqal_redland_new_triples_source rdf_query world user_data rts
          = (0,
             { world := some world, query := some rdf_query.user_data,
               model := rdf_query.user_data.context.model },
             { new_triples_match := some BridgeHook.rasqal_redland_new_triples_match,
               triple_present := some BridgeHook.rasqal_redland_triple_present,
               free_triples_source := some BridgeHook.rasqal_redland_free_triples_source })) := by
  unfold rasqal_redland_new_triples_source raptor_sequence_size
  cases hseq : rdf_query.source_sequence with
  | none => simp
  | some seq =>
    cases seq with
    | nil => simp
    | cons x xs => simp

/-- Evaluation of `match_slot_node` on a slot that is a variable. -/
theorem match_slot_node_variable (values : VariableValues) (v : rasqal_variable) :
    match_slot_node values (rasqal_term.variable v)
      = match values v with
        | some value => rasqal_literal_to_redland_node (some value)
        | none => NodeResult.returned none := rfl

/-- C23: in `new_triples_match` the node of each of the three slots is the
conversion of the value of the variable when the slot is a variable with a
value, NULL when it is a variable without one, and the conversion of the
literal of the slot when it is not a variable; the binding of the slot is the
variable of a variable slot and NULL of any other. -/
theorem C23_new_triples_match (model : librdf_model) (values : VariableValues)
    (m : rasqal_bindings) (t : rasqal_triple) (n0 n1 n2 og : Option librdf_node)
    (b3 : Option rasqal_variable)
    (h0 : match_slot_node values t.subject = NodeResult.returned n0)
    (h1 : match_slot_node values t.predicate = NodeResult.returned n1)
    (h2 : match_slot_node values t.object = NodeResult.returned n2)
    (h3 : match_origin values t.origin none m.origin = Outcome.returned (og, b3)) :
    (∀ v value, values v = some value →
        match_slot_node values (rasqal_term.variable v)
          = rasqal_literal_to_redland_node (some value))
    ∧ (∀ v, values v = none →
        match_slot_node values (rasqal_term.variable v) = NodeResult.returned none)
    ∧ (∀ l, match_slot_node values (rasqal_term.literal l)
          = rasqal_literal_to_redland_node (some l))
    ∧ (∀ v, rasqal_literal_as_variable (rasqal_term.variable v) = some v)
    ∧ (∀ l, rasqal_literal_as_variable (rasqal_term.literal l) = none)
    ∧ rasqal_redland_new_triples_match model values m t
        = Outcome.returned
            (some { nodes0 := n0, nodes1 := n1, nodes2 := n2, origin := og,
                    qstatement := some { subject := n0, predicate := n1, object := n2 },
                    stream := some (librdf_model_find_statements model
                      { subject := n0, predicate := n1, object := n2 }) },
             { subject := rasqal_literal_as_variable t.subject,
               predicate := rasqal_literal_as_variable t.predicate,
               object := rasqal_literal_as_variable t.object,
               origin := b3 }) := by
  refine ⟨?_, ?_, ?_, fun _ => rfl, fun _ => rfl, ?_⟩
  · intro v value hv
    rw [match_slot_node_variable, hv]
  · intro v hv
    rw [match_slot_node_variable, hv]
  · intro l
    rfl
  · unfold rasqal_redland_new_triples_match
    simp only [h0, h1, h2, h3, librdf_new_statement_from_nodes]

/-- Witness of C23: the pattern of a bound variable, an unbound variable and a
string literal. -/
theorem C23_new_triples_match_witness :
    match_slot_node sample_values (rasqal_term.variable 1)
      = NodeResult.returned (some (librdf_node.resource "http://example.org/s"))
    ∧ match_slot_node sample_values (rasqal_term.variable 2) = NodeResult.returned none
    ∧ match_slot_node sample_values
        (rasqal_term.literal (rasqal_new_string_literal "o" none none))
      = NodeResult.returned (some (librdf_node.literal "o" none none))
    ∧ match_origin sample_values none none none = Outcome.returned (none, none)
    ∧ rasqal_redland_new_triples_match [] sample_values
        { subject := none, predicate := none, object := none, origin := none }
        { subject := rasqal_term.variable 1, predicate := rasqal_term.variable 2,
          object := rasqal_term.literal (rasqal_new_string_literal "o" none none),
          origin := none }
      = Outcome.returned
          (some { nodes0 := some (librdf_node.resource "http://example.org/s"),
                  nodes1 := none,
                  nodes2 := some (librdf_node.literal "o" none none), origin := none,
                  qstatement := some
                    { subject := some (librdf_node.resource "http://example.org/s"),
                      predicate := none,
                      object := some (librdf_node.literal "o" none none) },
                  stream := some (librdf_model_find_statements []
                    { subject := some (librdf_node.resource "http://example.org/s"),
                      predicate := none,
                      object := some (librdf_node.literal "o" none none) }) },
           { subject := rasqal_literal_as_variable (rasqal_term.variable 1),
             predicate := rasqal_literal_as_variable (rasqal_term.variable 2),
             object := rasqal_literal_as_variable
               (rasqal_term.literal (rasqal_new_string_literal "o" none none)),
             origin := none }) :=
  ⟨rfl, rfl, rfl, rfl,
   (C23_new_triples_match [] sample_values
      { subject := none, predicate := none, object := none, origin := none }
      { subject := rasqal_term.variable 1, predicate := rasqal_term.variable 2,
        object := rasqal_term.literal (rasqal_new_string_literal "o" none none),
        origin := none }
      (some (librdf_node.resource "http://example.org/s")) none
      (some (librdf_node.literal "o" none none)) none none rfl rfl rfl rfl).2.2.2.2.2⟩

/-! ## Claims about the result stream -/

/-- Length of the `%d` form of an `int` of 32 bits: at most eleven characters. -/
theorem int_repr_length (n : Int) (hlo : -(2 : Int) ^ 31 ≤ n) (hhi : n < (2 : Int) ^ 31) :
    (Int.repr n).length ≤ 11 := by
  cases n with
  | ofNat m =>
    have hm : m < 10 ^ 10 := by
      have : (m : Int) < 2 ^ 31 := hhi
      omega
    have := Nat.repr_length m 10 (by decide) hm
    simp only [Int.repr]
    omega
  | negSucc m =>
    have hm : m + 1 < 10 ^ 10 := by
      have h : -(2 : Int) ^ 31 ≤ Int.negSucc m := hlo
      rw [Int.negSucc_eq] at h
      omega
    have := Nat.repr_length (m + 1) 10 (by decide) hm
    simp only [Int.repr, String.length_append, Nat.succ_eq_add_one]
    have h1 : "-".length = 1 := by decide
    omega

/-- The ordinal URI with its terminator fits the buffer for an `int` of 32 bits. -/
theorem ordinal_uri_fits (n : Int) (hlo : -(2 : Int) ^ 31 ≤ n) (hhi : n < (2 : Int) ^ 31) :
    (ordinal_uri_string n).length + 1 ≤ ordinal_buffer_size := by
  have h := int_repr_length n hlo hhi
  have hp : "http://www.w3.org/1999/02/22-rdf-syntax-ns#_".length = 44 := by decide
  simp only [ordinal_uri_string, String.length_append, hp, ordinal_buffer_size]
  omega

/-- The subject block gives nothing exactly for a kind that is not mapped, and
a node otherwise. -/
theorem update_subject_node_cases (r : raptor_statement) :
    (update_subject_node r = none
      ∧ r.subject_type ≠ raptor_identifier_type.RAPTOR_IDENTIFIER_TYPE_ANONYMOUS
      ∧ r.subject_type ≠ raptor_identifier_type.RAPTOR_IDENTIFIER_TYPE_RESOURCE)
    ∨ (∃ a, update_subject_node r = some (some a)
      ∧ (r.subject_type = raptor_identifier_type.RAPTOR_IDENTIFIER_TYPE_ANONYMOUS
        ∨ r.subject_type = raptor_identifier_type.RAPTOR_IDENTIFIER_TYPE_RESOURCE)) := by
  unfold update_subject_node
  by_cases h1 : r.subject_type = raptor_identifier_type.RAPTOR_IDENTIFIER_TYPE_ANONYMOUS
  · right
    exact ⟨librdf_node.blank r.subject,
      by simp [h1, librdf_new_node_from_blank_identifier], Or.inl h1⟩
  · by_cases h2 : r.subject_type = raptor_identifier_type.RAPTOR_IDENTIFIER_TYPE_RESOURCE
    · right
      exact ⟨librdf_node.resource r.subject,
        by simp [h2, librdf_new_node_from_uri_string], Or.inr h2⟩
    · left
      exact ⟨by simp [h1, h2], h1, h2⟩

/-- The predicate block is not defined only for an ordinal that overruns the
buffer, gives nothing exactly for a kind that is not mapped, and a node
otherwise. -/
theorem update_predicate_node_cases (r : raptor_statement) :
    (update_predicate_node r = none
      ∧ r.predicate_type = raptor_identifier_type.RAPTOR_IDENTIFIER_TYPE_ORDINAL
      ∧ sprintf_ordinal_buffer r.predicate_ordinal = none)
    ∨ (update_predicate_node r = some none
      ∧ r.predicate_type ≠ raptor_identifier_type.RAPTOR_IDENTIFIER_TYPE_ORDINAL
      ∧ r.predicate_type ≠ raptor_identifier_type.RAPTOR_IDENTIFIER_TYPE_PREDICATE
      ∧ r.predicate_type ≠ raptor_identifier_type.RAPTOR_IDENTIFIER_TYPE_RESOURCE)
    ∨ (∃ b, update_predicate_node r = some (some (some b))
      ∧ (r.predicate_type = raptor_identifier_type.RAPTOR_IDENTIFIER_TYPE_ORDINAL
        ∨ r.predicate_type = raptor_identifier_type.RAPTOR_IDENTIFIER_TYPE_PREDICATE
        ∨ r.predicate_type = raptor_identifier_type.RAPTOR_IDENTIFIER_TYPE_RESOURCE)) := by
  unfold update_predicate_node
  by_cases h1 : r.predicate_type = raptor_identifier_type.RAPTOR_IDENTIFIER_TYPE_ORDINAL
  · cases hs : sprintf_ordinal_buffer r.predicate_ordinal with
    | none =>
      left
      exact ⟨by simp [h1, hs], h1, rfl⟩
    | some buf =>
      right
      right
      exact ⟨librdf_node.resource buf,
        by simp [h1, hs, librdf_new_node_from_uri_string], Or.inl h1⟩
  · by_cases h2 : r.predicate_type = raptor_identifier_type.RAPTOR_IDENTIFIER_TYPE_PREDICATE
    · right
      right
      exact ⟨librdf_node.resource r.predicate,
        by simp [h2, librdf_new_node_from_uri_string], Or.inr (Or.inl h2)⟩
    · by_cases h3 : r.predicate_type = raptor_identifier_type.RAPTOR_IDENTIFIER_TYPE_RESOURCE
      · right
        right
        exact ⟨librdf_node.resource r.predicate,
          by simp [h3, librdf_new_node_from_uri_string], Or.inr (Or.inr h3)⟩
      · right
        left
        exact ⟨by simp [h1, h2, h3], h1, h2, h3⟩

/-- The predicate block on an ordinal of 32 bits: the resource term of the
namespace URI, an underscore and the decimal form of the ordinal. -/
theorem update_predicate_node_ordinal (r : raptor_statement)
    (hkind : r.predicate_type = raptor_identifier_type.RAPTOR_IDENTIFIER_TYPE_ORDINAL)
    (hlo : -(2 : Int) ^ 31 ≤ r.predicate_ordinal)
    (hhi : r.predicate_ordinal < (2 : Int) ^ 31) :
    update_predicate_node r
      = some (some (some (librdf_node.resource
          ("http://www.w3.org/1999/02/22-rdf-syntax-ns#_" ++ Int.repr r.predicate_ordinal)))) := by
  have hfit := ordinal_uri_fits r.predicate_ordinal hlo hhi
  unfold update_predicate_node sprintf_ordinal_buffer
  rw [if_pos hkind, if_pos hfit]
  rfl

/-- The object block gives nothing exactly for a kind that is not mapped, and
a node otherwise. -/
theorem update_object_node_cases (r : raptor_statement) :
    (update_object_node r = none
      ∧ r.object_type ≠ raptor_identifier_type.RAPTOR_IDENTIFIER_TYPE_LITERAL
      ∧ r.object_type ≠ raptor_identifier_type.RAPTOR_IDENTIFIER_TYPE_XML_LITERAL
      ∧ r.object_type ≠ raptor_identifier_type.RAPTOR_IDENTIFIER_TYPE_ANONYMOUS
      ∧ r.object_type ≠ raptor_identifier_type.RAPTOR_IDENTIFIER_TYPE_RESOURCE)
    ∨ (∃ c, update_object_node r = some (some c)
      ∧ (r.object_type = raptor_identifier_type.RAPTOR_IDENTIFIER_TYPE_LITERAL
        ∨ r.object_type = raptor_identifier_type.RAPTOR_IDENTIFIER_TYPE_XML_LITERAL
        ∨ r.object_type = raptor_identifier_type.RAPTOR_IDENTIFIER_TYPE_ANONYMOUS
        ∨ r.object_type = raptor_identifier_type.RAPTOR_IDENTIFIER_TYPE_RESOURCE)) := by
  unfold update_object_node
  by_cases h1 : r.object_type = raptor_identifier_type.RAPTOR_IDENTIFIER_TYPE_LITERAL
  · right
    exact ⟨librdf_node.literal r.object r.object_literal_language r.object_literal_datatype,
      by simp [h1, librdf_new_node_from_typed_literal], Or.inl h1⟩
  · by_cases h2 : r.object_type = raptor_identifier_type.RAPTOR_IDENTIFIER_TYPE_XML_LITERAL
    · right
      exact ⟨librdf_node.literal r.object r.object_literal_language (some rdf_XMLLiteral_uri),
        by simp [h2, librdf_new_node_from_literal], Or.inr (Or.inl h2)⟩
    · by_cases h3 : r.object_type = raptor_identifier_type.RAPTOR_IDENTIFIER_TYPE_ANONYMOUS
      · right
        exact ⟨librdf_node.blank r.object, by simp [h3, librdf_new_node_from_blank_identifier],
          Or.inr (Or.inr (Or.inl h3))⟩
      · by_cases h4 : r.object_type = raptor_identifier_type.RAPTOR_IDENTIFIER_TYPE_RESOURCE
        · right
          exact ⟨librdf_node.resource r.object, by simp [h4, librdf_new_node_from_uri_string],
            Or.inr (Or.inr (Or.inr h4))⟩
        · left
          exact ⟨by simp [h1, h2, h3, h4], h1, h2, h3, h4⟩

/-- The three ways the update routine can end: nothing defined, the failure
exit, or the end of the body with a statement of three terms. -/
theorem update_statement_cases (statement_alloc_ok : Bool) (rstatement : raptor_statement)
    (scontext : librdf_query_rasqal_stream_context) :
    librdf_query_rasqal_query_results_update_statement statement_alloc_ok rstatement scontext
      = none
    ∨ librdf_query_rasqal_query_results_update_statement statement_alloc_ok rstatement scontext
      = some (some 1, { scontext with statement := none })
    ∨ ∃ a b c, librdf_query_rasqal_query_results_update_statement statement_alloc_ok
        rstatement scontext
      = some (none, { scontext with
          statement := some { subject := some a, predicate := some b, object := some c } }) := by
  unfold librdf_query_rasqal_query_results_update_statement
  cases statement_alloc_ok
  · simp
  · simp only [Bool.true_eq_false, if_false]
    rcases update_subject_node_cases rstatement with ⟨hs, _⟩ | ⟨a, hs, _⟩
    · simp [hs]
    · rcases update_predicate_node_cases rstatement with ⟨hp, _⟩ | ⟨hp, _⟩ | ⟨b, hp, _⟩
      · simp [hs, hp]
      · simp [hs, hp]
      · rcases update_object_node_cases rstatement with ⟨ho, _⟩ | ⟨c, ho, _⟩
        · simp [hs, hp, ho]
        · right
          right
          exact ⟨a, b, c, by simp [hs, hp, ho]⟩

/-- C27: for an engine triple whose predicate kind is ordinal with an `int` N
of 32 bits, the formatted URI with its terminator fits the buffer of 100 bytes,
the routine is defined, every statement it leaves has as predicate the
resource term of the namespace URI followed by `_` and the decimal form of N,
it does leave one when the allocation succeeds and subject and object have a
mapped kind, and for N = 3 the URI ends in `#_3`. -/
theorem C27_ordinal_predicate (statement_alloc_ok : Bool) (rstatement : raptor_statement)
    (scontext : librdf_query_rasqal_stream_context)
    (hkind : rstatement.predicate_type
      = raptor_identifier_type.RAPTOR_IDENTIFIER_TYPE_ORDINAL)
    (hlo : -(2 : Int) ^ 31 ≤ rstatement.predicate_ordinal)
    (hhi : rstatement.predicate_ordinal < (2 : Int) ^ 31) :
    (ordinal_uri_string rstatement.predicate_ordinal).length + 1 ≤ ordinal_buffer_size
    ∧ (∃ r, librdf_query_rasqal_query_results_update_statement statement_alloc_ok
              rstatement scontext = some r
        ∧ (∀ st, r.2.statement = some st →
            st.predicate = some (librdf_node.resource
              ("http://www.w3.org/1999/02/22-rdf-syntax-ns#_"
                ++ Int.repr rstatement.predicate_ordinal)))
        ∧ (statement_alloc_ok = true →
            (rstatement.subject_type = raptor_identifier_type.RAPTOR_IDENTIFIER_TYPE_ANONYMOUS
              ∨ rstatement.subject_type
                = raptor_identifier_type.RAPTOR_IDENTIFIER_TYPE_RESOURCE) →
            (rstatement.object_type = raptor_identifier_type.RAPTOR_IDENTIFIER_TYPE_LITERAL
              ∨ rstatement.object_type
                = raptor_identifier_type.RAPTOR_IDENTIFIER_TYPE_XML_LITERAL
              ∨ rstatement.object_type
                = raptor_identifier_type.RAPTOR_IDENTIFIER_TYPE_ANONYMOUS
              ∨ rstatement.object_type
                = raptor_identifier_type.RAPTOR_IDENTIFIER_TYPE_RESOURCE) →
            ∃ st, r.2.statement = some st))
    ∧ ordinal_uri_string 3 = "http://www.w3.org/1999/02/22-rdf-syntax-ns#_3" := by
  have hp := update_predicate_node_ordinal rstatement hkind hlo hhi
  refine ⟨ordinal_uri_fits rstatement.predicate_ordinal hlo hhi, ?_, by decide⟩
  unfold librdf_query_rasqal_query_results_update_statement
  cases statement_alloc_ok
  · exact ⟨_, rfl, by simp, by simp⟩
  · simp only [Bool.true_eq_false, if_false, hp]
    rcases update_subject_node_cases rstatement with ⟨hs, hs1, hs2⟩ | ⟨a, hs, _⟩
    · simp only [hs]
      exact ⟨_, rfl, by simp, by simp [hs1, hs2]⟩
    · rcases update_object_node_cases rstatement with ⟨ho, h1, h2, h3, h4⟩ | ⟨c, ho, _⟩
      · simp only [hs, ho]
        exact ⟨_, rfl, by simp, by simp [h1, h2, h3, h4]⟩
      · simp only [hs, ho]
        refine ⟨_, rfl, ?_, ?_⟩
        · intro st hst
          simp only [Option.some.injEq] at hst
          rw [← hst]
        · intro _ _ _
          exact ⟨_, rfl⟩

/-- Witness of C27: the engine triple with the ordinal 3. -/
theorem C27_ordinal_predicate_witness :
    sample_raptor_statement.predicate_type
      = raptor_identifier_type.RAPTOR_IDENTIFIER_TYPE_ORDINAL
    ∧ -(2 : Int) ^ 31 ≤ sample_raptor_statement.predicate_ordinal
    ∧ sample_raptor_statement.predicate_ordinal < (2 : Int) ^ 31
    ∧ librdf_query_rasqal_query_results_update_statement true sample_raptor_statement
        { statement := none, finished := 0 }
      = some (none,
          { statement := some
              { subject := some (librdf_node.resource "http://example.org/s"),
                predicate := some (librdf_node.resource
                  "http://www.w3.org/1999/02/22-rdf-syntax-ns#_3"),
                object := some (librdf_node.literal "o" none none) },
            finished := 0 })
    ∧ ((ordinal_uri_string sample_raptor_statement.predicate_ordinal).length + 1
        ≤ ordinal_buffer_size
      ∧ (∃ r, librdf_query_rasqal_query_results_update_statement true
                sample_raptor_statement { statement := none, finished := 0 } = some r
          ∧ (∀ st, r.2.statement = some st →
              st.predicate = some (librdf_node.resource
                ("http://www.w3.org/1999/02/22-rdf-syntax-ns#_"
                  ++ Int.repr sample_raptor_statement.predicate_ordinal)))
          ∧ (true = true →
              (sample_raptor_statement.subject_type
                  = raptor_identifier_type.RAPTOR_IDENTIFIER_TYPE_ANONYMOUS
                ∨ sample_raptor_statement.subject_type
                  = raptor_identifier_type.RAPTOR_IDENTIFIER_TYPE_RESOURCE) →
              (sample_raptor_statement.object_type
                  = raptor_identifier_type.RAPTOR_IDENTIFIER_TYPE_LITERAL
                ∨ sample_raptor_statement.object_type
                  = raptor_identifier_type.RAPTOR_IDENTIFIER_TYPE_XML_LITERAL
                ∨ sample_raptor_statement.object_type
                  = raptor_identifier_type.RAPTOR_IDENTIFIER_TYPE_ANONYMOUS
                ∨ sample_raptor_statement.object_type
                  = raptor_identifier_type.RAPTOR_IDENTIFIER_TYPE_RESOURCE) →
              ∃ st, r.2.statement = some st))
      ∧ ordinal_uri_string 3 = "http://www.w3.org/1999/02/22-rdf-syntax-ns#_3") :=
  ⟨rfl, by decide, by decide, by decide,
   C27_ordinal_predicate true sample_raptor_statement { statement := none, finished := 0 }
     rfl (by decide) (by decide)⟩

/-- C28: whenever the update routine returns a value, the value is 1 and the
current statement is NULL; it does so when the allocation of the statement
fails and when the subject, the predicate or the object of the engine triple
has a kind that is not mapped; a statement it leaves is never partly built. -/
theorem C28_failure_paths (statement_alloc_ok : Bool) (rstatement : raptor_statement)
    (scontext : librdf_query_rasqal_stream_context) :
    (∀ code sc, librdf_query_rasqal_query_results_update_statement statement_alloc_ok
          rstatement scontext = some (some code, sc) →
        code = 1 ∧ sc = { scontext with statement := none })
    ∧ (statement_alloc_ok = false →
        librdf_query_rasqal_query_results_update_statement statement_alloc_ok
          rstatement scontext = some (some 1, { scontext with statement := none }))
    ∧ (rstatement.subject_type ≠ raptor_identifier_type.RAPTOR_IDENTIFIER_TYPE_ANONYMOUS →
        rstatement.subject_type ≠ raptor_identifier_type.RAPTOR_IDENTIFIER_TYPE_RESOURCE →
        librdf_query_rasqal_query_results_update_statement statement_alloc_ok
          rstatement scontext = some (some 1, { scontext with statement := none }))
    ∧ (rstatement.predicate_type ≠ raptor_identifier_type.RAPTOR_IDENTIFIER_TYPE_ORDINAL →
        rstatement.predicate_type ≠ raptor_identifier_type.RAPTOR_IDENTIFIER_TYPE_PREDICATE →
        rstatement.predicate_type ≠ raptor_identifier_type.RAPTOR_IDENTIFIER_TYPE_RESOURCE →
        librdf_query_rasqal_query_results_update_statement statement_alloc_ok
          rstatement scontext = some (some 1, { scontext with statement := none }))
    ∧ (rstatement.object_type ≠ raptor_identifier_type.RAPTOR_IDENTIFIER_TYPE_LITERAL →
        rstatement.object_type ≠ raptor_identifier_type.RAPTOR_IDENTIFIER_TYPE_XML_LITERAL →
        rstatement.object_type ≠ raptor_identifier_type.RAPTOR_IDENTIFIER_TYPE_ANONYMOUS →
        rstatement.object_type ≠ raptor_identifier_type.RAPTOR_IDENTIFIER_TYPE_RESOURCE →
        (-(2 : Int) ^ 31 ≤ rstatement.predicate_ordinal
          ∧ rstatement.predicate_ordinal < (2 : Int) ^ 31) →
        librdf_query_rasqal_query_results_update_statement statement_alloc_ok
          rstatement scontext = some (some 1, { scontext with statement := none }))
    ∧ (∀ ret sc st, librdf_query_rasqal_query_results_update_statement statement_alloc_ok
          rstatement scontext = some (ret, sc) → sc.statement = some st →
        ret = none ∧ st.subject ≠ none ∧ st.predicate ≠ none ∧ st.object ≠ none) := by
  refine ⟨?_, ?_, ?_, ?_, ?_, ?_⟩
  · intro code sc h
    rcases update_statement_cases statement_alloc_ok rstatement scontext with
      hc | hc | ⟨a, b, c, hc⟩
    · rw [hc] at h
      simp at h
    · rw [hc] at h
      simp only [Option.some.injEq, Prod.mk.injEq] at h
      exact ⟨h.1.symm, h.2.symm⟩
    · rw [hc] at h
      simp at h
  · intro h
    simp [librdf_query_rasqal_query_results_update_statement, h]
  · intro h1 h2
    have hs : update_subject_node rstatement = none := by
      simp [update_subject_node, h1, h2]
    cases statement_alloc_ok <;>
      simp [librdf_query_rasqal_query_results_update_statement, hs]
  · intro h1 h2 h3
    have hp : update_predicate_node rstatement = some none := by
      simp [update_predicate_node, h1, h2, h3]
    cases statement_alloc_ok
    · simp [librdf_query_rasqal_query_results_update_statement]
    · rcases update_subject_node_cases rstatement with ⟨hs, _⟩ | ⟨a, hs, _⟩ <;>
        simp [librdf_query_rasqal_query_results_update_statement, hs, hp]
  · intro h1 h2 h3 h4 hr
    have ho : update_object_node rstatement = none := by
      simp [update_object_node, h1, h2, h3, h4]
    have hfit := ordinal_uri_fits rstatement.predicate_ordinal hr.1 hr.2
    have hsp : sprintf_ordinal_buffer rstatement.predicate_ordinal ≠ none := by
      unfold sprintf_ordinal_buffer
      rw [if_pos hfit]
      simp
    cases statement_alloc_ok
    · simp [librdf_query_rasqal_query_results_update_statement]
    · rcases update_subject_node_cases rstatement with ⟨hs, _⟩ | ⟨a, hs, _⟩
      · simp [librdf_query_rasqal_query_results_update_statement, hs]
      · rcases update_predicate_node_cases rstatement with
          ⟨_, _, hp⟩ | ⟨hp, _⟩ | ⟨b, hp, _⟩
        · exact absurd hp hsp
        · simp [librdf_query_rasqal_query_results_update_statement, hs, hp]
        · simp [librdf_query_rasqal_query_results_update_statement, hs, hp, ho]
  · intro ret sc st h hst
    rcases update_statement_cases statement_alloc_ok rstatement scontext with
      hc | hc | ⟨a, b, c, hc⟩
    · rw [hc] at h
      simp at h
    · rw [hc] at h
      simp only [Option.some.injEq, Prod.mk.injEq] at h
      rw [← h.2] at hst
      simp at hst
    · rw [hc] at h
      simp only [Option.some.injEq, Prod.mk.injEq] at h
      rw [← h.2] at hst
      simp only [Option.some.injEq] at hst
      rw [← hst]
      exact ⟨h.1.symm, by simp, by simp, by simp⟩

/-! ## The full scan of a store -/

/-- C29: for every store, a fresh cursor driven by FIRST and then by NEXT calls
with a key datum and a value datum returns the records of the store, each once
and in store order, and the call after the last record fails with -1. -/
theorem C29_full_scan (db : TCBDB) :
    scan_records db = some (db, -1)
    ∧ (∀ rs code, scan_records db = some (rs, code) → rs.length = tcbdbrnum db) := by
  refine ⟨scan_records_eq db, ?_⟩
  intro rs code h
  rw [scan_records_eq] at h
  simp only [Option.some.injEq, Prod.mk.injEq] at h
  rw [← h.1]
  rfl

/-! ## Claims about `rasqal_redland_bind_match` -/

/-- A mask that meets a single bit has that bit. -/
theorem testBit_of_and_two_pow_ne_zero (parts i : Nat) (h : parts &&& 2 ^ i ≠ 0) :
    parts.testBit i = true := by
  by_contra hb
  apply h
  apply Nat.eq_of_testBit_eq
  intro j
  simp only [Nat.testBit_and, Nat.testBit_two_pow, Nat.zero_testBit]
  by_cases hij : i = j
  · subst hij
    simp [hb]
  · simp [hij]

/-- Adding a requested bit keeps a mask inside the requested parts. -/
theorem mask_or_subset (parts m i : Nat) (hm : m &&& parts = m) (h : parts &&& 2 ^ i ≠ 0) :
    (m ||| 2 ^ i) &&& parts = m ||| 2 ^ i := by
  have hb := testBit_of_and_two_pow_ne_zero parts i h
  apply Nat.eq_of_testBit_eq
  intro j
  have hmj : (m &&& parts).testBit j = m.testBit j := by rw [hm]
  simp only [Nat.testBit_and] at hmj
  simp only [Nat.testBit_and, Nat.testBit_or, Nat.testBit_two_pow]
  by_cases hij : i = j
  · subst hij
    simp [hb]
  · simp [hij, hmj]

/-- Adding a bit does not add any other bit. -/
theorem mask_or_no_bit (m i k : Nat) (hm : m &&& 2 ^ k = 0) (hik : i ≠ k) :
    (m ||| 2 ^ i) &&& 2 ^ k = 0 := by
  apply Nat.eq_of_testBit_eq
  intro j
  have hmj : (m &&& 2 ^ k).testBit j = false := by rw [hm]; simp
  simp only [Nat.testBit_and, Nat.testBit_two_pow] at hmj
  simp only [Nat.testBit_and, Nat.testBit_or, Nat.testBit_two_pow, Nat.zero_testBit]
  by_cases hkj : k = j
  · subst hkj
    simp [hik] at hmj ⊢
    exact hmj
  · simp [hkj]

/-- A bit added to a mask is in the mask. -/
theorem mask_or_has_bit (m i : Nat) : (m ||| 2 ^ i) &&& 2 ^ i ≠ 0 := by
  intro h
  have : ((m ||| 2 ^ i) &&& 2 ^ i).testBit i = false := by rw [h]; simp
  simp [Nat.testBit_and, Nat.testBit_or, Nat.testBit_two_pow] at this

/-- Adding a bit keeps the bits of a mask. -/
theorem mask_or_keeps_bit (m i k : Nat) (h : m &&& 2 ^ k ≠ 0) :
    (m ||| 2 ^ i) &&& 2 ^ k ≠ 0 := by
  have hb := testBit_of_and_two_pow_ne_zero m k h
  intro h0
  have : ((m ||| 2 ^ i) &&& 2 ^ k).testBit k = false := by rw [h0]; simp
  simp [Nat.testBit_and, Nat.testBit_or, Nat.testBit_two_pow, hb] at this

/-- The subject block on a statement of three terms: it binds the subject when
its variable is present and the part is requested, and goes on either way. -/
theorem bind_subject_cases (values : VariableValues) (s p o : librdf_node)
    (b : rasqal_bindings) (parts : Nat) :
    (∃ v, b.subject = some v ∧ parts &&& RASQAL_TRIPLE_SUBJECT ≠ 0
      ∧ bind_subject values { subject := some s, predicate := some p, object := some o }
          b parts
        = some (BindFlow.goes_on RASQAL_TRIPLE_SUBJECT
            (rasqal_variable_set_value values v
              (rasqal_literal_as_node (redland_node_to_rasqal_literal s)))))
    ∨ ((b.subject = none ∨ parts &&& RASQAL_TRIPLE_SUBJECT = 0)
      ∧ bind_subject values { subject := some s, predicate := some p, object := some o }
          b parts
        = some (BindFlow.goes_on 0 values)) := by
  unfold bind_subject
  cases hb : b.subject with
  | none => exact Or.inr ⟨Or.inl rfl, rfl⟩
  | some v =>
    by_cases hp : parts &&& RASQAL_TRIPLE_SUBJECT = 0
    · exact Or.inr ⟨Or.inr hp, by simp [hp]⟩
    · exact Or.inl ⟨v, rfl, hp, by simp [hp]⟩

/-- The predicate block on a statement of three terms: a failed alias check, a
passed alias check, a binding, or nothing to do. -/
theorem bind_predicate_cases (result : Nat) (values : VariableValues) (s p o : librdf_node)
    (b : rasqal_bindings) (parts : Nat) :
    (b.predicate ≠ none ∧ parts &&& RASQAL_TRIPLE_PREDICATE ≠ 0
      ∧ b.subject = b.predicate ∧ s ≠ p
      ∧ bind_predicate result values
          { subject := some s, predicate := some p, object := some o } b parts
        = some (BindFlow.returned { parts := 0, values := values }))
    ∨ (b.predicate ≠ none ∧ parts &&& RASQAL_TRIPLE_PREDICATE ≠ 0
      ∧ b.subject = b.predicate ∧ s = p
      ∧ bind_predicate result values
          { subject := some s, predicate := some p, object := some o } b parts
        = some (BindFlow.goes_on result values))
    ∨ (∃ v, b.predicate = some v ∧ parts &&& RASQAL_TRIPLE_PREDICATE ≠ 0
      ∧ b.subject ≠ b.predicate
      ∧ bind_predicate result values
          { subject := some s, predicate := some p, object := some o } b parts
        = some (BindFlow.goes_on (result ||| RASQAL_TRIPLE_PREDICATE)
            (rasqal_variable_set_value values v
              (rasqal_literal_as_node (redland_node_to_rasqal_literal p)))))
    ∨ ((b.predicate = none ∨ parts &&& RASQAL_TRIPLE_PREDICATE = 0)
      ∧ bind_predicate result values
          { subject := some s, predicate := some p, object := some o } b parts
        = some (BindFlow.goes_on result values)) := by
  unfold bind_predicate
  cases hb : b.predicate with
  | none => exact Or.inr (Or.inr (Or.inr ⟨Or.inl rfl, rfl⟩))
  | some v =>
    by_cases hp : parts &&& RASQAL_TRIPLE_PREDICATE = 0
    · exact Or.inr (Or.inr (Or.inr ⟨Or.inr hp, by simp [hp]⟩))
    · by_cases ha : b.subject = some v
      · by_cases hsp : s = p
        · exact Or.inr (Or.inl ⟨by simp, hp, ha, hsp,
            by simp [hp, ha, hsp, librdf_node_equals]⟩)
        · exact Or.inl ⟨by simp, hp, ha, hsp, by simp [hp, ha, hsp, librdf_node_equals]⟩
      · exact Or.inr (Or.inr (Or.inl ⟨v, rfl, hp, ha, by simp [hp, ha]⟩))

/-- The object block on a statement of three terms: a failed alias check with
the subject, a failed alias check with the predicate, passed alias checks
without a binding, a binding, or nothing to do. -/
theorem bind_object_cases (result : Nat) (values : VariableValues) (s p o : librdf_node)
    (b : rasqal_bindings) (parts : Nat) :
    (b.object ≠ none ∧ parts &&& RASQAL_TRIPLE_OBJECT ≠ 0
      ∧ b.subject = b.object ∧ s ≠ o
      ∧ bind_object result values
          { subject := some s, predicate := some p, object := some o } b parts
        = some (BindFlow.returned { parts := 0, values := values }))
    ∨ (b.object ≠ none ∧ parts &&& RASQAL_TRIPLE_OBJECT ≠ 0
      ∧ (b.subject = b.object → s = o)
      ∧ b.predicate = b.object ∧ b.subject ≠ b.predicate ∧ p ≠ o
      ∧ bind_object result values
          { subject := some s, predicate := some p, object := some o } b parts
        = some (BindFlow.returned { parts := 0, values := values }))
    ∨ (b.object ≠ none ∧ parts &&& RASQAL_TRIPLE_OBJECT ≠ 0
      ∧ (b.subject = b.object ∨ b.predicate = b.object)
      ∧ (b.subject = b.object → s = o)
      ∧ (b.predicate = b.object → b.subject ≠ b.predicate → p = o)
      ∧ bind_object result values
          { subject := some s, predicate := some p, object := some o } b parts
        = some (BindFlow.goes_on result values))
    ∨ (∃ v, b.object = some v ∧ parts &&& RASQAL_TRIPLE_OBJECT ≠ 0
      ∧ b.subject ≠ b.object ∧ b.predicate ≠ b.object
      ∧ bind_object result values
          { subject := some s, predicate := some p, object := some o } b parts
        = some (BindFlow.goes_on (result ||| RASQAL_TRIPLE_OBJECT)
            (rasqal_variable_set_value values v
              (rasqal_literal_as_node (redland_node_to_rasqal_literal o)))))
    ∨ ((b.object = none ∨ parts &&& RASQAL_TRIPLE_OBJECT = 0)
      ∧ bind_object result values
          { subject := some s, predicate := some p, object := some o } b parts
        = some (BindFlow.goes_on result values)) := by
  unfold bind_object
  cases hb : b.object with
  | none => exact Or.inr (Or.inr (Or.inr (Or.inr ⟨Or.inl rfl, rfl⟩)))
  | some v =>
    by_cases hp : parts &&& RASQAL_TRIPLE_OBJECT = 0
    · exact Or.inr (Or.inr (Or.inr (Or.inr ⟨Or.inr hp, by simp [hp]⟩)))
    · by_cases h02 : b.subject = some v
      · by_cases hso : s = o
        · by_cases h12 : b.predicate = some v
          · have h01 : b.subject = b.predicate := by rw [h02, h12]
            exact Or.inr (Or.inr (Or.inl ⟨by simp, hp, Or.inl h02, fun _ => hso,
              fun _ h => absurd h01 h,
              by simp [hp, h02, h12, hso, librdf_node_equals]⟩))
          · exact Or.inr (Or.inr (Or.inl ⟨by simp, hp, Or.inl h02, fun _ => hso,
              fun h _ => absurd h h12,
              by simp [hp, h02, h12, hso, librdf_node_equals]⟩))
        · exact Or.inl ⟨by simp, hp, h02, hso, by simp [hp, h02, hso, librdf_node_equals]⟩
      · by_cases h12 : b.predicate = some v
        · have h01 : b.subject ≠ b.predicate := by rw [h12]; exact h02
          by_cases hpo : p = o
          · exact Or.inr (Or.inr (Or.inl ⟨by simp, hp, Or.inr h12, fun h => absurd h h02,
              fun _ _ => hpo,
              by simp [hp, h02, h12, hpo, librdf_node_equals]⟩))
          · exact Or.inr (Or.inl ⟨by simp, hp, fun h => absurd h h02, h12, h01, hpo,
              by simp [hp, h02, h12, hpo, librdf_node_equals]⟩)
        · exact Or.inr (Or.inr (Or.inr (Or.inl ⟨v, rfl, hp, h02, h12,
            by simp [hp, h02, h12]⟩)))

/-- The subject block on a statement of three terms always goes on: with the
subject bit and the variable set when the variable is present and the part is
requested, with nothing changed otherwise. -/
theorem bind_subject_goes_on (values : VariableValues) (s p o : librdf_node)
    (b : rasqal_bindings) (parts : Nat) :
    ∃ r1 v1, bind_subject values { subject := some s, predicate := some p, object := some o }
        b parts = some (BindFlow.goes_on r1 v1)
      ∧ ((∃ v, b.subject = some v ∧ parts &&& RASQAL_TRIPLE_SUBJECT ≠ 0
            ∧ r1 = RASQAL_TRIPLE_SUBJECT
            ∧ v1 = rasqal_variable_set_value values v
                (rasqal_literal_as_node (redland_node_to_rasqal_literal s)))
        ∨ ((b.subject = none ∨ parts &&& RASQAL_TRIPLE_SUBJECT = 0)
            ∧ r1 = 0 ∧ v1 = values)) := by
  rcases bind_subject_cases values s p o b parts with ⟨v, hv, hp, h⟩ | ⟨hn, h⟩
  · exact ⟨_, _, h, Or.inl ⟨v, hv, hp, rfl, rfl⟩⟩
  · exact ⟨_, _, h, Or.inr ⟨hn, rfl, rfl⟩⟩

/-- C25: when the three bindings are one variable and subject, predicate and
object are all requested, `bind_match` on a statement of three terms returns a
mask that is not empty exactly when subject, predicate and object of the
statement are pairwise equal terms. -/
theorem C25_same_variable (rtmc : rasqal_redland_triples_match_context)
    (values : VariableValues) (bindings : rasqal_bindings) (parts : Nat)
    (s p o : librdf_node) (rest : List librdf_statement) (v : rasqal_variable)
    (hstream : rtmc.stream
      = some ({ subject := some s, predicate := some p, object := some o } :: rest))
    (h0 : bindings.subject = some v) (h1 : bindings.predicate = some v)
    (h2 : bindings.object = some v)
    (hS : parts &&& RASQAL_TRIPLE_SUBJECT ≠ 0) (hP : parts &&& RASQAL_TRIPLE_PREDICATE ≠ 0)
    (hO : parts &&& RASQAL_TRIPLE_OBJECT ≠ 0) :
    ∃ r, rasqal_redland_bind_match rtmc values bindings parts = some r
      ∧ (r.parts ≠ 0 ↔ (s = p ∧ s = o ∧ p = o)) := by
  unfold rasqal_redland_bind_match
  simp only [hstream, Option.some_bind, List.head?_cons]
  obtain ⟨r1, v1, hs, hsf⟩ := bind_subject_goes_on values s p o bindings parts
  have hr1 : r1 = RASQAL_TRIPLE_SUBJECT := by
    rcases hsf with ⟨_, _, _, h, _⟩ | ⟨hn, _, _⟩
    · exact h
    · rcases hn with hn | hn
      · rw [h0] at hn
        simp at hn
      · exact absurd hn hS
  rw [hs]
  simp only []
  rcases bind_predicate_cases r1 v1 s p o bindings parts with
    ⟨_, _, _, hsp, hp⟩ | ⟨_, _, _, hsp, hp⟩ | ⟨w, _, _, hne, hp⟩ | ⟨hn, hp⟩
  · rw [hp]
    exact ⟨_, rfl, by simp [hsp]⟩
  · rw [hp]
    simp only []
    rcases bind_object_cases r1 v1 s p o bindings parts with
      ⟨_, _, _, hso, hob⟩ | ⟨_, _, _, _, hne, _, hob⟩ | ⟨_, _, _, hso, _, hob⟩
        | ⟨w, _, _, hne, _, hob⟩ | ⟨hn, hob⟩
    · rw [hob]
      exact ⟨_, rfl, by simp [hso]⟩
    · rw [h0, h1] at hne
      exact absurd rfl hne
    · rw [hob]
      have hso2 : s = o := hso (by rw [h0, h2])
      refine ⟨_, rfl, ?_⟩
      simp only [hr1, RASQAL_TRIPLE_SUBJECT]
      constructor
      · intro _
        exact ⟨hsp, hso2, by rw [← hsp, hso2]⟩
      · intro _
        decide
    · rw [h0, h2] at hne
      exact absurd rfl hne
    · rcases hn with hn | hn
      · rw [h2] at hn
        simp at hn
      · exact absurd hn hO
  · rw [h0, h1] at hne
    exact absurd rfl hne
  · rcases hn with hn | hn
    · rw [h1] at hn
      simp at hn
    · exact absurd hn hP

/-- C24: the aliasing rules of `bind_match` on a statement of three terms. A
requested predicate that shares its variable with the subject gives the empty
mask when subject and predicate differ; a requested object that shares its
variable with the subject gives the empty mask when subject and object differ
and is not bound; a requested object that shares its variable with the
predicate but not with the subject gives the empty mask when predicate and
object differ and is not bound. -/
theorem C24_alias_rules (rtmc : rasqal_redland_triples_match_context)
    (values : VariableValues) (bindings : rasqal_bindings) (parts : Nat)
    (s p o : librdf_node) (rest : List librdf_statement)
    (hstream : rtmc.stream
      = some ({ subject := some s, predicate := some p, object := some o } :: rest)) :
    ∃ r, rasqal_redland_bind_match rtmc values bindings parts = some r
      ∧ (bindings.predicate ≠ none → parts &&& RASQAL_TRIPLE_PREDICATE ≠ 0 →
          bindings.subject = bindings.predicate → s ≠ p → r.parts = 0)
      ∧ (bindings.object ≠ none → parts &&& RASQAL_TRIPLE_OBJECT ≠ 0 →
          bindings.subject = bindings.object →
          (s ≠ o → r.parts = 0) ∧ r.parts &&& RASQAL_TRIPLE_OBJECT = 0)
      ∧ (bindings.object ≠ none → parts &&& RASQAL_TRIPLE_OBJECT ≠ 0 →
          bindings.predicate = bindings.object → bindings.subject ≠ bindings.predicate →
          (p ≠ o → r.parts = 0) ∧ r.parts &&& RASQAL_TRIPLE_OBJECT = 0) := by
  unfold rasqal_redland_bind_match
  simp only [hstream, Option.some_bind, List.head?_cons]
  obtain ⟨r1, v1, hs, hsf⟩ := bind_subject_goes_on values s p o bindings parts
  have hr1 : r1 &&& RASQAL_TRIPLE_OBJECT = 0 := by
    rcases hsf with ⟨_, _, _, h, _⟩ | ⟨_, h, _⟩ <;> rw [h] <;> decide
  rw [hs]
  simp only []
  have hz : (0 : Nat) &&& RASQAL_TRIPLE_OBJECT = 0 := by decide
  have hpred : (bindings.predicate ≠ none ∧ parts &&& RASQAL_TRIPLE_PREDICATE ≠ 0
        ∧ bindings.subject = bindings.predicate ∧ s ≠ p
        ∧ bind_predicate r1 v1 { subject := some s, predicate := some p, object := some o }
            bindings parts
          = some (BindFlow.returned { parts := 0, values := v1 }))
      ∨ ∃ r2 v2, bind_predicate r1 v1
            { subject := some s, predicate := some p, object := some o } bindings parts
          = some (BindFlow.goes_on r2 v2)
        ∧ r2 &&& RASQAL_TRIPLE_OBJECT = 0
        ∧ (bindings.predicate ≠ none → parts &&& RASQAL_TRIPLE_PREDICATE ≠ 0 →
            bindings.subject = bindings.predicate → s = p) := by
    rcases bind_predicate_cases r1 v1 s p o bindings parts with
      h | ⟨_, _, _, hsp, hp⟩ | ⟨w, _, _, hne, hp⟩ | ⟨hn, hp⟩
    · exact Or.inl h
    · exact Or.inr ⟨_, _, hp, hr1, fun _ _ _ => hsp⟩
    · refine Or.inr ⟨_, _, hp, ?_, fun _ _ h => absurd h hne⟩
      have := mask_or_no_bit r1 1 2 (by simpa [RASQAL_TRIPLE_OBJECT] using hr1) (by decide)
      simpa [RASQAL_TRIPLE_OBJECT, RASQAL_TRIPLE_PREDICATE] using this
    · refine Or.inr ⟨_, _, hp, hr1, ?_⟩
      intro h1 h2 _
      rcases hn with hn | hn
      · exact absurd hn h1
      · exact absurd hn h2
  rcases hpred with ⟨_, _, _, _, hp⟩ | ⟨r2, v2, hp, hr2, hrule1⟩
  · rw [hp]
    exact ⟨_, rfl, fun _ _ _ _ => rfl, fun _ _ _ => ⟨fun _ => rfl, hz⟩,
      fun _ _ _ _ => ⟨fun _ => rfl, hz⟩⟩
  · rw [hp]
    simp only []
    rcases bind_object_cases r2 v2 s p o bindings parts with
      ⟨_, _, _, _, hob⟩ | ⟨_, _, _, _, _, _, hob⟩ | ⟨_, _, _, hso, hpo, hob⟩
        | ⟨w, _, _, hne02, hne12, hob⟩ | ⟨hn, hob⟩
    · rw [hob]
      exact ⟨_, rfl, fun _ _ _ _ => rfl, fun _ _ _ => ⟨fun _ => rfl, hz⟩,
        fun _ _ _ _ => ⟨fun _ => rfl, hz⟩⟩
    · rw [hob]
      exact ⟨_, rfl, fun _ _ _ _ => rfl, fun _ _ _ => ⟨fun _ => rfl, hz⟩,
        fun _ _ _ _ => ⟨fun _ => rfl, hz⟩⟩
    · rw [hob]
      refine ⟨_, rfl, ?_, ?_, ?_⟩
      · intro h1 h2 h3 h4
        exact absurd (hrule1 h1 h2 h3) h4
      · intro _ _ h3
        exact ⟨fun h4 => absurd (hso h3) h4, hr2⟩
      · intro _ _ h3 h4
        exact ⟨fun h5 => absurd (hpo h3 h4) h5, hr2⟩
    · rw [hob]
      refine ⟨_, rfl, ?_, ?_, ?_⟩
      · intro h1 h2 h3 h4
        exact absurd (hrule1 h1 h2 h3) h4
      · intro _ _ h3
        exact absurd h3 hne02
      · intro _ _ h3 _
        exact absurd h3 hne12
    · rw [hob]
      refine ⟨_, rfl, ?_, ?_, ?_⟩
      · intro h1 h2 h3 h4
        exact absurd (hrule1 h1 h2 h3) h4
      · intro h1 h2 _
        rcases hn with hn | hn
        · exact absurd hn h1
        · exact absurd hn h2
      · intro h1 h2 _ _
        rcases hn with hn | hn
        · exact absurd hn h1
        · exact absurd hn h2

/-- The value just stored in a variable. -/
theorem set_value_same (values : VariableValues) (v : rasqal_variable) (l : rasqal_literal) :
    rasqal_variable_set_value values v l v = some l := by
  simp [rasqal_variable_set_value]

/-- Storing a value in a variable leaves every other variable as it was. -/
theorem set_value_other (values : VariableValues) (v w : rasqal_variable)
    (l : rasqal_literal) (h : w ≠ v) :
    rasqal_variable_set_value values v l w = values w := by
  simp [rasqal_variable_set_value, h]

/-- A return with the empty mask after a failed alias check meets the frame. -/
theorem bind_frame_failed (values vk : VariableValues) (b : rasqal_bindings) (parts : Nat)
    (s p o : librdf_node)
    (hframe : ∀ w, b.subject ≠ some w → b.predicate ≠ some w → b.object ≠ some w →
      vk w = values w)
    (hnot : ¬ alias_checks_pass b parts s p o) :
    bind_frame values b parts s p o { parts := 0, values := vk } := by
  refine ⟨by simp, by simp, hframe, ?_, ?_⟩
  · intro h
    exact absurd rfl h
  · intro h
    exact absurd h hnot

/-- The frame of `bind_match` on a statement of three terms, by the blocks. -/
theorem bind_match_frame (rtmc : rasqal_redland_triples_match_context)
    (values : VariableValues) (b : rasqal_bindings) (parts : Nat)
    (s p o : librdf_node) (rest : List librdf_statement)
    (hstream : rtmc.stream
      = some ({ subject := some s, predicate := some p, object := some o } :: rest)) :
    ∃ r, rasqal_redland_bind_match rtmc values b parts = some r
      ∧ bind_frame values b parts s p o r := by
  unfold rasqal_redland_bind_match
  simp only [hstream, Option.some_bind, List.head?_cons]
  obtain ⟨r1, v1, hs, hsf⟩ := bind_subject_goes_on values s p o b parts
  rw [hs]
  simp only []
  -- what holds after the subject block
  have hI1 : (r1 &&& parts = r1 ∧ r1 &&& RASQAL_TRIPLE_ORIGIN = 0)
      ∧ (∀ w, b.subject ≠ some w → v1 w = values w)
      ∧ (∀ v, b.subject = some v → parts &&& RASQAL_TRIPLE_SUBJECT ≠ 0 →
          v1 v = some (rasqal_literal_as_node (redland_node_to_rasqal_literal s))
            ∧ r1 &&& RASQAL_TRIPLE_SUBJECT ≠ 0) := by
    rcases hsf with ⟨v, hv, hreq, hr, hv1⟩ | ⟨hn, hr, hv1⟩
    · subst hr hv1
      refine ⟨⟨?_, by decide⟩, ?_, ?_⟩
      · have := mask_or_subset parts 0 0 (by simp)
          (by simpa [RASQAL_TRIPLE_SUBJECT] using hreq)
        simpa [RASQAL_TRIPLE_SUBJECT] using this
      · intro w hw
        apply set_value_other
        intro h
        apply hw
        rw [hv, h]
      · intro v2 hv2 _
        have hvv : v2 = v := by
          rw [hv] at hv2
          exact (Option.some.inj hv2).symm
        subst hvv
        exact ⟨set_value_same _ _ _, by decide⟩
    · subst hr hv1
      refine ⟨⟨by simp, by simp⟩, fun _ _ => rfl, ?_⟩
      intro v hv hreq
      rcases hn with hn | hn
      · rw [hv] at hn
        simp at hn
      · exact absurd hn hreq
  obtain ⟨⟨hm1, ho1⟩, hf1, hsub1⟩ := hI1
  -- what holds after the predicate block, unless its alias check fails
  have hpred : (b.predicate ≠ none ∧ parts &&& RASQAL_TRIPLE_PREDICATE ≠ 0
        ∧ b.subject = b.predicate ∧ s ≠ p
        ∧ bind_predicate r1 v1 { subject := some s, predicate := some p, object := some o }
            b parts
          = some (BindFlow.returned { parts := 0, values := v1 }))
      ∨ ∃ r2 v2, bind_predicate r1 v1
            { subject := some s, predicate := some p, object := some o } b parts
          = some (BindFlow.goes_on r2 v2)
        ∧ (r2 &&& parts = r2 ∧ r2 &&& RASQAL_TRIPLE_ORIGIN = 0)
        ∧ (∀ w, b.subject ≠ some w → b.predicate ≠ some w → v2 w = values w)
        ∧ (∀ v, b.subject = some v → parts &&& RASQAL_TRIPLE_SUBJECT ≠ 0 →
            v2 v = some (rasqal_literal_as_node (redland_node_to_rasqal_literal s))
              ∧ r2 &&& RASQAL_TRIPLE_SUBJECT ≠ 0)
        ∧ (∀ v, b.predicate = some v → parts &&& RASQAL_TRIPLE_PREDICATE ≠ 0 →
            b.subject ≠ b.predicate →
            v2 v = some (rasqal_literal_as_node (redland_node_to_rasqal_literal p))
              ∧ r2 &&& RASQAL_TRIPLE_PREDICATE ≠ 0)
        ∧ (b.predicate ≠ none → parts &&& RASQAL_TRIPLE_PREDICATE ≠ 0 →
            b.subject = b.predicate → s = p) := by
    rcases bind_predicate_cases r1 v1 s p o b parts with
      h | ⟨_, _, h01, hsp, hp⟩ | ⟨vp, hvp, hpreq, hne01, hp⟩ | ⟨hn, hp⟩
    · exact Or.inl h
    · exact Or.inr ⟨_, _, hp, ⟨hm1, ho1⟩, fun w h0 _ => hf1 w h0, hsub1,
        fun _ _ _ hne => absurd h01 hne, fun _ _ _ => hsp⟩
    · refine Or.inr ⟨_, _, hp, ⟨?_, ?_⟩, ?_, ?_, ?_, fun _ _ h => absurd h hne01⟩
      · have := mask_or_subset parts r1 1 hm1
          (by simpa [RASQAL_TRIPLE_PREDICATE] using hpreq)
        simpa [RASQAL_TRIPLE_PREDICATE] using this
      · have := mask_or_no_bit r1 1 3 (by simpa [RASQAL_TRIPLE_ORIGIN] using ho1)
          (by decide)
        simpa [RASQAL_TRIPLE_PREDICATE, RASQAL_TRIPLE_ORIGIN] using this
      · intro w h0 h1
        rw [set_value_other]
        · exact hf1 w h0
        · intro h
          apply h1
          rw [hvp, h]
      · intro v hv hreq
        have hvne : v ≠ vp := by
          intro h
          apply hne01
          rw [hv, hvp, h]
        refine ⟨?_, ?_⟩
        · rw [set_value_other _ _ _ _ hvne]
          exact (hsub1 v hv hreq).1
        · have := mask_or_keeps_bit r1 1 0
            (by simpa [RASQAL_TRIPLE_SUBJECT] using (hsub1 v hv hreq).2)
          simpa [RASQAL_TRIPLE_PREDICATE, RASQAL_TRIPLE_SUBJECT] using this
      · intro v hv _ _
        have hvv : v = vp := by
          rw [hvp] at hv
          exact (Option.some.inj hv).symm
        subst hvv
        refine ⟨set_value_same _ _ _, ?_⟩
        have := mask_or_has_bit r1 1
        simpa [RASQAL_TRIPLE_PREDICATE] using this
    · refine Or.inr ⟨_, _, hp, ⟨hm1, ho1⟩, fun w h0 _ => hf1 w h0, hsub1, ?_, ?_⟩
      · intro v hv hreq _
        rcases hn with hn | hn
        · rw [hv] at hn
          simp at hn
        · exact absurd hn hreq
      · intro h1 h2 _
        rcases hn with hn | hn
        · exact absurd hn h1
        · exact absurd hn h2
  rcases hpred with ⟨hpn, hpreq, h01, hsp, hp⟩
    | ⟨r2, v2, hp, ⟨hm2, ho2⟩, hf2, hsub2, hprd2, hrule1⟩
  · rw [hp]
    refine ⟨_, rfl, bind_frame_failed values v1 b parts s p o ?_ ?_⟩
    · intro w h0 _ _
      exact hf1 w h0
    · intro h
      exact hsp (h.1 hpn hpreq h01)
  · rw [hp]
    simp only []
    rcases bind_object_cases r2 v2 s p o b parts with
      ⟨hon, horeq, h02, hso, hob⟩ | ⟨hon, horeq, _, h12, hne01, hpo, hob⟩
        | ⟨hon, horeq, hal, hso, hpo, hob⟩ | ⟨vo, hvo, horeq, hne02, hne12, hob⟩
        | ⟨hn, hob⟩
    · rw [hob]
      refine ⟨_, rfl, bind_frame_failed values v2 b parts s p o ?_ ?_⟩
      · intro w h0 h1 _
        exact hf2 w h0 h1
      · intro h
        exact hso (h.2.1 hon horeq h02)
    · rw [hob]
      refine ⟨_, rfl, bind_frame_failed values v2 b parts s p o ?_ ?_⟩
      · intro w h0 h1 _
        exact hf2 w h0 h1
      · intro h
        exact hpo (h.2.2 hon horeq h12 hne01)
    · rw [hob]
      have halias : alias_checks_pass b parts s p o :=
        ⟨hrule1, fun _ _ h => hso h, fun _ _ h h2 => hpo h h2⟩
      refine ⟨_, rfl, hm2, ho2, fun w h0 h1 _ => hf2 w h0 h1, fun _ => halias,
        fun _ => ⟨hsub2, hprd2, ?_⟩⟩
      intro v _ _ hne02 hne12
      rcases hal with hal | hal
      · exact absurd hal hne02
      · exact absurd hal hne12
    · rw [hob]
      have halias : alias_checks_pass b parts s p o :=
        ⟨hrule1, fun _ _ h => absurd h hne02, fun _ _ h _ => absurd h hne12⟩
      refine ⟨_, rfl, ?_, ?_, ?_, fun _ => halias, fun _ => ⟨?_, ?_, ?_⟩⟩
      · have := mask_or_subset parts r2 2 hm2
          (by simpa [RASQAL_TRIPLE_OBJECT] using horeq)
        simpa [RASQAL_TRIPLE_OBJECT] using this
      · have := mask_or_no_bit r2 2 3 (by simpa [RASQAL_TRIPLE_ORIGIN] using ho2)
          (by decide)
        simpa [RASQAL_TRIPLE_OBJECT, RASQAL_TRIPLE_ORIGIN] using this
      · intro w h0 h1 h2
        show rasqal_variable_set_value v2 vo _ w = values w
        rw [set_value_other]
        · exact hf2 w h0 h1
        · intro h
          apply h2
          rw [hvo, h]
      · intro v hv hreq
        have hvne : v ≠ vo := by
          intro h
          apply hne02
          rw [hv, hvo, h]
        refine ⟨?_, ?_⟩
        · show rasqal_variable_set_value v2 vo _ v = _
          rw [set_value_other _ _ _ _ hvne]
          exact (hsub2 v hv hreq).1
        · have := mask_or_keeps_bit r2 2 0
            (by simpa [RASQAL_TRIPLE_SUBJECT] using (hsub2 v hv hreq).2)
          simpa [RASQAL_TRIPLE_OBJECT, RASQAL_TRIPLE_SUBJECT] using this
      · intro v hv hreq hne
        have hvne : v ≠ vo := by
          intro h
          apply hne12
          rw [hv, hvo, h]
        refine ⟨?_, ?_⟩
        · show rasqal_variable_set_value v2 vo _ v = _
          rw [set_value_other _ _ _ _ hvne]
          exact (hprd2 v hv hreq hne).1
        · have := mask_or_keeps_bit r2 2 1
            (by simpa [RASQAL_TRIPLE_PREDICATE] using (hprd2 v hv hreq hne).2)
          simpa [RASQAL_TRIPLE_OBJECT, RASQAL_TRIPLE_PREDICATE] using this
      · intro v hv _ _ _
        have hvv : v = vo := by
          rw [hvo] at hv
          exact (Option.some.inj hv).symm
        subst hvv
        refine ⟨set_value_same _ _ _, ?_⟩
        have := mask_or_has_bit r2 2
        simpa [RASQAL_TRIPLE_OBJECT] using this
    · rw [hob]
      have halias : alias_checks_pass b parts s p o := by
        refine ⟨hrule1, ?_, ?_⟩
        · intro h1 h2 _
          rcases hn with hn | hn
          · exact absurd hn h1
          · exact absurd hn h2
        · intro h1 h2 _ _
          rcases hn with hn | hn
          · exact absurd hn h1
          · exact absurd hn h2
      refine ⟨_, rfl, hm2, ho2, fun w h0 h1 _ => hf2 w h0 h1, fun _ => halias,
        fun _ => ⟨hsub2, hprd2, ?_⟩⟩
      intro v hv hreq _ _
      rcases hn with hn | hn
      · rw [hv] at hn
        simp at hn
      · exact absurd hn hreq

/-- Witness of C24: one call for each of the three rules, on the statement of
three different terms. -/
theorem C24_alias_rules_witness :
    (∃ r, rasqal_redland_bind_match (sample_match_context sample_statement) no_values
        { subject := some 1, predicate := some 1, object := none, origin := none } 3 = some r
      ∧ r.parts = 0)
    ∧ (∃ r, rasqal_redland_bind_match (sample_match_context sample_statement) no_values
        { subject := some 1, predicate := none, object := some 1, origin := none } 5 = some r
      ∧ r.parts = 0 ∧ r.parts &&& RASQAL_TRIPLE_OBJECT = 0)
    ∧ (∃ r, rasqal_redland_bind_match (sample_match_context sample_statement) no_values
        { subject := none, predicate := some 1, object := some 1, origin := none } 6 = some r
      ∧ r.parts = 0 ∧ r.parts &&& RASQAL_TRIPLE_OBJECT = 0) :=
  ⟨(C24_alias_rules (sample_match_context sample_statement) no_values
      { subject := some 1, predicate := some 1, object := none, origin := none } 3
      (librdf_node.resource "http://example.org/s")
      (librdf_node.resource "http://example.org/p")
      (librdf_node.literal "o" none none) [] rfl).imp
      (fun _ h => ⟨h.1, h.2.1 (by decide) (by decide) rfl (by decide)⟩),
   (C24_alias_rules (sample_match_context sample_statement) no_values
      { subject := some 1, predicate := none, object := some 1, origin := none } 5
      (librdf_node.resource "http://example.org/s")
      (librdf_node.resource "http://example.org/p")
      (librdf_node.literal "o" none none) [] rfl).imp
      (fun _ h => ⟨h.1, (h.2.2.1 (by decide) (by decide) rfl).1 (by decide),
        (h.2.2.1 (by decide) (by decide) rfl).2⟩),
   (C24_alias_rules (sample_match_context sample_statement) no_values
      { subject := none, predicate := some 1, object := some 1, origin := none } 6
      (librdf_node.resource "http://example.org/s")
      (librdf_node.resource "http://example.org/p")
      (librdf_node.literal "o" none none) [] rfl).imp
      (fun _ h => ⟨h.1, (h.2.2.2 (by decide) (by decide) rfl (by decide)).1 (by decide),
        (h.2.2.2 (by decide) (by decide) rfl (by decide)).2⟩)⟩

/-- Witness of C25: the pattern of one variable in all three slots on a
statement whose three terms are one term. -/
theorem C25_same_variable_witness :
    ∃ r, rasqal_redland_bind_match
        (sample_match_context
          { subject := some (librdf_node.resource "http://example.org/s"),
            predicate := some (librdf_node.resource "http://example.org/s"),
            object := some (librdf_node.resource "http://example.org/s") })
        no_values { subject := some 1, predicate := some 1, object := some 1, origin := none } 7
        = some r
      ∧ (r.parts ≠ 0 ↔
          (librdf_node.resource "http://example.org/s"
              = librdf_node.resource "http://example.org/s"
            ∧ librdf_node.resource "http://example.org/s"
              = librdf_node.resource "http://example.org/s"
            ∧ librdf_node.resource "http://example.org/s"
              = librdf_node.resource "http://example.org/s")) :=
  C25_same_variable
    (sample_match_context
      { subject := some (librdf_node.resource "http://example.org/s"),
        predicate := some (librdf_node.resource "http://example.org/s"),
        object := some (librdf_node.resource "http://example.org/s") })
    no_values { subject := some 1, predicate := some 1, object := some 1, origin := none } 7
    (librdf_node.resource "http://example.org/s") (librdf_node.resource "http://example.org/s")
    (librdf_node.resource "http://example.org/s") [] 1 rfl rfl rfl rfl
    (by decide) (by decide) (by decide)

/-- C26, as written, fails: with subject and predicate requested on one
variable and a statement whose subject and predicate differ, the subject slot
is requested, has its variable and is aliased with no earlier slot, yet the
mask returned does not hold the subject bit. -/
theorem C26_subject_bit_not_set :
    ({ subject := some 1, predicate := some 1, object := none, origin := none }
        : rasqal_bindings).subject = some 1
    ∧ 3 &&& RASQAL_TRIPLE_SUBJECT ≠ 0
    ∧ (rasqal_redland_bind_match (sample_match_context sample_statement) no_values
        { subject := some 1, predicate := some 1, object := none, origin := none } 3).map
        (fun r => r.parts &&& RASQAL_TRIPLE_SUBJECT) = some 0 := by
  refine ⟨rfl, by decide, ?_⟩
  rfl

/-- C26, amended: on a statement of three terms `bind_match` returns a mask
inside the requested parts and without the origin bit, and changes the value
of no variable but those of the subject, predicate and object bindings; a mask
that is not empty tells that no alias check failed; and when no alias check
fails, every requested slot whose variable is present and not shared with an
earlier slot has its variable set to the literal of the term of the statement
in that slot and its bit in the mask. -/
theorem C26_bind_frame (rtmc : rasqal_redland_triples_match_context)
    (values : VariableValues) (bindings : rasqal_bindings) (parts : Nat)
    (s p o : librdf_node) (rest : List librdf_statement)
    (hstream : rtmc.stream
      = some ({ subject := some s, predicate := some p, object := some o } :: rest)) :
    ∃ r, rasqal_redland_bind_match rtmc values bindings parts = some r
      ∧ r.parts &&& parts = r.parts
      ∧ r.parts &&& RASQAL_TRIPLE_ORIGIN = 0
      ∧ (∀ w, bindings.subject ≠ some w → bindings.predicate ≠ some w →
          bindings.object ≠ some w → r.values w = values w)
      ∧ (r.parts ≠ 0 → alias_checks_pass bindings parts s p o)
      ∧ (((bindings.predicate ≠ none → parts &&& RASQAL_TRIPLE_PREDICATE ≠ 0 →
              bindings.subject = bindings.predicate → s = p)
            ∧ (bindings.object ≠ none → parts &&& RASQAL_TRIPLE_OBJECT ≠ 0 →
              bindings.subject = bindings.object → s = o)
            ∧ (bindings.object ≠ none → parts &&& RASQAL_TRIPLE_OBJECT ≠ 0 →
              bindings.predicate = bindings.object →
              bindings.subject ≠ bindings.predicate → p = o)) →
          (∀ v, bindings.subject = some v → parts &&& RASQAL_TRIPLE_SUBJECT ≠ 0 →
            r.values v = some (rasqal_literal_as_node (redland_node_to_rasqal_literal s))
              ∧ r.parts &&& RASQAL_TRIPLE_SUBJECT ≠ 0)
          ∧ (∀ v, bindings.predicate = some v → parts &&& RASQAL_TRIPLE_PREDICATE ≠ 0 →
            bindings.subject ≠ bindings.predicate →
            r.values v = some (rasqal_literal_as_node (redland_node_to_rasqal_literal p))
              ∧ r.parts &&& RASQAL_TRIPLE_PREDICATE ≠ 0)
          ∧ (∀ v, bindings.object = some v → parts &&& RASQAL_TRIPLE_OBJECT ≠ 0 →
            bindings.subject ≠ bindings.object → bindings.predicate ≠ bindings.object →
            r.values v = some (rasqal_literal_as_node (redland_node_to_rasqal_literal o))
              ∧ r.parts &&& RASQAL_TRIPLE_OBJECT ≠ 0)) := by
  obtain ⟨r, hr, h1, h2, h3, h4, h5⟩ :=
    bind_match_frame rtmc values bindings parts s p o rest hstream
  exact ⟨r, hr, h1, h2, h3, h4, h5⟩

/-- Witness of C26: three different variables, all three parts requested. -/
theorem C26_bind_frame_witness :
    (sample_match_context sample_statement).stream
      = some ({ subject := some (librdf_node.resource "http://example.org/s"),
                predicate := some (librdf_node.resource "http://example.org/p"),
                object := some (librdf_node.literal "o" none none) } :: [])
    ∧ ∃ r, rasqal_redland_bind_match (sample_match_context sample_statement) no_values
          { subject := some 1, predicate := some 2, object := some 3, origin := some 4 } 7
        = some r
      ∧ (r.values 1 = some (rasqal_literal_as_node (redland_node_to_rasqal_literal
            (librdf_node.resource "http://example.org/s")))
          ∧ r.parts &&& RASQAL_TRIPLE_SUBJECT ≠ 0)
      ∧ (r.values 2 = some (rasqal_literal_as_node (redland_node_to_rasqal_literal
            (librdf_node.resource "http://example.org/p")))
          ∧ r.parts &&& RASQAL_TRIPLE_PREDICATE ≠ 0)
      ∧ (r.values 3 = some (rasqal_literal_as_node (redland_node_to_rasqal_literal
            (librdf_node.literal "o" none none)))
          ∧ r.parts &&& RASQAL_TRIPLE_OBJECT ≠ 0)
      ∧ r.values 4 = no_values 4
      ∧ r.parts &&& 7 = r.parts
      ∧ r.parts &&& RASQAL_TRIPLE_ORIGIN = 0 :=
  ⟨rfl,
   (C26_bind_frame (sample_match_context sample_statement) no_values
      { subject := some 1, predicate := some 2, object := some 3, origin := some 4 } 7
      (librdf_node.resource "http://example.org/s")
      (librdf_node.resource "http://example.org/p")
      (librdf_node.literal "o" none none) [] rfl).imp
     (fun _ h => ⟨h.1,
       (h.2.2.2.2.2 ⟨fun _ _ h2 => absurd h2 (by decide),
          fun _ _ h2 => absurd h2 (by decide),
          fun _ _ h2 => absurd h2 (by decide)⟩).1 1 rfl (by decide),
       (h.2.2.2.2.2 ⟨fun _ _ h2 => absurd h2 (by decide),
          fun _ _ h2 => absurd h2 (by decide),
          fun _ _ h2 => absurd h2 (by decide)⟩).2.1 2 rfl (by decide) (by decide),
       (h.2.2.2.2.2 ⟨fun _ _ h2 => absurd h2 (by decide),
          fun _ _ h2 => absurd h2 (by decide),
          fun _ _ h2 => absurd h2 (by decide)⟩).2.2 3 rfl (by decide) (by decide)
            (by decide),
       h.2.2.2.1 4 (by decide) (by decide) (by decide),
       h.2.1, h.2.2.1⟩)⟩

/-- C30: `bind_match` is not atomic on a failed alias check: with subject and
predicate on one variable, both parts requested and a statement whose subject
and predicate differ, it returns the empty mask and has set the variable,
which held no value, to the literal of the subject. -/
theorem C30_bind_match_not_atomic :
    ∃ (rtmc : rasqal_redland_triples_match_context) (values : VariableValues)
      (bindings : rasqal_bindings) (parts : Nat) (s p o : librdf_node)
      (v : rasqal_variable) (r : BindResult),
      rtmc.stream = some [{ subject := some s, predicate := some p, object := some o }]
      ∧ bindings.subject = some v ∧ bindings.predicate = some v
      ∧ s ≠ p
      ∧ parts &&& RASQAL_TRIPLE_SUBJECT ≠ 0 ∧ parts &&& RASQAL_TRIPLE_PREDICATE ≠ 0
      ∧ values v = none
      ∧ rasqal_redland_bind_match rtmc values bindings parts = some r
      ∧ r.parts = 0
      ∧ r.values v = some (rasqal_literal_as_node (redland_node_to_rasqal_literal s)) :=
  ⟨sample_match_context sample_statement, no_values,
   { subject := some 1, predicate := some 1, object := none, origin := none }, 3,
   librdf_node.resource "http://example.org/s", librdf_node.resource "http://example.org/p",
   librdf_node.literal "o" none none, 1,
   { parts := 0,
     values := rasqal_variable_set_value no_values 1
       (rasqal_literal_as_node (redland_node_to_rasqal_literal
         (librdf_node.resource "http://example.org/s"))) },
   rfl, rfl, rfl, by decide, by decide, by decide, rfl, rfl, rfl, rfl⟩

end Librdf
